import Mathlib

set_option maxHeartbeats 4000000
set_option maxRecDepth 100000

/-!
Verification of the SIMD-friendly trial-division sieve (simdprime.c).

This file shallowly embeds the data model and operations of the sieve:
16-bit lane arithmetic is modelled on `Nat` with explicit `% 65536`,
the 64-bit LSB mirror with explicit `% 2 ^ 64`, lane vectors as
`List Nat`, and the unbounded driver loops with an explicit fuel
parameter.  The unrolled 64-lane block wrappers of the C source are
modelled as block iteration over the same index ranges.

The precomputed tables of firstprimes.h are not part of the sources;
they are modelled from the specification (see the table definitions).
-/

namespace Simddivide

/-- Source le16mask: map A less-or-equal B to all-ones (0xffff), 0 otherwise. -/
def le16mask (a b : Nat) : Nat :=
  if a ≤ b then 65535 else 0

/-- Source add_if_ge: return val + add (as uint16) if limit ≤ val, val otherwise. -/
def add_if_ge (val limit add : Nat) : Nat :=
  (val + if limit ≤ val then add else 0) % 65536

/-- Source m2range_1unit: conditionally add the m2r lane when the value
reached 0x8000, folding the lane back while preserving its residue. -/
def m2range_1unit (val m2r : Nat) : Nat :=
  add_if_ge val 32768 m2r

/-- Square-and-multiply modular exponentiation; fuel bounds the number of
squarings (16 suffices for exponents below 2 ^ 16). -/
def powModAux : Nat → Nat → Nat → Nat → Nat
  | 0, _, _, m => 1 % m
  | fuel + 1, b, e, m =>
    if e = 0 then 1 % m
    else
      let h := powModAux fuel ((b * b) % m) (e / 2) m
      if e % 2 = 1 then (b * h) % m else h

/-- Modelled from the spec: inv[i] is the modular inverse of primes[i]
modulo 2 ^ 16 (firstprimes.h is not in the sources).  For odd p the
inverse is p ^ (totient 65536 - 1) = p ^ 32767 mod 65536. -/
def inv16 (p : Nat) : Nat :=
  powModAux 16 (p % 65536) 32767 65536

/-- Modelled from the spec: mullimit[i] = floor((2 ^ 16 - 1) / primes[i]). -/
def mullimit16 (p : Nat) : Nat :=
  65535 / p

/-- Modelled from the spec: the stored mod2range lane for prime p.  Adding
this value to a lane at or above 0x8000 wraps the 16-bit addition exactly
once and thereby subtracts p * (2 ^ 15 / p), one multiple of p, which is
what the spec requires of the fold-back ("adding this to a lane whose value
is at least 2 ^ 15 subtracts one multiple of primes[i] while keeping the
residue correct", and the m2r glossary entry).  The literal table formula
printed in the spec data-model section, 2 ^ 16 - (2 ^ 16 mod p), subtracts
2 ^ 16 mod p instead, which is not a multiple of p and contradicts the
invariant column of the same table row; see m2r_as_claimed below. -/
def mod2range16 (p : Nat) : Nat :=
  65536 - p * (32768 / p)

/-- The fold-back constant exactly as the spec data-model row and claim C2
word it: 2 ^ 16 - (2 ^ 16 mod p).  Kept separate, and clearly named, to
state the claim as written; it breaks the residue invariant. -/
def m2r_as_claimed (p : Nat) : Nat :=
  65536 - 65536 % p

/-- One scalar advance step exactly as claim C2 describes it: add the
step, then fold back with the constant 2 ^ 16 - (2 ^ 16 mod p). -/
def advance_step_as_claimed (p v k : Nat) : Nat :=
  m2range_1unit ((v + k) % 65536) (m2r_as_claimed p)

/-- One scalar advance step of the engine: add the step (16-bit wrapping),
then fold back with the stored mod2range lane. -/
def advance_step (p v k : Nat) : Nat :=
  m2range_1unit ((v + k) % 65536) (mod2range16 p)

end Simddivide

namespace Simddivide

/-- Table chunk 0 of firstprimes (entries 0 to 127). -/
def fpChunk0 : List Nat := [
  5, 7, 11, 13, 17, 19, 23, 29, 31, 37, 41, 43, 47, 53, 59, 61,
  67, 71, 73, 79, 83, 89, 97, 101, 103, 107, 109, 113, 127, 131, 137, 139,
  149, 151, 157, 163, 167, 173, 179, 181, 191, 193, 197, 199, 211, 223, 227, 229,
  233, 239, 241, 251, 257, 263, 269, 271, 277, 281, 283, 293, 307, 311, 313, 317,
  331, 337, 347, 349, 353, 359, 367, 373, 379, 383, 389, 397, 401, 409, 419, 421,
  431, 433, 439, 443, 449, 457, 461, 463, 467, 479, 487, 491, 499, 503, 509, 521,
  523, 541, 547, 557, 563, 569, 571, 577, 587, 593, 599, 601, 607, 613, 617, 619,
  631, 641, 643, 647, 653, 659, 661, 673, 677, 683, 691, 701, 709, 719, 727, 733]

/-- Table chunk 1 of firstprimes (entries 128 to 255). -/
def fpChunk1 : List Nat := [
  739, 743, 751, 757, 761, 769, 773, 787, 797, 809, 811, 821, 823, 827, 829, 839,
  853, 857, 859, 863, 877, 881, 883, 887, 907, 911, 919, 929, 937, 941, 947, 953,
  967, 971, 977, 983, 991, 997, 1009, 1013, 1019, 1021, 1031, 1033, 1039, 1049, 1051, 1061,
  1063, 1069, 1087, 1091, 1093, 1097, 1103, 1109, 1117, 1123, 1129, 1151, 1153, 1163, 1171, 1181,
  1187, 1193, 1201, 1213, 1217, 1223, 1229, 1231, 1237, 1249, 1259, 1277, 1279, 1283, 1289, 1291,
  1297, 1301, 1303, 1307, 1319, 1321, 1327, 1361, 1367, 1373, 1381, 1399, 1409, 1423, 1427, 1429,
  1433, 1439, 1447, 1451, 1453, 1459, 1471, 1481, 1483, 1487, 1489, 1493, 1499, 1511, 1523, 1531,
  1543, 1549, 1553, 1559, 1567, 1571, 1579, 1583, 1597, 1601, 1607, 1609, 1613, 1619, 1621, 1627]

/-- Table chunk 2 of firstprimes (entries 256 to 383). -/
def fpChunk2 : List Nat := [
  1637, 1657, 1663, 1667, 1669, 1693, 1697, 1699, 1709, 1721, 1723, 1733, 1741, 1747, 1753, 1759,
  1777, 1783, 1787, 1789, 1801, 1811, 1823, 1831, 1847, 1861, 1867, 1871, 1873, 1877, 1879, 1889,
  1901, 1907, 1913, 1931, 1933, 1949, 1951, 1973, 1979, 1987, 1993, 1997, 1999, 2003, 2011, 2017,
  2027, 2029, 2039, 2053, 2063, 2069, 2081, 2083, 2087, 2089, 2099, 2111, 2113, 2129, 2131, 2137,
  2141, 2143, 2153, 2161, 2179, 2203, 2207, 2213, 2221, 2237, 2239, 2243, 2251, 2267, 2269, 2273,
  2281, 2287, 2293, 2297, 2309, 2311, 2333, 2339, 2341, 2347, 2351, 2357, 2371, 2377, 2381, 2383,
  2389, 2393, 2399, 2411, 2417, 2423, 2437, 2441, 2447, 2459, 2467, 2473, 2477, 2503, 2521, 2531,
  2539, 2543, 2549, 2551, 2557, 2579, 2591, 2593, 2609, 2617, 2621, 2633, 2647, 2657, 2659, 2663]

/-- Table chunk 3 of firstprimes (entries 384 to 511). -/
def fpChunk3 : List Nat := [
  2671, 2677, 2683, 2687, 2689, 2693, 2699, 2707, 2711, 2713, 2719, 2729, 2731, 2741, 2749, 2753,
  2767, 2777, 2789, 2791, 2797, 2801, 2803, 2819, 2833, 2837, 2843, 2851, 2857, 2861, 2879, 2887,
  2897, 2903, 2909, 2917, 2927, 2939, 2953, 2957, 2963, 2969, 2971, 2999, 3001, 3011, 3019, 3023,
  3037, 3041, 3049, 3061, 3067, 3079, 3083, 3089, 3109, 3119, 3121, 3137, 3163, 3167, 3169, 3181,
  3187, 3191, 3203, 3209, 3217, 3221, 3229, 3251, 3253, 3257, 3259, 3271, 3299, 3301, 3307, 3313,
  3319, 3323, 3329, 3331, 3343, 3347, 3359, 3361, 3371, 3373, 3389, 3391, 3407, 3413, 3433, 3449,
  3457, 3461, 3463, 3467, 3469, 3491, 3499, 3511, 3517, 3527, 3529, 3533, 3539, 3541, 3547, 3557,
  3559, 3571, 3581, 3583, 3593, 3607, 3613, 3617, 3623, 3631, 3637, 3643, 3659, 3671, 3673, 3677]

/-- Table chunk 4 of firstprimes (entries 512 to 639). -/
def fpChunk4 : List Nat := [
  3691, 3697, 3701, 3709, 3719, 3727, 3733, 3739, 3761, 3767, 3769, 3779, 3793, 3797, 3803, 3821,
  3823, 3833, 3847, 3851, 3853, 3863, 3877, 3881, 3889, 3907, 3911, 3917, 3919, 3923, 3929, 3931,
  3943, 3947, 3967, 3989, 4001, 4003, 4007, 4013, 4019, 4021, 4027, 4049, 4051, 4057, 4073, 4079,
  4091, 4093, 4099, 4111, 4127, 4129, 4133, 4139, 4153, 4157, 4159, 4177, 4201, 4211, 4217, 4219,
  4229, 4231, 4241, 4243, 4253, 4259, 4261, 4271, 4273, 4283, 4289, 4297, 4327, 4337, 4339, 4349,
  4357, 4363, 4373, 4391, 4397, 4409, 4421, 4423, 4441, 4447, 4451, 4457, 4463, 4481, 4483, 4493,
  4507, 4513, 4517, 4519, 4523, 4547, 4549, 4561, 4567, 4583, 4591, 4597, 4603, 4621, 4637, 4639,
  4643, 4649, 4651, 4657, 4663, 4673, 4679, 4691, 4703, 4721, 4723, 4729, 4733, 4751, 4759, 4783]

/-- Table chunk 5 of firstprimes (entries 640 to 767). -/
def fpChunk5 : List Nat := [
  4787, 4789, 4793, 4799, 4801, 4813, 4817, 4831, 4861, 4871, 4877, 4889, 4903, 4909, 4919, 4931,
  4933, 4937, 4943, 4951, 4957, 4967, 4969, 4973, 4987, 4993, 4999, 5003, 5009, 5011, 5021, 5023,
  5039, 5051, 5059, 5077, 5081, 5087, 5099, 5101, 5107, 5113, 5119, 5147, 5153, 5167, 5171, 5179,
  5189, 5197, 5209, 5227, 5231, 5233, 5237, 5261, 5273, 5279, 5281, 5297, 5303, 5309, 5323, 5333,
  5347, 5351, 5381, 5387, 5393, 5399, 5407, 5413, 5417, 5419, 5431, 5437, 5441, 5443, 5449, 5471,
  5477, 5479, 5483, 5501, 5503, 5507, 5519, 5521, 5527, 5531, 5557, 5563, 5569, 5573, 5581, 5591,
  5623, 5639, 5641, 5647, 5651, 5653, 5657, 5659, 5669, 5683, 5689, 5693, 5701, 5711, 5717, 5737,
  5741, 5743, 5749, 5779, 5783, 5791, 5801, 5807, 5813, 5821, 5827, 5839, 5843, 5849, 5851, 5857]

/-- Table chunk 6 of firstprimes (entries 768 to 895). -/
def fpChunk6 : List Nat := [
  5861, 5867, 5869, 5879, 5881, 5897, 5903, 5923, 5927, 5939, 5953, 5981, 5987, 6007, 6011, 6029,
  6037, 6043, 6047, 6053, 6067, 6073, 6079, 6089, 6091, 6101, 6113, 6121, 6131, 6133, 6143, 6151,
  6163, 6173, 6197, 6199, 6203, 6211, 6217, 6221, 6229, 6247, 6257, 6263, 6269, 6271, 6277, 6287,
  6299, 6301, 6311, 6317, 6323, 6329, 6337, 6343, 6353, 6359, 6361, 6367, 6373, 6379, 6389, 6397,
  6421, 6427, 6449, 6451, 6469, 6473, 6481, 6491, 6521, 6529, 6547, 6551, 6553, 6563, 6569, 6571,
  6577, 6581, 6599, 6607, 6619, 6637, 6653, 6659, 6661, 6673, 6679, 6689, 6691, 6701, 6703, 6709,
  6719, 6733, 6737, 6761, 6763, 6779, 6781, 6791, 6793, 6803, 6823, 6827, 6829, 6833, 6841, 6857,
  6863, 6869, 6871, 6883, 6899, 6907, 6911, 6917, 6947, 6949, 6959, 6961, 6967, 6971, 6977, 6983]

/-- Table chunk 7 of firstprimes (entries 896 to 1023). -/
def fpChunk7 : List Nat := [
  6991, 6997, 7001, 7013, 7019, 7027, 7039, 7043, 7057, 7069, 7079, 7103, 7109, 7121, 7127, 7129,
  7151, 7159, 7177, 7187, 7193, 7207, 7211, 7213, 7219, 7229, 7237, 7243, 7247, 7253, 7283, 7297,
  7307, 7309, 7321, 7331, 7333, 7349, 7351, 7369, 7393, 7411, 7417, 7433, 7451, 7457, 7459, 7477,
  7481, 7487, 7489, 7499, 7507, 7517, 7523, 7529, 7537, 7541, 7547, 7549, 7559, 7561, 7573, 7577,
  7583, 7589, 7591, 7603, 7607, 7621, 7639, 7643, 7649, 7669, 7673, 7681, 7687, 7691, 7699, 7703,
  7717, 7723, 7727, 7741, 7753, 7757, 7759, 7789, 7793, 7817, 7823, 7829, 7841, 7853, 7867, 7873,
  7877, 7879, 7883, 7901, 7907, 7919, 7927, 7933, 7937, 7949, 7951, 7963, 7993, 8009, 8011, 8017,
  8039, 8053, 8059, 8069, 8081, 8087, 8089, 8093, 8101, 8111, 8117, 8123, 8147, 8161, 8167, 8171]

/-- Table chunk 8 of firstprimes (entries 1024 to 1151). -/
def fpChunk8 : List Nat := [
  8179, 8191, 8209, 8219, 8221, 8231, 8233, 8237, 8243, 8263, 8269, 8273, 8287, 8291, 8293, 8297,
  8311, 8317, 8329, 8353, 8363, 8369, 8377, 8387, 8389, 8419, 8423, 8429, 8431, 8443, 8447, 8461,
  8467, 8501, 8513, 8521, 8527, 8537, 8539, 8543, 8563, 8573, 8581, 8597, 8599, 8609, 8623, 8627,
  8629, 8641, 8647, 8663, 8669, 8677, 8681, 8689, 8693, 8699, 8707, 8713, 8719, 8731, 8737, 8741,
  8747, 8753, 8761, 8779, 8783, 8803, 8807, 8819, 8821, 8831, 8837, 8839, 8849, 8861, 8863, 8867,
  8887, 8893, 8923, 8929, 8933, 8941, 8951, 8963, 8969, 8971, 8999, 9001, 9007, 9011, 9013, 9029,
  9041, 9043, 9049, 9059, 9067, 9091, 9103, 9109, 9127, 9133, 9137, 9151, 9157, 9161, 9173, 9181,
  9187, 9199, 9203, 9209, 9221, 9227, 9239, 9241, 9257, 9277, 9281, 9283, 9293, 9311, 9319, 9323]

/-- Table chunk 9 of firstprimes (entries 1152 to 1279). -/
def fpChunk9 : List Nat := [
  9337, 9341, 9343, 9349, 9371, 9377, 9391, 9397, 9403, 9413, 9419, 9421, 9431, 9433, 9437, 9439,
  9461, 9463, 9467, 9473, 9479, 9491, 9497, 9511, 9521, 9533, 9539, 9547, 9551, 9587, 9601, 9613,
  9619, 9623, 9629, 9631, 9643, 9649, 9661, 9677, 9679, 9689, 9697, 9719, 9721, 9733, 9739, 9743,
  9749, 9767, 9769, 9781, 9787, 9791, 9803, 9811, 9817, 9829, 9833, 9839, 9851, 9857, 9859, 9871,
  9883, 9887, 9901, 9907, 9923, 9929, 9931, 9941, 9949, 9967, 9973, 10007, 10009, 10037, 10039, 10061,
  10067, 10069, 10079, 10091, 10093, 10099, 10103, 10111, 10133, 10139, 10141, 10151, 10159, 10163, 10169, 10177,
  10181, 10193, 10211, 10223, 10243, 10247, 10253, 10259, 10267, 10271, 10273, 10289, 10301, 10303, 10313, 10321,
  10331, 10333, 10337, 10343, 10357, 10369, 10391, 10399, 10427, 10429, 10433, 10453, 10457, 10459, 10463, 10477]

/-- Table chunk 10 of firstprimes (entries 1280 to 1407). -/
def fpChunk10 : List Nat := [
  10487, 10499, 10501, 10513, 10529, 10531, 10559, 10567, 10589, 10597, 10601, 10607, 10613, 10627, 10631, 10639,
  10651, 10657, 10663, 10667, 10687, 10691, 10709, 10711, 10723, 10729, 10733, 10739, 10753, 10771, 10781, 10789,
  10799, 10831, 10837, 10847, 10853, 10859, 10861, 10867, 10883, 10889, 10891, 10903, 10909, 10937, 10939, 10949,
  10957, 10973, 10979, 10987, 10993, 11003, 11027, 11047, 11057, 11059, 11069, 11071, 11083, 11087, 11093, 11113,
  11117, 11119, 11131, 11149, 11159, 11161, 11171, 11173, 11177, 11197, 11213, 11239, 11243, 11251, 11257, 11261,
  11273, 11279, 11287, 11299, 11311, 11317, 11321, 11329, 11351, 11353, 11369, 11383, 11393, 11399, 11411, 11423,
  11437, 11443, 11447, 11467, 11471, 11483, 11489, 11491, 11497, 11503, 11519, 11527, 11549, 11551, 11579, 11587,
  11593, 11597, 11617, 11621, 11633, 11657, 11677, 11681, 11689, 11699, 11701, 11717, 11719, 11731, 11743, 11777]

/-- Table chunk 11 of firstprimes (entries 1408 to 1535). -/
def fpChunk11 : List Nat := [
  11779, 11783, 11789, 11801, 11807, 11813, 11821, 11827, 11831, 11833, 11839, 11863, 11867, 11887, 11897, 11903,
  11909, 11923, 11927, 11933, 11939, 11941, 11953, 11959, 11969, 11971, 11981, 11987, 12007, 12011, 12037, 12041,
  12043, 12049, 12071, 12073, 12097, 12101, 12107, 12109, 12113, 12119, 12143, 12149, 12157, 12161, 12163, 12197,
  12203, 12211, 12227, 12239, 12241, 12251, 12253, 12263, 12269, 12277, 12281, 12289, 12301, 12323, 12329, 12343,
  12347, 12373, 12377, 12379, 12391, 12401, 12409, 12413, 12421, 12433, 12437, 12451, 12457, 12473, 12479, 12487,
  12491, 12497, 12503, 12511, 12517, 12527, 12539, 12541, 12547, 12553, 12569, 12577, 12583, 12589, 12601, 12611,
  12613, 12619, 12637, 12641, 12647, 12653, 12659, 12671, 12689, 12697, 12703, 12713, 12721, 12739, 12743, 12757,
  12763, 12781, 12791, 12799, 12809, 12821, 12823, 12829, 12841, 12853, 12889, 12893, 12899, 12907, 12911, 12917]

/-- Table chunk 12 of firstprimes (entries 1536 to 1663). -/
def fpChunk12 : List Nat := [
  12919, 12923, 12941, 12953, 12959, 12967, 12973, 12979, 12983, 13001, 13003, 13007, 13009, 13033, 13037, 13043,
  13049, 13063, 13093, 13099, 13103, 13109, 13121, 13127, 13147, 13151, 13159, 13163, 13171, 13177, 13183, 13187,
  13217, 13219, 13229, 13241, 13249, 13259, 13267, 13291, 13297, 13309, 13313, 13327, 13331, 13337, 13339, 13367,
  13381, 13397, 13399, 13411, 13417, 13421, 13441, 13451, 13457, 13463, 13469, 13477, 13487, 13499, 13513, 13523,
  13537, 13553, 13567, 13577, 13591, 13597, 13613, 13619, 13627, 13633, 13649, 13669, 13679, 13681, 13687, 13691,
  13693, 13697, 13709, 13711, 13721, 13723, 13729, 13751, 13757, 13759, 13763, 13781, 13789, 13799, 13807, 13829,
  13831, 13841, 13859, 13873, 13877, 13879, 13883, 13901, 13903, 13907, 13913, 13921, 13931, 13933, 13963, 13967,
  13997, 13999, 14009, 14011, 14029, 14033, 14051, 14057, 14071, 14081, 14083, 14087, 14107, 14143, 14149, 14153]

/-- Table chunk 13 of firstprimes (entries 1664 to 1791). -/
def fpChunk13 : List Nat := [
  14159, 14173, 14177, 14197, 14207, 14221, 14243, 14249, 14251, 14281, 14293, 14303, 14321, 14323, 14327, 14341,
  14347, 14369, 14387, 14389, 14401, 14407, 14411, 14419, 14423, 14431, 14437, 14447, 14449, 14461, 14479, 14489,
  14503, 14519, 14533, 14537, 14543, 14549, 14551, 14557, 14561, 14563, 14591, 14593, 14621, 14627, 14629, 14633,
  14639, 14653, 14657, 14669, 14683, 14699, 14713, 14717, 14723, 14731, 14737, 14741, 14747, 14753, 14759, 14767,
  14771, 14779, 14783, 14797, 14813, 14821, 14827, 14831, 14843, 14851, 14867, 14869, 14879, 14887, 14891, 14897,
  14923, 14929, 14939, 14947, 14951, 14957, 14969, 14983, 15013, 15017, 15031, 15053, 15061, 15073, 15077, 15083,
  15091, 15101, 15107, 15121, 15131, 15137, 15139, 15149, 15161, 15173, 15187, 15193, 15199, 15217, 15227, 15233,
  15241, 15259, 15263, 15269, 15271, 15277, 15287, 15289, 15299, 15307, 15313, 15319, 15329, 15331, 15349, 15359]

/-- Table chunk 14 of firstprimes (entries 1792 to 1919). -/
def fpChunk14 : List Nat := [
  15361, 15373, 15377, 15383, 15391, 15401, 15413, 15427, 15439, 15443, 15451, 15461, 15467, 15473, 15493, 15497,
  15511, 15527, 15541, 15551, 15559, 15569, 15581, 15583, 15601, 15607, 15619, 15629, 15641, 15643, 15647, 15649,
  15661, 15667, 15671, 15679, 15683, 15727, 15731, 15733, 15737, 15739, 15749, 15761, 15767, 15773, 15787, 15791,
  15797, 15803, 15809, 15817, 15823, 15859, 15877, 15881, 15887, 15889, 15901, 15907, 15913, 15919, 15923, 15937,
  15959, 15971, 15973, 15991, 16001, 16007, 16033, 16057, 16061, 16063, 16067, 16069, 16073, 16087, 16091, 16097,
  16103, 16111, 16127, 16139, 16141, 16183, 16187, 16189, 16193, 16217, 16223, 16229, 16231, 16249, 16253, 16267,
  16273, 16301, 16319, 16333, 16339, 16349, 16361, 16363, 16369, 16381, 16411, 16417, 16421, 16427, 16433, 16447,
  16451, 16453, 16477, 16481, 16487, 16493, 16519, 16529, 16547, 16553, 16561, 16567, 16573, 16603, 16607, 16619]

/-- Table chunk 15 of firstprimes (entries 1920 to 2047). -/
def fpChunk15 : List Nat := [
  16631, 16633, 16649, 16651, 16657, 16661, 16673, 16691, 16693, 16699, 16703, 16729, 16741, 16747, 16759, 16763,
  16787, 16811, 16823, 16829, 16831, 16843, 16871, 16879, 16883, 16889, 16901, 16903, 16921, 16927, 16931, 16937,
  16943, 16963, 16979, 16981, 16987, 16993, 17011, 17021, 17027, 17029, 17033, 17041, 17047, 17053, 17077, 17093,
  17099, 17107, 17117, 17123, 17137, 17159, 17167, 17183, 17189, 17191, 17203, 17207, 17209, 17231, 17239, 17257,
  17291, 17293, 17299, 17317, 17321, 17327, 17333, 17341, 17351, 17359, 17377, 17383, 17387, 17389, 17393, 17401,
  17417, 17419, 17431, 17443, 17449, 17467, 17471, 17477, 17483, 17489, 17491, 17497, 17509, 17519, 17539, 17551,
  17569, 17573, 17579, 17581, 17597, 17599, 17609, 17623, 17627, 17657, 17659, 17669, 17681, 17683, 17707, 17713,
  17729, 17737, 17747, 17749, 17761, 17783, 17789, 17791, 17807, 17827, 17837, 17839, 17851, 17863, 17881, 17891]

/-- Table chunk 16 of firstprimes (entries 2048 to 2175). -/
def fpChunk16 : List Nat := [
  17903, 17909, 17911, 17921, 17923, 17929, 17939, 17957, 17959, 17971, 17977, 17981, 17987, 17989, 18013, 18041,
  18043, 18047, 18049, 18059, 18061, 18077, 18089, 18097, 18119, 18121, 18127, 18131, 18133, 18143, 18149, 18169,
  18181, 18191, 18199, 18211, 18217, 18223, 18229, 18233, 18251, 18253, 18257, 18269, 18287, 18289, 18301, 18307,
  18311, 18313, 18329, 18341, 18353, 18367, 18371, 18379, 18397, 18401, 18413, 18427, 18433, 18439, 18443, 18451,
  18457, 18461, 18481, 18493, 18503, 18517, 18521, 18523, 18539, 18541, 18553, 18583, 18587, 18593, 18617, 18637,
  18661, 18671, 18679, 18691, 18701, 18713, 18719, 18731, 18743, 18749, 18757, 18773, 18787, 18793, 18797, 18803,
  18839, 18859, 18869, 18899, 18911, 18913, 18917, 18919, 18947, 18959, 18973, 18979, 19001, 19009, 19013, 19031,
  19037, 19051, 19069, 19073, 19079, 19081, 19087, 19121, 19139, 19141, 19157, 19163, 19181, 19183, 19207, 19211]

/-- Table chunk 17 of firstprimes (entries 2176 to 2303). -/
def fpChunk17 : List Nat := [
  19213, 19219, 19231, 19237, 19249, 19259, 19267, 19273, 19289, 19301, 19309, 19319, 19333, 19373, 19379, 19381,
  19387, 19391, 19403, 19417, 19421, 19423, 19427, 19429, 19433, 19441, 19447, 19457, 19463, 19469, 19471, 19477,
  19483, 19489, 19501, 19507, 19531, 19541, 19543, 19553, 19559, 19571, 19577, 19583, 19597, 19603, 19609, 19661,
  19681, 19687, 19697, 19699, 19709, 19717, 19727, 19739, 19751, 19753, 19759, 19763, 19777, 19793, 19801, 19813,
  19819, 19841, 19843, 19853, 19861, 19867, 19889, 19891, 19913, 19919, 19927, 19937, 19949, 19961, 19963, 19973,
  19979, 19991, 19993, 19997, 20011, 20021, 20023, 20029, 20047, 20051, 20063, 20071, 20089, 20101, 20107, 20113,
  20117, 20123, 20129, 20143, 20147, 20149, 20161, 20173, 20177, 20183, 20201, 20219, 20231, 20233, 20249, 20261,
  20269, 20287, 20297, 20323, 20327, 20333, 20341, 20347, 20353, 20357, 20359, 20369, 20389, 20393, 20399, 20407]

/-- Table chunk 18 of firstprimes (entries 2304 to 2431). -/
def fpChunk18 : List Nat := [
  20411, 20431, 20441, 20443, 20477, 20479, 20483, 20507, 20509, 20521, 20533, 20543, 20549, 20551, 20563, 20593,
  20599, 20611, 20627, 20639, 20641, 20663, 20681, 20693, 20707, 20717, 20719, 20731, 20743, 20747, 20749, 20753,
  20759, 20771, 20773, 20789, 20807, 20809, 20849, 20857, 20873, 20879, 20887, 20897, 20899, 20903, 20921, 20929,
  20939, 20947, 20959, 20963, 20981, 20983, 21001, 21011, 21013, 21017, 21019, 21023, 21031, 21059, 21061, 21067,
  21089, 21101, 21107, 21121, 21139, 21143, 21149, 21157, 21163, 21169, 21179, 21187, 21191, 21193, 21211, 21221,
  21227, 21247, 21269, 21277, 21283, 21313, 21317, 21319, 21323, 21341, 21347, 21377, 21379, 21383, 21391, 21397,
  21401, 21407, 21419, 21433, 21467, 21481, 21487, 21491, 21493, 21499, 21503, 21517, 21521, 21523, 21529, 21557,
  21559, 21563, 21569, 21577, 21587, 21589, 21599, 21601, 21611, 21613, 21617, 21647, 21649, 21661, 21673, 21683]

/-- Table chunk 19 of firstprimes (entries 2432 to 2559). -/
def fpChunk19 : List Nat := [
  21701, 21713, 21727, 21737, 21739, 21751, 21757, 21767, 21773, 21787, 21799, 21803, 21817, 21821, 21839, 21841,
  21851, 21859, 21863, 21871, 21881, 21893, 21911, 21929, 21937, 21943, 21961, 21977, 21991, 21997, 22003, 22013,
  22027, 22031, 22037, 22039, 22051, 22063, 22067, 22073, 22079, 22091, 22093, 22109, 22111, 22123, 22129, 22133,
  22147, 22153, 22157, 22159, 22171, 22189, 22193, 22229, 22247, 22259, 22271, 22273, 22277, 22279, 22283, 22291,
  22303, 22307, 22343, 22349, 22367, 22369, 22381, 22391, 22397, 22409, 22433, 22441, 22447, 22453, 22469, 22481,
  22483, 22501, 22511, 22531, 22541, 22543, 22549, 22567, 22571, 22573, 22613, 22619, 22621, 22637, 22639, 22643,
  22651, 22669, 22679, 22691, 22697, 22699, 22709, 22717, 22721, 22727, 22739, 22741, 22751, 22769, 22777, 22783,
  22787, 22807, 22811, 22817, 22853, 22859, 22861, 22871, 22877, 22901, 22907, 22921, 22937, 22943, 22961, 22963]

/-- Table chunk 20 of firstprimes (entries 2560 to 2687). -/
def fpChunk20 : List Nat := [
  22973, 22993, 23003, 23011, 23017, 23021, 23027, 23029, 23039, 23041, 23053, 23057, 23059, 23063, 23071, 23081,
  23087, 23099, 23117, 23131, 23143, 23159, 23167, 23173, 23189, 23197, 23201, 23203, 23209, 23227, 23251, 23269,
  23279, 23291, 23293, 23297, 23311, 23321, 23327, 23333, 23339, 23357, 23369, 23371, 23399, 23417, 23431, 23447,
  23459, 23473, 23497, 23509, 23531, 23537, 23539, 23549, 23557, 23561, 23563, 23567, 23581, 23593, 23599, 23603,
  23609, 23623, 23627, 23629, 23633, 23663, 23669, 23671, 23677, 23687, 23689, 23719, 23741, 23743, 23747, 23753,
  23761, 23767, 23773, 23789, 23801, 23813, 23819, 23827, 23831, 23833, 23857, 23869, 23873, 23879, 23887, 23893,
  23899, 23909, 23911, 23917, 23929, 23957, 23971, 23977, 23981, 23993, 24001, 24007, 24019, 24023, 24029, 24043,
  24049, 24061, 24071, 24077, 24083, 24091, 24097, 24103, 24107, 24109, 24113, 24121, 24133, 24137, 24151, 24169]

/-- Table chunk 21 of firstprimes (entries 2688 to 2815). -/
def fpChunk21 : List Nat := [
  24179, 24181, 24197, 24203, 24223, 24229, 24239, 24247, 24251, 24281, 24317, 24329, 24337, 24359, 24371, 24373,
  24379, 24391, 24407, 24413, 24419, 24421, 24439, 24443, 24469, 24473, 24481, 24499, 24509, 24517, 24527, 24533,
  24547, 24551, 24571, 24593, 24611, 24623, 24631, 24659, 24671, 24677, 24683, 24691, 24697, 24709, 24733, 24749,
  24763, 24767, 24781, 24793, 24799, 24809, 24821, 24841, 24847, 24851, 24859, 24877, 24889, 24907, 24917, 24919,
  24923, 24943, 24953, 24967, 24971, 24977, 24979, 24989, 25013, 25031, 25033, 25037, 25057, 25073, 25087, 25097,
  25111, 25117, 25121, 25127, 25147, 25153, 25163, 25169, 25171, 25183, 25189, 25219, 25229, 25237, 25243, 25247,
  25253, 25261, 25301, 25303, 25307, 25309, 25321, 25339, 25343, 25349, 25357, 25367, 25373, 25391, 25409, 25411,
  25423, 25439, 25447, 25453, 25457, 25463, 25469, 25471, 25523, 25537, 25541, 25561, 25577, 25579, 25583, 25589]

/-- Table chunk 22 of firstprimes (entries 2816 to 2943). -/
def fpChunk22 : List Nat := [
  25601, 25603, 25609, 25621, 25633, 25639, 25643, 25657, 25667, 25673, 25679, 25693, 25703, 25717, 25733, 25741,
  25747, 25759, 25763, 25771, 25793, 25799, 25801, 25819, 25841, 25847, 25849, 25867, 25873, 25889, 25903, 25913,
  25919, 25931, 25933, 25939, 25943, 25951, 25969, 25981, 25997, 25999, 26003, 26017, 26021, 26029, 26041, 26053,
  26083, 26099, 26107, 26111, 26113, 26119, 26141, 26153, 26161, 26171, 26177, 26183, 26189, 26203, 26209, 26227,
  26237, 26249, 26251, 26261, 26263, 26267, 26293, 26297, 26309, 26317, 26321, 26339, 26347, 26357, 26371, 26387,
  26393, 26399, 26407, 26417, 26423, 26431, 26437, 26449, 26459, 26479, 26489, 26497, 26501, 26513, 26539, 26557,
  26561, 26573, 26591, 26597, 26627, 26633, 26641, 26647, 26669, 26681, 26683, 26687, 26693, 26699, 26701, 26711,
  26713, 26717, 26723, 26729, 26731, 26737, 26759, 26777, 26783, 26801, 26813, 26821, 26833, 26839, 26849, 26861]

/-- Table chunk 23 of firstprimes (entries 2944 to 3071). -/
def fpChunk23 : List Nat := [
  26863, 26879, 26881, 26891, 26893, 26903, 26921, 26927, 26947, 26951, 26953, 26959, 26981, 26987, 26993, 27011,
  27017, 27031, 27043, 27059, 27061, 27067, 27073, 27077, 27091, 27103, 27107, 27109, 27127, 27143, 27179, 27191,
  27197, 27211, 27239, 27241, 27253, 27259, 27271, 27277, 27281, 27283, 27299, 27329, 27337, 27361, 27367, 27397,
  27407, 27409, 27427, 27431, 27437, 27449, 27457, 27479, 27481, 27487, 27509, 27527, 27529, 27539, 27541, 27551,
  27581, 27583, 27611, 27617, 27631, 27647, 27653, 27673, 27689, 27691, 27697, 27701, 27733, 27737, 27739, 27743,
  27749, 27751, 27763, 27767, 27773, 27779, 27791, 27793, 27799, 27803, 27809, 27817, 27823, 27827, 27847, 27851,
  27883, 27893, 27901, 27917, 27919, 27941, 27943, 27947, 27953, 27961, 27967, 27983, 27997, 28001, 28019, 28027,
  28031, 28051, 28057, 28069, 28081, 28087, 28097, 28099, 28109, 28111, 28123, 28151, 28163, 28181, 28183, 28201]

/-- Table chunk 24 of firstprimes (entries 3072 to 3199). -/
def fpChunk24 : List Nat := [
  28211, 28219, 28229, 28277, 28279, 28283, 28289, 28297, 28307, 28309, 28319, 28349, 28351, 28387, 28393, 28403,
  28409, 28411, 28429, 28433, 28439, 28447, 28463, 28477, 28493, 28499, 28513, 28517, 28537, 28541, 28547, 28549,
  28559, 28571, 28573, 28579, 28591, 28597, 28603, 28607, 28619, 28621, 28627, 28631, 28643, 28649, 28657, 28661,
  28663, 28669, 28687, 28697, 28703, 28711, 28723, 28729, 28751, 28753, 28759, 28771, 28789, 28793, 28807, 28813,
  28817, 28837, 28843, 28859, 28867, 28871, 28879, 28901, 28909, 28921, 28927, 28933, 28949, 28961, 28979, 29009,
  29017, 29021, 29023, 29027, 29033, 29059, 29063, 29077, 29101, 29123, 29129, 29131, 29137, 29147, 29153, 29167,
  29173, 29179, 29191, 29201, 29207, 29209, 29221, 29231, 29243, 29251, 29269, 29287, 29297, 29303, 29311, 29327,
  29333, 29339, 29347, 29363, 29383, 29387, 29389, 29399, 29401, 29411, 29423, 29429, 29437, 29443, 29453, 29473]

/-- Table chunk 25 of firstprimes (entries 3200 to 3327). -/
def fpChunk25 : List Nat := [
  29483, 29501, 29527, 29531, 29537, 29567, 29569, 29573, 29581, 29587, 29599, 29611, 29629, 29633, 29641, 29663,
  29669, 29671, 29683, 29717, 29723, 29741, 29753, 29759, 29761, 29789, 29803, 29819, 29833, 29837, 29851, 29863,
  29867, 29873, 29879, 29881, 29917, 29921, 29927, 29947, 29959, 29983, 29989, 30011, 30013, 30029, 30047, 30059,
  30071, 30089, 30091, 30097, 30103, 30109, 30113, 30119, 30133, 30137, 30139, 30161, 30169, 30181, 30187, 30197,
  30203, 30211, 30223, 30241, 30253, 30259, 30269, 30271, 30293, 30307, 30313, 30319, 30323, 30341, 30347, 30367,
  30389, 30391, 30403, 30427, 30431, 30449, 30467, 30469, 30491, 30493, 30497, 30509, 30517, 30529, 30539, 30553,
  30557, 30559, 30577, 30593, 30631, 30637, 30643, 30649, 30661, 30671, 30677, 30689, 30697, 30703, 30707, 30713,
  30727, 30757, 30763, 30773, 30781, 30803, 30809, 30817, 30829, 30839, 30841, 30851, 30853, 30859, 30869, 30871]

/-- Table chunk 26 of firstprimes (entries 3328 to 3455). -/
def fpChunk26 : List Nat := [
  30881, 30893, 30911, 30931, 30937, 30941, 30949, 30971, 30977, 30983, 31013, 31019, 31033, 31039, 31051, 31063,
  31069, 31079, 31081, 31091, 31121, 31123, 31139, 31147, 31151, 31153, 31159, 31177, 31181, 31183, 31189, 31193,
  31219, 31223, 31231, 31237, 31247, 31249, 31253, 31259, 31267, 31271, 31277, 31307, 31319, 31321, 31327, 31333,
  31337, 31357, 31379, 31387, 31391, 31393, 31397, 31469, 31477, 31481, 31489, 31511, 31513, 31517, 31531, 31541,
  31543, 31547, 31567, 31573, 31583, 31601, 31607, 31627, 31643, 31649, 31657, 31663, 31667, 31687, 31699, 31721,
  31723, 31727, 31729, 31741, 31751, 31769, 31771, 31793, 31799, 31817, 31847, 31849, 31859, 31873, 31883, 31891,
  31907, 31957, 31963, 31973, 31981, 31991, 32003, 32009, 32027, 32029, 32051, 32057, 32059, 32063, 32069, 32077,
  32083, 32089, 32099, 32117, 32119, 32141, 32143, 32159, 32173, 32183, 32189, 32191, 32203, 32213, 32233, 32237]

/-- Modelled from the spec: the first 3456 odd primes starting at 5
(3 excluded); the contents of firstprimes[] in firstprimes.h, which is
not part of the sources.  Split into chunks of 128 to keep elaboration
cheap. -/
def firstprimes : List Nat :=
  fpChunk0 ++ fpChunk1 ++ fpChunk2 ++ fpChunk3 ++ fpChunk4 ++ fpChunk5 ++ fpChunk6 ++ fpChunk7 ++ fpChunk8 ++ fpChunk9 ++ fpChunk10 ++ fpChunk11 ++ fpChunk12 ++ fpChunk13 ++ fpChunk14 ++ fpChunk15 ++ fpChunk16 ++ fpChunk17 ++ fpChunk18 ++ fpChunk19 ++ fpChunk20 ++ fpChunk21 ++ fpChunk22 ++ fpChunk23 ++ fpChunk24 ++ fpChunk25 ++ fpChunk26

/-- Table chunk 0 of fpInv. -/
def fpInvChunk0 : List Nat := [
  52429, 28087, 35747, 20165, 61681, 51739, 14247, 49717, 31711, 7085, 39961, 48771, 18127, 21021,
  55539, 38677, 19563, 43383, 61945, 5807, 17371, 18409, 41889, 45421, 6999, 44099, 2405, 49297,
  49023, 20011, 30137, 26403, 51901, 32551, 34229, 45835, 42775, 25381, 44667, 60829, 28479, 36673,
  32269, 49399, 22363, 47903, 17611, 48365, 55129, 11791, 61457, 2611, 65281, 40119, 46533, 52719,
  17981, 52009, 28947, 12973, 57851, 33927, 40201, 56853, 32867, 59313, 18131, 23285, 25249, 35415,
  32143, 1757, 46515, 48767, 53069, 10565, 57201, 49833, 14859, 65069, 62799, 42833, 44039, 39795,
  3649, 59513, 54021, 25903, 65115, 64031, 33239, 7875, 32571, 4039, 58197, 11321, 63907, 53301,
  48523, 40357, 51451, 19465, 34547, 3521, 14179, 34481, 2407, 9705, 55711, 57197, 44505, 39491,
  30535, 15745, 56363, 9015, 36933, 27547, 47293, 24929, 5421, 59395, 31867, 34965, 11277, 50223,
  4327, 58741]

/-- Table chunk 1 of fpInv. -/
def fpInvChunk1 : List Nat := [
  21195, 61655, 27663, 6493, 8009, 64769, 20941, 16155, 55093, 18713, 41859, 30493, 8839, 56819,
  27669, 46711, 57853, 5353, 29907, 6303, 32357, 23953, 55739, 50759, 3107, 47983, 44071, 41057,
  20633, 22565, 25467, 4745, 52727, 35299, 13617, 40935, 30751, 33261, 36113, 20573, 36659, 29013,
  10679, 51769, 27375, 6185, 13843, 30637, 11159, 60325, 60351, 26731, 28301, 11769, 37551, 55549,
  61429, 40267, 52185, 47999, 15233, 17187, 47515, 41397, 53003, 57241, 50257, 5781, 35649, 31991,
  34821, 33327, 5245, 16161, 33731, 14421, 64255, 36267, 6457, 40611, 35825, 8765, 33447, 52499,
  6807, 26393, 25039, 25521, 46695, 30453, 42093, 25671, 14977, 31087, 57499, 7613, 32425, 54879,
  21015, 52483, 42533, 12667, 59967, 9337, 63459, 57647, 29489, 2941, 28243, 15831, 6971, 15667,
  34743, 47301, 43761, 37287, 62943, 55691, 34947, 207, 16661, 2497, 50039, 52217, 41605, 11739,
  50941, 47571]

/-- Table chunk 2 of fpInv. -/
def fpInvChunk2 : List Nat := [
  15213, 33737, 47487, 63531, 589, 44981, 23905, 56587, 19749, 8073, 20083, 34829, 22021, 16731,
  6505, 13599, 10769, 39623, 5171, 50773, 46905, 56091, 46303, 63639, 24199, 29581, 51811, 44975,
  41393, 48637, 54375, 56481, 6757, 30139, 45769, 59427, 37701, 46773, 21599, 61085, 42355, 41195,
  49785, 15621, 40751, 59483, 40019, 31777, 59587, 28133, 59847, 33997, 59119, 34621, 31713, 59275,
  59287, 5145, 13051, 59327, 1985, 16561, 31707, 49129, 3061, 21407, 2009, 47249, 34347, 40339,
  4959, 40749, 39717, 12949, 26431, 59371, 7395, 45907, 3957, 15137, 20313, 9743, 25437, 14665,
  23501, 5303, 309, 28299, 60077, 28035, 56783, 49437, 52075, 14585, 22405, 28079, 44029, 44777,
  37535, 56131, 38801, 41031, 34637, 15545, 62831, 13459, 29195, 43673, 16933, 59383, 58985, 33739,
  54979, 17679, 39517, 34759, 6997, 20507, 61919, 63969, 3793, 50185, 23829, 2041, 33127, 6561,
  51019, 29015]

/-- Table chunk 3 of fpInv. -/
def fpInvChunk3 : List Nat := [
  38031, 62941, 17587, 46463, 13697, 24141, 36131, 41883, 5415, 43433, 37215, 14745, 40963, 5021,
  49301, 34113, 48175, 54633, 41709, 26839, 58085, 42513, 7739, 14251, 17905, 60477, 22291, 31883,
  49433, 31909, 25791, 11895, 7601, 4199, 41205, 11885, 45967, 7091, 55993, 12101, 51867, 6313,
  25235, 49671, 35465, 48363, 16867, 6959, 42101, 30753, 31833, 2141, 18227, 41399, 8099, 25841,
  12205, 47823, 52433, 961, 17363, 20383, 38817, 56677, 30907, 36167, 41515, 10681, 13425, 24253,
  55733, 33403, 33181, 14729, 22643, 62711, 39115, 53485, 15299, 25617, 29895, 7731, 62209, 50603,
  16879, 50459, 11999, 46817, 18819, 51877, 12821, 25279, 59823, 34813, 21209, 52425, 12929, 58189,
  10295, 12835, 64837, 36363, 34051, 24583, 38293, 41975, 40057, 42757, 53851, 50045, 9811, 26605,
  46551, 21307, 14165, 61951, 57401, 2471, 9269, 62945, 33175, 63695, 21533, 39667, 52067, 48487,
  23017, 13813]

/-- Table chunk 4 of fpInv. -/
def fpInvChunk4 : List Nat := [
  11843, 62097, 53725, 23253, 22327, 20591, 19645, 10131, 31313, 12039, 38793, 37355, 2609, 47741,
  15699, 32485, 57359, 21321, 11959, 50339, 22469, 6311, 29869, 64793, 59857, 30059, 60023, 49541,
  42927, 3291, 18665, 35027, 40023, 42307, 45183, 50109, 37985, 39947, 43031, 11301, 14203, 42653,
  23923, 43313, 8283, 32873, 47193, 65295, 41779, 50517, 6827, 57071, 27615, 29665, 35757, 11907,
  56841, 1813, 57279, 14513, 32729, 5307, 22985, 20147, 26701, 46391, 45169, 36251, 62901, 8971,
  22317, 17999, 14417, 46195, 32577, 2425, 727, 57361, 34875, 35925, 5069, 12963, 46653, 20119,
  26277, 36105, 55693, 18551, 9961, 35487, 63563, 36569, 28047, 11905, 34091, 39237, 60563, 4705,
  28205, 34327, 24835, 26347, 17677, 59185, 29159, 29143, 15631, 21085, 20787, 36037, 16437, 59871,
  11659, 43545, 7299, 1745, 17287, 64961, 63351, 475, 51615, 28305, 58043, 47049, 30421, 52335,
  36135, 33871]

/-- Table chunk 5 of fpInv. -/
def fpInvChunk5 : List Nat := [
  60539, 52125, 21385, 23871, 32065, 10757, 34353, 10527, 6741, 60087, 62405, 39209, 11415, 46245,
  4743, 37227, 34701, 20217, 9135, 34919, 55541, 22615, 44249, 61029, 54195, 11393, 16951, 31779,
  3441, 667, 2741, 18527, 9039, 47475, 62699, 36221, 15465, 26655, 31939, 16869, 48443, 15945,
  60415, 42515, 28641, 45775, 1787, 42227, 56973, 17541, 62441, 63555, 51855, 11409, 7133, 52805,
  65449, 1887, 53089, 46161, 2311, 34453, 45283, 33917, 53451, 48855, 28621, 3747, 31729, 29351,
  9951, 65197, 22297, 387, 45191, 27157, 31425, 8043, 60665, 34463, 5229, 13911, 28483, 52181,
  43647, 41259, 26991, 19313, 47655, 18579, 61597, 26483, 64065, 41229, 57093, 44519, 15303, 30647,
  22585, 6383, 9243, 2365, 58921, 54291, 5549, 54523, 63497, 45333, 35981, 16559, 14077, 55769,
  25445, 2191, 35293, 30619, 51495, 34143, 60825, 79, 42909, 5269, 51691, 12335, 45403, 2409,
  62803, 44321]

/-- Table chunk 6 of fpInv. -/
def fpInvChunk6 : List Nat := [
  46829, 57795, 46821, 35527, 52041, 42809, 63471, 53387, 59543, 48123, 30913, 62709, 8779, 62023,
  12211, 837, 31677, 30355, 17503, 63533, 28539, 48777, 55359, 45689, 54755, 27005, 27681, 12377,
  22843, 40029, 59391, 54711, 29211, 27189, 31261, 7559, 243, 62571, 23033, 57477, 9469, 33623,
  43153, 16711, 8405, 42879, 8269, 1647, 3475, 11701, 3863, 2853, 22139, 28041, 30529, 10487,
  16433, 23271, 59241, 41759, 58605, 53187, 54109, 50261, 28221, 39187, 40913, 35323, 37261, 10489,
  53169, 28371, 201, 9857, 60571, 63015, 10921, 57867, 39577, 6403, 36689, 52381, 55287, 19759,
  14931, 11237, 35669, 57515, 41677, 5873, 48551, 59873, 25995, 17829, 27855, 59421, 54719, 44677,
  28337, 5593, 49731, 46259, 44757, 35639, 31673, 5019, 60695, 4099, 22821, 61009, 52105, 8057,
  44079, 20093, 30951, 64203, 36411, 57395, 58623, 31181, 60555, 34989, 3023, 24017, 35463, 1523,
  29889, 7799]

/-- Table chunk 7 of fpInv. -/
def fpInvChunk7 : List Nat := [
  7087, 2557, 31977, 40557, 14659, 33211, 42111, 19243, 1393, 17077, 56343, 54335, 43789, 7473,
  2023, 46185, 29455, 5575, 12857, 3611, 32809, 37783, 49795, 37797, 16123, 23317, 38541, 52579,
  31407, 253, 59579, 9089, 27427, 1605, 30633, 30475, 27437, 61853, 33031, 48505, 10017, 23611,
  58697, 33081, 62739, 42721, 64139, 3357, 49417, 21183, 29377, 33891, 11995, 7925, 19531, 17113,
  913, 2781, 14771, 981, 6199, 26809, 17853, 59049, 48735, 33325, 47639, 55675, 20487, 22797,
  9703, 38483, 58913, 58973, 5193, 57857, 61367, 64931, 23579, 63911, 52653, 45187, 59599, 59669,
  13305, 19077, 14511, 39781, 58001, 47033, 16495, 48317, 17761, 62757, 30323, 28993, 45069, 17143,
  55011, 43381, 5835, 53263, 711, 28245, 57601, 51141, 61423, 8979, 7945, 761, 62051, 35249,
  35927, 30941, 59315, 333, 33137, 20519, 50345, 24245, 45101, 38735, 5789, 52595, 36955, 25633,
  33751, 4291]

/-- Table chunk 8 of fpInv. -/
def fpInvChunk8 : List Nat := [
  37179, 57343, 53489, 47635, 41525, 20375, 31769, 12197, 56059, 35191, 6277, 10417, 15263, 24907,
  37229, 28633, 47431, 22741, 21945, 50017, 55811, 10321, 58761, 36843, 24077, 9419, 62167, 15589,
  3599, 59955, 57087, 38341, 53531, 59677, 28353, 41209, 21935, 5865, 9939, 31391, 60347, 8149,
  44877, 8637, 28199, 609, 54607, 30075, 33949, 60993, 20471, 25063, 15989, 13293, 50777, 44817,
  49757, 49459, 6315, 3129, 36079, 59411, 57825, 10669, 35971, 63185, 11273, 5987, 46255, 28491,
  55639, 21179, 7645, 40319, 34381, 823, 56945, 29621, 31071, 41227, 23303, 26773, 2387, 41249,
  51949, 35557, 16071, 57259, 23353, 4259, 7319, 10521, 975, 36859, 22301, 63373, 1457, 6363,
  62697, 30283, 61763, 33579, 39791, 4029, 21527, 14373, 17745, 52287, 25357, 26233, 64893, 19573,
  14795, 27407, 11579, 11849, 2253, 18339, 21415, 63529, 47129, 37653, 60353, 18539, 46213, 14239,
  46935, 26691]

/-- Table chunk 9 of fpInv. -/
def fpInvChunk9 : List Nat := [
  1481, 29909, 39807, 13389, 8595, 48993, 45647, 43421, 32883, 47629, 8419, 26629, 3815, 7017,
  54133, 38687, 26461, 56519, 17971, 56065, 14519, 27931, 26409, 64151, 5073, 55829, 36715, 15459,
  53679, 34747, 6785, 42309, 49307, 43559, 34997, 46687, 44291, 849, 15765, 20229, 49455, 2665,
  56865, 11207, 35913, 46797, 46499, 2287, 31037, 59799, 54809, 31773, 49907, 51647, 62307, 3547,
  49641, 7021, 51673, 63631, 51379, 6529, 55339, 14447, 20371, 30047, 11557, 63611, 14827, 54137,
  36579, 57981, 57717, 51215, 54621, 32935, 17705, 13085, 16007, 27013, 46299, 40445, 62623, 52547,
  64101, 21947, 57927, 39039, 60349, 59027, 38581, 4119, 36687, 57211, 44681, 59457, 48909, 37169,
  21963, 59151, 49835, 50615, 26309, 57883, 29203, 21471, 23521, 12497, 44821, 51135, 18937, 8369,
  51155, 60405, 31649, 29527, 26589, 6017, 55079, 62303, 56435, 4757, 26433, 53373, 55145, 37715,
  37663, 29925]

/-- Table chunk 10 of fpInv. -/
def fpInvChunk10 : List Nat := [
  6343, 35243, 15309, 59377, 39649, 20107, 18111, 45175, 29429, 57453, 63193, 21903, 40669, 11563,
  19511, 54639, 5267, 64097, 60951, 35075, 50751, 3819, 51069, 55783, 25547, 15961, 39909, 38715,
  54785, 12315, 59445, 57773, 23759, 44207, 33533, 45471, 30573, 12867, 28517, 35515, 62507, 27577,
  27939, 62759, 43957, 48009, 35443, 50189, 53765, 64885, 27339, 11715, 34321, 20531, 22299, 38039,
  19921, 51195, 33813, 17599, 34403, 2991, 31229, 5337, 38501, 37775, 64435, 3909, 1063, 63657,
  24587, 50221, 43161, 59285, 47365, 47063, 42179, 25915, 42569, 35157, 8761, 17135, 52135, 58251,
  39631, 50717, 521, 58305, 32615, 23529, 9177, 27975, 4993, 55607, 53659, 61279, 5925, 25211,
  28935, 55523, 23087, 61267, 5921, 30923, 27481, 33295, 54015, 45239, 64821, 3807, 9203, 51051,
  21753, 54149, 13985, 15469, 62353, 22713, 49333, 63073, 50841, 18811, 6301, 51469, 33783, 45659,
  52767, 53761]

/-- Table chunk 11 of fpInv. -/
def fpInvChunk11 : List Nat := [
  27819, 57271, 53445, 20009, 52703, 15789, 20901, 31995, 59271, 24585, 49599, 40295, 20947, 61583,
  56265, 37247, 39501, 8091, 12583, 51125, 62731, 2349, 23121, 3847, 24897, 29163, 28165, 22875,
  1239, 2499, 17869, 3897, 42147, 41457, 20631, 56601, 24769, 2957, 25187, 41349, 31153, 11367,
  3983, 59613, 469, 4225, 55083, 8237, 21251, 6011, 47339, 30511, 35121, 13395, 41077, 29655,
  34277, 50269, 25161, 53249, 40645, 65419, 27673, 34183, 10483, 19709, 6121, 32723, 60247, 37009,
  14793, 51413, 18509, 36977, 6845, 779, 29593, 54665, 16191, 37111, 46307, 10289, 49895, 35615,
  3309, 65039, 23091, 27733, 49579, 44345, 39721, 37601, 11927, 18085, 27913, 58219, 47501, 53347,
  43765, 12961, 23127, 32869, 23483, 36479, 44913, 37545, 43615, 665, 30545, 18155, 16375, 32637,
  25171, 54245, 57287, 52735, 64569, 3389, 9639, 8245, 35353, 4125, 62953, 12789, 57163, 59971,
  27791, 36317]

/-- Table chunk 12 of fpInv. -/
def fpInvChunk12 : List Nat := [
  18247, 56499, 57413, 425, 26975, 21783, 293, 52347, 19207, 34681, 8931, 37935, 26161, 50521,
  64229, 13883, 61257, 51895, 45229, 62339, 62415, 50973, 23745, 34423, 50387, 59551, 14423, 24899,
  10683, 50889, 35967, 62251, 28769, 38923, 43045, 57993, 56385, 55779, 40027, 23747, 23825, 49493,
  52225, 15087, 46619, 59433, 34323, 49543, 48781, 10493, 63335, 60747, 39897, 62821, 2945, 37667,
  3185, 35623, 61877, 37677, 41551, 61555, 9593, 17243, 3873, 15377, 51967, 59705, 21159, 13621,
  58021, 52731, 56307, 23233, 13233, 62573, 51599, 60305, 13383, 25011, 43989, 2689, 5445, 18799,
  20137, 10387, 61025, 47111, 44437, 47679, 25323, 23421, 51829, 3543, 39183, 9933, 22455, 31473,
  10635, 25297, 60445, 24455, 13043, 62085, 8367, 32219, 45545, 60833, 50755, 17253, 291, 10351,
  40229, 57423, 61321, 40563, 42501, 57905, 48843, 345, 27335, 51457, 27563, 34487, 19219, 14527,
  50061, 27385]

/-- Table chunk 13 of fpInv. -/
def fpInvChunk13 : List Nat := [
  32687, 54517, 44193, 41181, 34943, 58181, 46091, 23705, 2819, 37497, 18813, 17439, 55569, 14651,
  47559, 54477, 37795, 19425, 33531, 23069, 55233, 61815, 53603, 52187, 13159, 9119, 47469, 9871,
  34961, 213, 58991, 39849, 61207, 9479, 34317, 24953, 52783, 16509, 15079, 24437, 2849, 52427,
  50943, 50945, 20789, 48779, 15021, 29465, 44495, 26133, 22209, 42885, 20179, 11075, 57545, 51157,
  40235, 42531, 42865, 18877, 33939, 60001, 56855, 48463, 7547, 41843, 46655, 23301, 58997, 23533,
  9923, 5391, 59699, 49323, 40987, 50493, 49631, 38295, 46211, 57041, 16227, 20145, 26067, 5963,
  16727, 57189, 4041, 27447, 7469, 2457, 49927, 16901, 11901, 35105, 62189, 40387, 28219, 12885,
  34731, 5617, 42771, 2273, 52363, 52389, 17161, 8077, 49371, 23785, 57503, 9617, 27571, 1153,
  43705, 45715, 8287, 13357, 48151, 57381, 37383, 23177, 3307, 37347, 64817, 59367, 18465, 57803,
  22621, 50175]

/-- Table chunk 14 of fpInv. -/
def fpInvChunk14 : List Nat := [
  50177, 29381, 13553, 48039, 16351, 8217, 13853, 61547, 23215, 26587, 37843, 5485, 36931, 1169,
  23629, 63929, 807, 43799, 53661, 13119, 50423, 39985, 31605, 32543, 13329, 17607, 5547, 55749,
  53033, 54547, 65247, 34529, 6821, 1531, 2183, 12991, 14187, 49551, 12219, 60125, 40137, 6579,
  13133, 9073, 4647, 12469, 54531, 14671, 34973, 65395, 53825, 27769, 43311, 41787, 57037, 45113,
  61679, 29425, 29749, 24971, 15897, 51407, 60667, 53697, 36199, 13131, 17261, 64327, 385, 10039,
  9569, 26505, 11413, 12607, 57835, 36877, 15225, 38119, 36179, 34081, 62679, 45071, 49407, 5283,
  42949, 42631, 16883, 4117, 20673, 6377, 56479, 55917, 27735, 64201, 29141, 61475, 24945, 31781,
  45119, 50437, 28763, 4213, 34905, 61635, 53521, 5461, 39443, 17377, 56237, 32387, 6353, 44991,
  3179, 53901, 37877, 25505, 56151, 51557, 34103, 32881, 29451, 25497, 2129, 40199, 47765, 47955,
  31519, 26563]

/-- Table chunk 15 of fpInv. -/
def fpInvChunk15 : List Nat := [
  32967, 33097, 40249, 33443, 53233, 1597, 33505, 41467, 51485, 61427, 11967, 63209, 2157, 58179,
  59463, 30131, 1179, 45315, 27655, 405, 44607, 56291, 16855, 3343, 16187, 45129, 15053, 35767,
  64041, 47583, 32139, 31257, 17615, 39531, 20955, 43773, 7635, 57761, 12987, 50901, 39979, 26189,
  54201, 48753, 23847, 21429, 7069, 60429, 37603, 25947, 42357, 4811, 28177, 47799, 19439, 30943,
  8365, 64663, 28667, 57991, 47881, 62383, 22631, 31961, 52259, 46917, 21147, 60461, 4249, 62287,
  53917, 36757, 36343, 58159, 16417, 8151, 52419, 37349, 19729, 3657, 35385, 10147, 13223, 35723,
  38937, 62707, 43967, 11917, 25955, 33969, 40923, 50153, 52589, 39567, 10795, 23151, 40801, 813,
  38403, 48933, 54933, 11071, 5497, 61159, 5971, 15689, 9779, 49101, 19441, 19739, 20867, 62417,
  19137, 48377, 18139, 36861, 7841, 9287, 7125, 31359, 14703, 5643, 26149, 12623, 46963, 60407,
  60009, 10187]

/-- Table chunk 16 of fpInv. -/
def fpInvChunk16 : List Nat := [
  35087, 32349, 3015, 47617, 5291, 10297, 29723, 26029, 51607, 9467, 51209, 277, 46699, 56461,
  48629, 17353, 43187, 31103, 63873, 28963, 60485, 28597, 48537, 16977, 39671, 45945, 47, 347,
  49789, 62751, 1773, 39753, 28109, 51183, 24743, 8331, 17689, 24527, 4893, 30473, 35427, 18821,
  25009, 17653, 63375, 39313, 43477, 32555, 52791, 24249, 7337, 18477, 41297, 43071, 24811, 9699,
  18549, 15393, 11749, 43827, 47105, 42423, 931, 49691, 37929, 47669, 4305, 36629, 57719, 29949,
  32745, 42963, 9283, 357, 41417, 46887, 23955, 39777, 15753, 58373, 13549, 58895, 63687, 27051,
  44485, 809, 62175, 11651, 48263, 54805, 57741, 27645, 32843, 55001, 10341, 955, 50727, 26883,
  7325, 63067, 45599, 47649, 52205, 47575, 12459, 25839, 51253, 46475, 33801, 50625, 14477, 16743,
  55797, 4675, 65237, 62849, 23351, 19385, 37999, 48721, 13803, 41997, 40573, 41299, 41701, 9231,
  12983, 43171]

/-- Table chunk 17 of fpInv. -/
def fpInvChunk17 : List Nat := [
  31685, 14107, 28895, 55469, 11729, 22003, 6507, 38649, 19689, 61037, 30309, 65095, 62797, 20517,
  23419, 35485, 49523, 42047, 483, 33897, 25717, 12319, 20939, 63981, 15449, 17681, 58823, 46081,
  25015, 58053, 8943, 9021, 44563, 14305, 58277, 36603, 7523, 20733, 24423, 22433, 3927, 14523,
  24009, 29567, 22085, 45467, 18345, 32773, 63265, 1751, 9233, 44091, 12373, 30669, 495, 17683,
  21143, 40729, 6607, 30203, 17089, 7089, 10985, 7277, 30531, 62081, 10539, 48453, 38333, 20627,
  56145, 10619, 23673, 39215, 62951, 46625, 6117, 58441, 46387, 20173, 19875, 51623, 11817, 58421,
  131, 5149, 51079, 14613, 2223, 9691, 36255, 60759, 48073, 31309, 10531, 12913, 3261, 59283,
  5473, 51279, 4219, 44957, 16705, 19973, 51761, 34023, 26969, 35891, 61111, 61241, 40233, 13485,
  55461, 8383, 54009, 43595, 23639, 4709, 51421, 14259, 61569, 20813, 17975, 20849, 45, 50329,
  26447, 48647]

/-- Table chunk 18 of fpInv. -/
def fpInvChunk18 : List Nat := [
  7539, 22319, 16489, 5203, 34133, 45055, 55979, 2579, 62005, 19481, 33309, 40895, 17037, 22903,
  29659, 28817, 35143, 32299, 19867, 52063, 37729, 36103, 51577, 26749, 29899, 36069, 56847, 14899,
  19639, 62115, 58821, 49137, 63143, 26251, 25261, 14621, 2167, 28921, 20369, 18633, 29881, 44399,
  15911, 53857, 27147, 17943, 25737, 48705, 19427, 11867, 43551, 31691, 4701, 49095, 56377, 18459,
  60733, 59945, 14355, 43487, 64919, 2667, 61581, 26467, 53665, 34661, 41659, 60801, 39835, 19751,
  50101, 17709, 6147, 46673, 8819, 28139, 52983, 26489, 22867, 6893, 50627, 44287, 25661, 1845,
  29835, 15553, 18317, 26231, 7779, 39157, 50763, 60545, 54059, 567, 27503, 24509, 20649, 2143,
  3843, 49801, 28755, 46169, 15119, 32059, 32861, 48947, 44031, 6853, 7409, 38427, 51241, 24093,
  41351, 25843, 48065, 56825, 4059, 2301, 1951, 20385, 47171, 54629, 60561, 19055, 60529, 53685,
  36761, 31355]

/-- Table chunk 19 of fpInv. -/
def fpInvChunk19 : List Nat := [
  2573, 33841, 26399, 50009, 46019, 44231, 26709, 2231, 33221, 64787, 51863, 49539, 2313, 10773,
  41391, 5041, 53971, 54347, 63063, 43407, 1225, 23373, 31271, 7833, 54097, 38919, 54393, 55913,
  60887, 20453, 19259, 12117, 1443, 55535, 51517, 16807, 2443, 45263, 38139, 47113, 39359, 17251,
  53893, 11765, 34207, 42563, 43665, 18909, 10283, 65465, 23621, 2159, 40851, 32037, 12881, 12925,
  23767, 45627, 43263, 43265, 56781, 26295, 15523, 2843, 25823, 37003, 8823, 47493, 50335, 36001,
  19045, 45639, 6613, 20153, 19553, 15513, 24399, 7837, 3853, 24881, 6235, 3565, 46863, 4779,
  46789, 38639, 46909, 38807, 42627, 47013, 58621, 6099, 15349, 29029, 1679, 3259, 50867, 10821,
  42791, 6923, 52121, 57859, 54685, 25237, 14145, 59639, 48987, 8317, 25375, 38929, 59721, 42751,
  55723, 28327, 22803, 27361, 20877, 26723, 34693, 41575, 49909, 61149, 40371, 60601, 60073, 33375,
  20305, 64891]

/-- Table chunk 20 of fpInv. -/
def fpInvChunk20 : List Nat := [
  43413, 40753, 64083, 46027, 3673, 60389, 59195, 51805, 42495, 42497, 33989, 55025, 32795, 32167,
  41439, 57881, 11471, 28403, 28293, 17875, 8535, 40775, 25983, 36429, 41149, 64437, 2401, 10507,
  59801, 55923, 3419, 53997, 5135, 41011, 4693, 42241, 13295, 53545, 24799, 18605, 35715, 54293,
  34553, 54883, 36951, 7881, 31287, 54311, 45067, 3409, 44665, 1405, 62659, 13585, 46395, 55637,
  4301, 62009, 20387, 4847, 17973, 25, 27343, 65275, 53769, 36215, 36195, 15493, 27825, 33423,
  37853, 15687, 64725, 43319, 55737, 35607, 32405, 4927, 13291, 32121, 31793, 22247, 23413, 24805,
  42313, 59341, 34467, 62747, 43687, 44841, 56273, 25109, 12993, 15479, 39343, 47101, 35539, 35949,
  28247, 13413, 31945, 1469, 48651, 38553, 3621, 39049, 45633, 21495, 603, 58855, 57973, 58051,
  62225, 26453, 44983, 8389, 7195, 19475, 42465, 12695, 28803, 41381, 15057, 12297, 1165, 62457,
  28007, 4569]

/-- Table chunk 21 of fpInv. -/
def fpInvChunk21 : List Nat := [
  30395, 477, 59981, 39203, 15711, 22829, 47183, 57095, 13939, 16745, 11861, 57145, 29169, 8343,
  46075, 15133, 8691, 39543, 64615, 60661, 6731, 47725, 10823, 42931, 62397, 33961, 17505, 26491,
  21397, 50957, 18223, 57725, 56779, 17367, 54067, 37105, 20363, 59087, 21895, 58331, 64415, 20845,
  19523, 17595, 2505, 38989, 9653, 805, 58483, 3903, 35845, 8041, 23327, 30553, 19293, 32057,
  28143, 37147, 4371, 38565, 15625, 8291, 37885, 6759, 59091, 7567, 14537, 37943, 15907, 32625,
  58523, 11445, 17565, 4087, 34937, 29445, 41505, 28433, 40447, 52281, 62887, 28725, 41441, 60823,
  9971, 44481, 55139, 9905, 12763, 31135, 32621, 31787, 12357, 22717, 45971, 14687, 46381, 20773,
  50813, 45287, 51539, 34165, 38233, 22579, 40191, 61901, 9157, 1191, 30517, 50127, 11457, 49515,
  54191, 47263, 2135, 7781, 64913, 26183, 28117, 23679, 891, 44097, 8973, 60521, 42073, 44227,
  11023, 61533]

/-- Table chunk 22 of fpInv. -/
def fpInvChunk22 : List Nat := [
  39937, 26283, 27193, 19261, 8161, 52119, 14979, 18953, 2155, 52729, 12975, 36853, 30551, 19421,
  62541, 65093, 22939, 46943, 28427, 30211, 11073, 7415, 62841, 63315, 3089, 40135, 7497, 16035,
  11249, 24289, 463, 63753, 2751, 64611, 23429, 9947, 22119, 13983, 48017, 64469, 25925, 6511,
  32923, 48737, 64045, 17957, 4233, 53517, 1995, 47931, 56627, 39423, 39425, 10167, 35893, 38425,
  13009, 33523, 43457, 25463, 17029, 22995, 48545, 44731, 49877, 61369, 20771, 13501, 31015, 3987,
  55197, 49033, 10253, 62981, 45617, 3787, 4547, 38237, 48043, 31515, 1321, 21727, 39063, 37329,
  65159, 2239, 5005, 16817, 28883, 55183, 21193, 55425, 31053, 14705, 23299, 35733, 43073, 56581,
  5151, 32237, 33451, 42553, 35057, 20391, 10149, 1545, 12531, 34751, 27277, 8547, 4229, 871,
  24553, 44021, 22859, 42969, 1091, 22673, 56631, 27561, 45919, 57425, 53909, 54797, 61489, 2791,
  56097, 13541]

/-- Table chunk 23 of fpInv. -/
def fpInvChunk23 : List Nat := [
  50703, 38655, 38657, 6819, 36293, 24231, 17177, 32207, 27499, 28791, 55545, 3503, 41069, 31555,
  14225, 60715, 56505, 42535, 4619, 28027, 64669, 62323, 42561, 11533, 54875, 37407, 9163, 44013,
  10183, 58295, 1155, 27527, 64789, 36707, 4439, 50649, 38365, 58547, 15159, 26693, 38513, 17307,
  39179, 9537, 53113, 22817, 2263, 43469, 9199, 58865, 7307, 21655, 7333, 4873, 9409, 45159,
  11497, 45215, 52445, 27191, 31417, 27291, 34749, 61535, 42901, 33855, 38995, 6177, 8975, 37887,
  32973, 12329, 61465, 62083, 27857, 34333, 12541, 7145, 58323, 61343, 25965, 61271, 6331, 11591,
  27861, 16939, 12911, 54385, 54055, 39315, 30561, 63385, 27215, 8827, 38135, 39139, 56259, 57181,
  4181, 10693, 57839, 59053, 12951, 59779, 52177, 28937, 703, 35247, 20213, 63137, 32699, 27059,
  21119, 47259, 38569, 45613, 47953, 7, 41537, 60139, 18181, 31023, 50771, 25543, 11435, 61757,
  43431, 3609]

/-- Table chunk 24 of fpInv. -/
def fpInvChunk24 : List Nat := [
  15611, 15091, 29837, 29149, 52039, 16563, 53633, 26553, 57243, 60605, 11615, 31893, 319, 18123,
  18777, 23099, 62281, 27699, 63429, 25073, 47271, 19679, 14287, 24597, 24965, 44251, 29857, 10861,
  51913, 49621, 38699, 12621, 53103, 24211, 36533, 15371, 18255, 18077, 64883, 32831, 48611, 5381,
  49243, 62439, 19915, 22617, 41233, 33885, 455, 25941, 32495, 60457, 3039, 65431, 2811, 32265,
  42671, 55473, 31591, 37195, 57309, 63945, 21815, 53829, 20593, 63277, 2563, 21619, 49131, 20727,
  38447, 52461, 27877, 20809, 36607, 46029, 22077, 21217, 61947, 30641, 50921, 27381, 10911, 38987,
  11993, 9515, 33847, 20925, 6693, 1771, 30841, 11235, 34609, 8787, 37409, 56591, 62045, 61747,
  23479, 48881, 58791, 51753, 22957, 5327, 38643, 60011, 64253, 35159, 3729, 1863, 19839, 27759,
  51389, 9107, 53515, 35963, 44791, 58083, 51717, 41191, 60777, 25291, 64527, 10589, 47701, 4011,
  37829, 53473]

/-- Table chunk 25 of fpInv. -/
def fpInvChunk25 : List Nat := [
  45955, 31765, 10343, 34003, 28833, 19583, 52353, 36173, 1861, 41627, 59487, 61187, 57237, 40001,
  5753, 2079, 37357, 61399, 23867, 47933, 17939, 64421, 14857, 31679, 39873, 65525, 38979, 19123,
  16825, 28229, 20883, 62231, 58883, 21585, 43271, 20873, 885, 53025, 24279, 30259, 59575, 50911,
  40621, 39923, 2581, 52101, 9887, 3907, 62535, 37049, 35363, 60273, 23079, 47285, 44641, 57879,
  37021, 137, 1907, 817, 47721, 49133, 2755, 52829, 19763, 25771, 47343, 36321, 18853, 29947,
  20757, 31167, 55037, 47947, 31193, 43151, 7867, 4685, 49443, 9567, 18333, 18183, 27115, 38227,
  50463, 47633, 11179, 48589, 2835, 821, 52449, 61605, 25373, 6337, 55907, 24809, 38133, 42143,
  27025, 51329, 49175, 1061, 3963, 24201, 61197, 12079, 2429, 3105, 53337, 38671, 63803, 39497,
  30135, 58285, 34435, 6685, 57109, 35803, 20457, 11169, 20837, 57671, 29129, 38443, 49229, 12067,
  37565, 34599]

/-- Table chunk 26 of fpInv. -/
def fpInvChunk26 : List Nat := [
  27489, 43813, 63295, 40795, 34665, 8053, 34029, 53811, 34561, 42167, 64173, 32131, 42249, 63167,
  18531, 33383, 41717, 37463, 42713, 21435, 26481, 35995, 33291, 47363, 32079, 12113, 46087, 61561,
  6917, 60719, 63357, 30313, 51003, 6087, 34303, 17101, 13551, 46833, 34109, 53267, 1419, 21911,
  58789, 65379, 4455, 11753, 24991, 42861, 46553, 20181, 45979, 56211, 8543, 59745, 56621, 62181,
  57693, 10057, 34049, 27815, 45353, 7989, 27523, 16157, 10887, 42483, 48047, 43517, 41119, 58769,
  52807, 54307, 29331, 10337, 22681, 47951, 43899, 54775, 37979, 3161, 54467, 4879, 5393, 47445,
  12727, 8233, 65043, 23761, 63879, 13817, 57175, 54233, 35003, 50049, 2851, 411, 5899, 56445,
  8019, 57581, 16613, 1223, 54699, 8505, 38163, 11573, 50683, 24841, 21491, 62143, 36237, 901,
  52955, 64233, 60491, 43741, 27719, 3397, 367, 24159, 60965, 61447, 42389, 29247, 49123, 54141,
  10841, 26597]

/-- Modelled from the spec: firstprimes_inverse_simd[i] is the modular
inverse of primes[i] mod 2 ^ 16 (firstprimes.h is not in the sources).
Stored as literals; the theorem firstprimes_inverse_eq_map below checks
each entry against inv16. -/
def firstprimes_inverse_simd : List Nat :=
  fpInvChunk0 ++ (fpInvChunk1 ++ (fpInvChunk2 ++ (fpInvChunk3 ++ (fpInvChunk4 ++ (fpInvChunk5 ++ (fpInvChunk6 ++ (fpInvChunk7 ++ (fpInvChunk8 ++ (fpInvChunk9 ++ (fpInvChunk10 ++ (fpInvChunk11 ++ (fpInvChunk12 ++ (fpInvChunk13 ++ (fpInvChunk14 ++ (fpInvChunk15 ++ (fpInvChunk16 ++ (fpInvChunk17 ++ (fpInvChunk18 ++ (fpInvChunk19 ++ (fpInvChunk20 ++ (fpInvChunk21 ++ (fpInvChunk22 ++ (fpInvChunk23 ++ (fpInvChunk24 ++ (fpInvChunk25 ++ (fpInvChunk26))))))))))))))))))))))))))

/-- Table chunk 0 of fpLim. -/
def fpLimChunk0 : List Nat := [
  13107, 9362, 5957, 5041, 3855, 3449, 2849, 2259, 2114, 1771, 1598, 1524, 1394, 1236,
  1110, 1074, 978, 923, 897, 829, 789, 736, 675, 648, 636, 612, 601, 579,
  516, 500, 478, 471, 439, 434, 417, 402, 392, 378, 366, 362, 343, 339,
  332, 329, 310, 293, 288, 286, 281, 274, 271, 261, 255, 249, 243, 241,
  236, 233, 231, 223, 213, 210, 209, 206, 197, 194, 188, 187, 185, 182,
  178, 175, 172, 171, 168, 165, 163, 160, 156, 155, 152, 151, 149, 147,
  145, 143, 142, 141, 140, 136, 134, 133, 131, 130, 128, 125, 125, 121,
  119, 117, 116, 115, 114, 113, 111, 110, 109, 109, 107, 106, 106, 105,
  103, 102, 101, 101, 100, 99, 99, 97, 96, 95, 94, 93, 92, 91,
  90, 89]

/-- Table chunk 1 of fpLim. -/
def fpLimChunk1 : List Nat := [
  88, 88, 87, 86, 86, 85, 84, 83, 82, 81, 80, 79, 79, 79,
  79, 78, 76, 76, 76, 75, 74, 74, 74, 73, 72, 71, 71, 70,
  69, 69, 69, 68, 67, 67, 67, 66, 66, 65, 64, 64, 64, 64,
  63, 63, 63, 62, 62, 61, 61, 61, 60, 60, 59, 59, 59, 59,
  58, 58, 58, 56, 56, 56, 55, 55, 55, 54, 54, 54, 53, 53,
  53, 53, 52, 52, 52, 51, 51, 51, 50, 50, 50, 50, 50, 50,
  49, 49, 49, 48, 47, 47, 47, 46, 46, 46, 45, 45, 45, 45,
  45, 45, 45, 44, 44, 44, 44, 44, 44, 43, 43, 43, 43, 42,
  42, 42, 42, 42, 41, 41, 41, 41, 41, 40, 40, 40, 40, 40,
  40, 40]

/-- Table chunk 2 of fpLim. -/
def fpLimChunk2 : List Nat := [
  40, 39, 39, 39, 39, 38, 38, 38, 38, 38, 38, 37, 37, 37,
  37, 37, 36, 36, 36, 36, 36, 36, 35, 35, 35, 35, 35, 35,
  34, 34, 34, 34, 34, 34, 34, 33, 33, 33, 33, 33, 33, 32,
  32, 32, 32, 32, 32, 32, 32, 32, 32, 31, 31, 31, 31, 31,
  31, 31, 31, 31, 31, 30, 30, 30, 30, 30, 30, 30, 30, 29,
  29, 29, 29, 29, 29, 29, 29, 28, 28, 28, 28, 28, 28, 28,
  28, 28, 28, 28, 27, 27, 27, 27, 27, 27, 27, 27, 27, 27,
  27, 27, 27, 27, 26, 26, 26, 26, 26, 26, 26, 26, 25, 25,
  25, 25, 25, 25, 25, 25, 25, 25, 25, 25, 25, 24, 24, 24,
  24, 24]

/-- Table chunk 3 of fpLim. -/
def fpLimChunk3 : List Nat := [
  24, 24, 24, 24, 24, 24, 24, 24, 24, 24, 24, 24, 23, 23,
  23, 23, 23, 23, 23, 23, 23, 23, 23, 23, 23, 23, 23, 22,
  22, 22, 22, 22, 22, 22, 22, 22, 22, 22, 22, 22, 22, 22,
  22, 21, 21, 21, 21, 21, 21, 21, 21, 21, 21, 21, 21, 21,
  21, 21, 20, 20, 20, 20, 20, 20, 20, 20, 20, 20, 20, 20,
  20, 20, 20, 20, 20, 20, 19, 19, 19, 19, 19, 19, 19, 19,
  19, 19, 19, 19, 19, 19, 19, 19, 19, 19, 19, 19, 18, 18,
  18, 18, 18, 18, 18, 18, 18, 18, 18, 18, 18, 18, 18, 18,
  18, 18, 18, 18, 18, 18, 18, 18, 18, 18, 18, 17, 17, 17,
  17, 17]

/-- Table chunk 4 of fpLim. -/
def fpLimChunk4 : List Nat := [
  17, 17, 17, 17, 17, 17, 17, 17, 17, 17, 17, 17, 17, 17,
  17, 17, 17, 17, 17, 17, 17, 16, 16, 16, 16, 16, 16, 16,
  16, 16, 16, 16, 16, 16, 16, 16, 16, 16, 16, 16, 16, 16,
  16, 16, 16, 16, 16, 16, 16, 16, 15, 15, 15, 15, 15, 15,
  15, 15, 15, 15, 15, 15, 15, 15, 15, 15, 15, 15, 15, 15,
  15, 15, 15, 15, 15, 15, 15, 15, 15, 15, 15, 15, 14, 14,
  14, 14, 14, 14, 14, 14, 14, 14, 14, 14, 14, 14, 14, 14,
  14, 14, 14, 14, 14, 14, 14, 14, 14, 14, 14, 14, 14, 14,
  14, 14, 14, 14, 14, 14, 14, 13, 13, 13, 13, 13, 13, 13,
  13, 13]

/-- Table chunk 5 of fpLim. -/
def fpLimChunk5 : List Nat := [
  13, 13, 13, 13, 13, 13, 13, 13, 13, 13, 13, 13, 13, 13,
  13, 13, 13, 13, 13, 13, 13, 13, 13, 13, 13, 13, 13, 13,
  13, 13, 13, 13, 13, 12, 12, 12, 12, 12, 12, 12, 12, 12,
  12, 12, 12, 12, 12, 12, 12, 12, 12, 12, 12, 12, 12, 12,
  12, 12, 12, 12, 12, 12, 12, 12, 12, 12, 12, 12, 12, 12,
  12, 12, 12, 12, 12, 12, 12, 12, 12, 11, 11, 11, 11, 11,
  11, 11, 11, 11, 11, 11, 11, 11, 11, 11, 11, 11, 11, 11,
  11, 11, 11, 11, 11, 11, 11, 11, 11, 11, 11, 11, 11, 11,
  11, 11, 11, 11, 11, 11, 11, 11, 11, 11, 11, 11, 11, 11,
  11, 11]

/-- Table chunk 6 of fpLim. -/
def fpLimChunk6 : List Nat := [
  11, 11, 11, 11, 11, 11, 11, 11, 11, 11, 11, 10, 10, 10,
  10, 10, 10, 10, 10, 10, 10, 10, 10, 10, 10, 10, 10, 10,
  10, 10, 10, 10, 10, 10, 10, 10, 10, 10, 10, 10, 10, 10,
  10, 10, 10, 10, 10, 10, 10, 10, 10, 10, 10, 10, 10, 10,
  10, 10, 10, 10, 10, 10, 10, 10, 10, 10, 10, 10, 10, 10,
  10, 10, 10, 10, 10, 10, 10, 9, 9, 9, 9, 9, 9, 9,
  9, 9, 9, 9, 9, 9, 9, 9, 9, 9, 9, 9, 9, 9,
  9, 9, 9, 9, 9, 9, 9, 9, 9, 9, 9, 9, 9, 9,
  9, 9, 9, 9, 9, 9, 9, 9, 9, 9, 9, 9, 9, 9,
  9, 9]

/-- Table chunk 7 of fpLim. -/
def fpLimChunk7 : List Nat := [
  9, 9, 9, 9, 9, 9, 9, 9, 9, 9, 9, 9, 9, 9,
  9, 9, 9, 9, 9, 9, 9, 9, 9, 9, 9, 9, 9, 9,
  9, 9, 8, 8, 8, 8, 8, 8, 8, 8, 8, 8, 8, 8,
  8, 8, 8, 8, 8, 8, 8, 8, 8, 8, 8, 8, 8, 8,
  8, 8, 8, 8, 8, 8, 8, 8, 8, 8, 8, 8, 8, 8,
  8, 8, 8, 8, 8, 8, 8, 8, 8, 8, 8, 8, 8, 8,
  8, 8, 8, 8, 8, 8, 8, 8, 8, 8, 8, 8, 8, 8,
  8, 8, 8, 8, 8, 8, 8, 8, 8, 8, 8, 8, 8, 8,
  8, 8, 8, 8, 8, 8, 8, 8, 8, 8, 8, 8, 8, 8,
  8, 8]

/-- Table chunk 8 of fpLim. -/
def fpLimChunk8 : List Nat := [
  8, 8, 7, 7, 7, 7, 7, 7, 7, 7, 7, 7, 7, 7,
  7, 7, 7, 7, 7, 7, 7, 7, 7, 7, 7, 7, 7, 7,
  7, 7, 7, 7, 7, 7, 7, 7, 7, 7, 7, 7, 7, 7,
  7, 7, 7, 7, 7, 7, 7, 7, 7, 7, 7, 7, 7, 7,
  7, 7, 7, 7, 7, 7, 7, 7, 7, 7, 7, 7, 7, 7,
  7, 7, 7, 7, 7, 7, 7, 7, 7, 7, 7, 7, 7, 7,
  7, 7, 7, 7, 7, 7, 7, 7, 7, 7, 7, 7, 7, 7,
  7, 7, 7, 7, 7, 7, 7, 7, 7, 7, 7, 7, 7, 7,
  7, 7, 7, 7, 7, 7, 7, 7, 7, 7, 7, 7, 7, 7,
  7, 7]

/-- Table chunk 9 of fpLim. -/
def fpLimChunk9 : List Nat := [
  7, 7, 7, 7, 6, 6, 6, 6, 6, 6, 6, 6, 6, 6,
  6, 6, 6, 6, 6, 6, 6, 6, 6, 6, 6, 6, 6, 6,
  6, 6, 6, 6, 6, 6, 6, 6, 6, 6, 6, 6, 6, 6,
  6, 6, 6, 6, 6, 6, 6, 6, 6, 6, 6, 6, 6, 6,
  6, 6, 6, 6, 6, 6, 6, 6, 6, 6, 6, 6, 6, 6,
  6, 6, 6, 6, 6, 6, 6, 6, 6, 6, 6, 6, 6, 6,
  6, 6, 6, 6, 6, 6, 6, 6, 6, 6, 6, 6, 6, 6,
  6, 6, 6, 6, 6, 6, 6, 6, 6, 6, 6, 6, 6, 6,
  6, 6, 6, 6, 6, 6, 6, 6, 6, 6, 6, 6, 6, 6,
  6, 6]

/-- Table chunk 10 of fpLim. -/
def fpLimChunk10 : List Nat := [
  6, 6, 6, 6, 6, 6, 6, 6, 6, 6, 6, 6, 6, 6,
  6, 6, 6, 6, 6, 6, 6, 6, 6, 6, 6, 6, 6, 6,
  6, 6, 6, 6, 6, 6, 6, 6, 6, 6, 6, 6, 6, 6,
  6, 6, 6, 5, 5, 5, 5, 5, 5, 5, 5, 5, 5, 5,
  5, 5, 5, 5, 5, 5, 5, 5, 5, 5, 5, 5, 5, 5,
  5, 5, 5, 5, 5, 5, 5, 5, 5, 5, 5, 5, 5, 5,
  5, 5, 5, 5, 5, 5, 5, 5, 5, 5, 5, 5, 5, 5,
  5, 5, 5, 5, 5, 5, 5, 5, 5, 5, 5, 5, 5, 5,
  5, 5, 5, 5, 5, 5, 5, 5, 5, 5, 5, 5, 5, 5,
  5, 5]

/-- Table chunk 11 of fpLim. -/
def fpLimChunk11 : List Nat := [
  5, 5, 5, 5, 5, 5, 5, 5, 5, 5, 5, 5, 5, 5,
  5, 5, 5, 5, 5, 5, 5, 5, 5, 5, 5, 5, 5, 5,
  5, 5, 5, 5, 5, 5, 5, 5, 5, 5, 5, 5, 5, 5,
  5, 5, 5, 5, 5, 5, 5, 5, 5, 5, 5, 5, 5, 5,
  5, 5, 5, 5, 5, 5, 5, 5, 5, 5, 5, 5, 5, 5,
  5, 5, 5, 5, 5, 5, 5, 5, 5, 5, 5, 5, 5, 5,
  5, 5, 5, 5, 5, 5, 5, 5, 5, 5, 5, 5, 5, 5,
  5, 5, 5, 5, 5, 5, 5, 5, 5, 5, 5, 5, 5, 5,
  5, 5, 5, 5, 5, 5, 5, 5, 5, 5, 5, 5, 5, 5,
  5, 5]

/-- Table chunk 12 of fpLim. -/
def fpLimChunk12 : List Nat := [
  5, 5, 5, 5, 5, 5, 5, 5, 5, 5, 5, 5, 5, 5,
  5, 5, 5, 5, 5, 5, 5, 4, 4, 4, 4, 4, 4, 4,
  4, 4, 4, 4, 4, 4, 4, 4, 4, 4, 4, 4, 4, 4,
  4, 4, 4, 4, 4, 4, 4, 4, 4, 4, 4, 4, 4, 4,
  4, 4, 4, 4, 4, 4, 4, 4, 4, 4, 4, 4, 4, 4,
  4, 4, 4, 4, 4, 4, 4, 4, 4, 4, 4, 4, 4, 4,
  4, 4, 4, 4, 4, 4, 4, 4, 4, 4, 4, 4, 4, 4,
  4, 4, 4, 4, 4, 4, 4, 4, 4, 4, 4, 4, 4, 4,
  4, 4, 4, 4, 4, 4, 4, 4, 4, 4, 4, 4, 4, 4,
  4, 4]

/-- Table chunk 13 of fpLim. -/
def fpLimChunk13 : List Nat := [
  4, 4, 4, 4, 4, 4, 4, 4, 4, 4, 4, 4, 4, 4,
  4, 4, 4, 4, 4, 4, 4, 4, 4, 4, 4, 4, 4, 4,
  4, 4, 4, 4, 4, 4, 4, 4, 4, 4, 4, 4, 4, 4,
  4, 4, 4, 4, 4, 4, 4, 4, 4, 4, 4, 4, 4, 4,
  4, 4, 4, 4, 4, 4, 4, 4, 4, 4, 4, 4, 4, 4,
  4, 4, 4, 4, 4, 4, 4, 4, 4, 4, 4, 4, 4, 4,
  4, 4, 4, 4, 4, 4, 4, 4, 4, 4, 4, 4, 4, 4,
  4, 4, 4, 4, 4, 4, 4, 4, 4, 4, 4, 4, 4, 4,
  4, 4, 4, 4, 4, 4, 4, 4, 4, 4, 4, 4, 4, 4,
  4, 4]

/-- Table chunk 14 of fpLim. -/
def fpLimChunk14 : List Nat := [
  4, 4, 4, 4, 4, 4, 4, 4, 4, 4, 4, 4, 4, 4,
  4, 4, 4, 4, 4, 4, 4, 4, 4, 4, 4, 4, 4, 4,
  4, 4, 4, 4, 4, 4, 4, 4, 4, 4, 4, 4, 4, 4,
  4, 4, 4, 4, 4, 4, 4, 4, 4, 4, 4, 4, 4, 4,
  4, 4, 4, 4, 4, 4, 4, 4, 4, 4, 4, 4, 4, 4,
  4, 4, 4, 4, 4, 4, 4, 4, 4, 4, 4, 4, 4, 4,
  4, 4, 4, 4, 4, 4, 4, 4, 4, 4, 4, 4, 4, 4,
  4, 4, 4, 4, 4, 4, 4, 4, 3, 3, 3, 3, 3, 3,
  3, 3, 3, 3, 3, 3, 3, 3, 3, 3, 3, 3, 3, 3,
  3, 3]

/-- Table chunk 15 of fpLim. -/
def fpLimChunk15 : List Nat := [
  3, 3, 3, 3, 3, 3, 3, 3, 3, 3, 3, 3, 3, 3,
  3, 3, 3, 3, 3, 3, 3, 3, 3, 3, 3, 3, 3, 3,
  3, 3, 3, 3, 3, 3, 3, 3, 3, 3, 3, 3, 3, 3,
  3, 3, 3, 3, 3, 3, 3, 3, 3, 3, 3, 3, 3, 3,
  3, 3, 3, 3, 3, 3, 3, 3, 3, 3, 3, 3, 3, 3,
  3, 3, 3, 3, 3, 3, 3, 3, 3, 3, 3, 3, 3, 3,
  3, 3, 3, 3, 3, 3, 3, 3, 3, 3, 3, 3, 3, 3,
  3, 3, 3, 3, 3, 3, 3, 3, 3, 3, 3, 3, 3, 3,
  3, 3, 3, 3, 3, 3, 3, 3, 3, 3, 3, 3, 3, 3,
  3, 3]

/-- Table chunk 16 of fpLim. -/
def fpLimChunk16 : List Nat := [
  3, 3, 3, 3, 3, 3, 3, 3, 3, 3, 3, 3, 3, 3,
  3, 3, 3, 3, 3, 3, 3, 3, 3, 3, 3, 3, 3, 3,
  3, 3, 3, 3, 3, 3, 3, 3, 3, 3, 3, 3, 3, 3,
  3, 3, 3, 3, 3, 3, 3, 3, 3, 3, 3, 3, 3, 3,
  3, 3, 3, 3, 3, 3, 3, 3, 3, 3, 3, 3, 3, 3,
  3, 3, 3, 3, 3, 3, 3, 3, 3, 3, 3, 3, 3, 3,
  3, 3, 3, 3, 3, 3, 3, 3, 3, 3, 3, 3, 3, 3,
  3, 3, 3, 3, 3, 3, 3, 3, 3, 3, 3, 3, 3, 3,
  3, 3, 3, 3, 3, 3, 3, 3, 3, 3, 3, 3, 3, 3,
  3, 3]

/-- Table chunk 17 of fpLim. -/
def fpLimChunk17 : List Nat := [
  3, 3, 3, 3, 3, 3, 3, 3, 3, 3, 3, 3, 3, 3,
  3, 3, 3, 3, 3, 3, 3, 3, 3, 3, 3, 3, 3, 3,
  3, 3, 3, 3, 3, 3, 3, 3, 3, 3, 3, 3, 3, 3,
  3, 3, 3, 3, 3, 3, 3, 3, 3, 3, 3, 3, 3, 3,
  3, 3, 3, 3, 3, 3, 3, 3, 3, 3, 3, 3, 3, 3,
  3, 3, 3, 3, 3, 3, 3, 3, 3, 3, 3, 3, 3, 3,
  3, 3, 3, 3, 3, 3, 3, 3, 3, 3, 3, 3, 3, 3,
  3, 3, 3, 3, 3, 3, 3, 3, 3, 3, 3, 3, 3, 3,
  3, 3, 3, 3, 3, 3, 3, 3, 3, 3, 3, 3, 3, 3,
  3, 3]

/-- Table chunk 18 of fpLim. -/
def fpLimChunk18 : List Nat := [
  3, 3, 3, 3, 3, 3, 3, 3, 3, 3, 3, 3, 3, 3,
  3, 3, 3, 3, 3, 3, 3, 3, 3, 3, 3, 3, 3, 3,
  3, 3, 3, 3, 3, 3, 3, 3, 3, 3, 3, 3, 3, 3,
  3, 3, 3, 3, 3, 3, 3, 3, 3, 3, 3, 3, 3, 3,
  3, 3, 3, 3, 3, 3, 3, 3, 3, 3, 3, 3, 3, 3,
  3, 3, 3, 3, 3, 3, 3, 3, 3, 3, 3, 3, 3, 3,
  3, 3, 3, 3, 3, 3, 3, 3, 3, 3, 3, 3, 3, 3,
  3, 3, 3, 3, 3, 3, 3, 3, 3, 3, 3, 3, 3, 3,
  3, 3, 3, 3, 3, 3, 3, 3, 3, 3, 3, 3, 3, 3,
  3, 3]

/-- Table chunk 19 of fpLim. -/
def fpLimChunk19 : List Nat := [
  3, 3, 3, 3, 3, 3, 3, 3, 3, 3, 3, 3, 3, 3,
  3, 3, 2, 2, 2, 2, 2, 2, 2, 2, 2, 2, 2, 2,
  2, 2, 2, 2, 2, 2, 2, 2, 2, 2, 2, 2, 2, 2,
  2, 2, 2, 2, 2, 2, 2, 2, 2, 2, 2, 2, 2, 2,
  2, 2, 2, 2, 2, 2, 2, 2, 2, 2, 2, 2, 2, 2,
  2, 2, 2, 2, 2, 2, 2, 2, 2, 2, 2, 2, 2, 2,
  2, 2, 2, 2, 2, 2, 2, 2, 2, 2, 2, 2, 2, 2,
  2, 2, 2, 2, 2, 2, 2, 2, 2, 2, 2, 2, 2, 2,
  2, 2, 2, 2, 2, 2, 2, 2, 2, 2, 2, 2, 2, 2,
  2, 2]

/-- Table chunk 20 of fpLim. -/
def fpLimChunk20 : List Nat := [
  2, 2, 2, 2, 2, 2, 2, 2, 2, 2, 2, 2, 2, 2,
  2, 2, 2, 2, 2, 2, 2, 2, 2, 2, 2, 2, 2, 2,
  2, 2, 2, 2, 2, 2, 2, 2, 2, 2, 2, 2, 2, 2,
  2, 2, 2, 2, 2, 2, 2, 2, 2, 2, 2, 2, 2, 2,
  2, 2, 2, 2, 2, 2, 2, 2, 2, 2, 2, 2, 2, 2,
  2, 2, 2, 2, 2, 2, 2, 2, 2, 2, 2, 2, 2, 2,
  2, 2, 2, 2, 2, 2, 2, 2, 2, 2, 2, 2, 2, 2,
  2, 2, 2, 2, 2, 2, 2, 2, 2, 2, 2, 2, 2, 2,
  2, 2, 2, 2, 2, 2, 2, 2, 2, 2, 2, 2, 2, 2,
  2, 2]

/-- Table chunk 21 of fpLim. -/
def fpLimChunk21 : List Nat := [
  2, 2, 2, 2, 2, 2, 2, 2, 2, 2, 2, 2, 2, 2,
  2, 2, 2, 2, 2, 2, 2, 2, 2, 2, 2, 2, 2, 2,
  2, 2, 2, 2, 2, 2, 2, 2, 2, 2, 2, 2, 2, 2,
  2, 2, 2, 2, 2, 2, 2, 2, 2, 2, 2, 2, 2, 2,
  2, 2, 2, 2, 2, 2, 2, 2, 2, 2, 2, 2, 2, 2,
  2, 2, 2, 2, 2, 2, 2, 2, 2, 2, 2, 2, 2, 2,
  2, 2, 2, 2, 2, 2, 2, 2, 2, 2, 2, 2, 2, 2,
  2, 2, 2, 2, 2, 2, 2, 2, 2, 2, 2, 2, 2, 2,
  2, 2, 2, 2, 2, 2, 2, 2, 2, 2, 2, 2, 2, 2,
  2, 2]

/-- Table chunk 22 of fpLim. -/
def fpLimChunk22 : List Nat := [
  2, 2, 2, 2, 2, 2, 2, 2, 2, 2, 2, 2, 2, 2,
  2, 2, 2, 2, 2, 2, 2, 2, 2, 2, 2, 2, 2, 2,
  2, 2, 2, 2, 2, 2, 2, 2, 2, 2, 2, 2, 2, 2,
  2, 2, 2, 2, 2, 2, 2, 2, 2, 2, 2, 2, 2, 2,
  2, 2, 2, 2, 2, 2, 2, 2, 2, 2, 2, 2, 2, 2,
  2, 2, 2, 2, 2, 2, 2, 2, 2, 2, 2, 2, 2, 2,
  2, 2, 2, 2, 2, 2, 2, 2, 2, 2, 2, 2, 2, 2,
  2, 2, 2, 2, 2, 2, 2, 2, 2, 2, 2, 2, 2, 2,
  2, 2, 2, 2, 2, 2, 2, 2, 2, 2, 2, 2, 2, 2,
  2, 2]

/-- Table chunk 23 of fpLim. -/
def fpLimChunk23 : List Nat := [
  2, 2, 2, 2, 2, 2, 2, 2, 2, 2, 2, 2, 2, 2,
  2, 2, 2, 2, 2, 2, 2, 2, 2, 2, 2, 2, 2, 2,
  2, 2, 2, 2, 2, 2, 2, 2, 2, 2, 2, 2, 2, 2,
  2, 2, 2, 2, 2, 2, 2, 2, 2, 2, 2, 2, 2, 2,
  2, 2, 2, 2, 2, 2, 2, 2, 2, 2, 2, 2, 2, 2,
  2, 2, 2, 2, 2, 2, 2, 2, 2, 2, 2, 2, 2, 2,
  2, 2, 2, 2, 2, 2, 2, 2, 2, 2, 2, 2, 2, 2,
  2, 2, 2, 2, 2, 2, 2, 2, 2, 2, 2, 2, 2, 2,
  2, 2, 2, 2, 2, 2, 2, 2, 2, 2, 2, 2, 2, 2,
  2, 2]

/-- Table chunk 24 of fpLim. -/
def fpLimChunk24 : List Nat := [
  2, 2, 2, 2, 2, 2, 2, 2, 2, 2, 2, 2, 2, 2,
  2, 2, 2, 2, 2, 2, 2, 2, 2, 2, 2, 2, 2, 2,
  2, 2, 2, 2, 2, 2, 2, 2, 2, 2, 2, 2, 2, 2,
  2, 2, 2, 2, 2, 2, 2, 2, 2, 2, 2, 2, 2, 2,
  2, 2, 2, 2, 2, 2, 2, 2, 2, 2, 2, 2, 2, 2,
  2, 2, 2, 2, 2, 2, 2, 2, 2, 2, 2, 2, 2, 2,
  2, 2, 2, 2, 2, 2, 2, 2, 2, 2, 2, 2, 2, 2,
  2, 2, 2, 2, 2, 2, 2, 2, 2, 2, 2, 2, 2, 2,
  2, 2, 2, 2, 2, 2, 2, 2, 2, 2, 2, 2, 2, 2,
  2, 2]

/-- Table chunk 25 of fpLim. -/
def fpLimChunk25 : List Nat := [
  2, 2, 2, 2, 2, 2, 2, 2, 2, 2, 2, 2, 2, 2,
  2, 2, 2, 2, 2, 2, 2, 2, 2, 2, 2, 2, 2, 2,
  2, 2, 2, 2, 2, 2, 2, 2, 2, 2, 2, 2, 2, 2,
  2, 2, 2, 2, 2, 2, 2, 2, 2, 2, 2, 2, 2, 2,
  2, 2, 2, 2, 2, 2, 2, 2, 2, 2, 2, 2, 2, 2,
  2, 2, 2, 2, 2, 2, 2, 2, 2, 2, 2, 2, 2, 2,
  2, 2, 2, 2, 2, 2, 2, 2, 2, 2, 2, 2, 2, 2,
  2, 2, 2, 2, 2, 2, 2, 2, 2, 2, 2, 2, 2, 2,
  2, 2, 2, 2, 2, 2, 2, 2, 2, 2, 2, 2, 2, 2,
  2, 2]

/-- Table chunk 26 of fpLim. -/
def fpLimChunk26 : List Nat := [
  2, 2, 2, 2, 2, 2, 2, 2, 2, 2, 2, 2, 2, 2,
  2, 2, 2, 2, 2, 2, 2, 2, 2, 2, 2, 2, 2, 2,
  2, 2, 2, 2, 2, 2, 2, 2, 2, 2, 2, 2, 2, 2,
  2, 2, 2, 2, 2, 2, 2, 2, 2, 2, 2, 2, 2, 2,
  2, 2, 2, 2, 2, 2, 2, 2, 2, 2, 2, 2, 2, 2,
  2, 2, 2, 2, 2, 2, 2, 2, 2, 2, 2, 2, 2, 2,
  2, 2, 2, 2, 2, 2, 2, 2, 2, 2, 2, 2, 2, 2,
  2, 2, 2, 2, 2, 2, 2, 2, 2, 2, 2, 2, 2, 2,
  2, 2, 2, 2, 2, 2, 2, 2, 2, 2, 2, 2, 2, 2,
  2, 2]

/-- Modelled from the spec: firstprimes_mullimit_simd[i] =
floor((2 ^ 16 - 1) / primes[i]).  Stored as literals; checked against
mullimit16 by firstprimes_mullimit_eq_map below. -/
def firstprimes_mullimit_simd : List Nat :=
  fpLimChunk0 ++ (fpLimChunk1 ++ (fpLimChunk2 ++ (fpLimChunk3 ++ (fpLimChunk4 ++ (fpLimChunk5 ++ (fpLimChunk6 ++ (fpLimChunk7 ++ (fpLimChunk8 ++ (fpLimChunk9 ++ (fpLimChunk10 ++ (fpLimChunk11 ++ (fpLimChunk12 ++ (fpLimChunk13 ++ (fpLimChunk14 ++ (fpLimChunk15 ++ (fpLimChunk16 ++ (fpLimChunk17 ++ (fpLimChunk18 ++ (fpLimChunk19 ++ (fpLimChunk20 ++ (fpLimChunk21 ++ (fpLimChunk22 ++ (fpLimChunk23 ++ (fpLimChunk24 ++ (fpLimChunk25 ++ (fpLimChunk26))))))))))))))))))))))))))

/-- Table chunk 0 of fpM2r. -/
def fpM2rChunk0 : List Nat := [
  32771, 32769, 32778, 32776, 32777, 32780, 32784, 32795, 32769, 32791, 32777, 32770, 32777, 32782,
  32791, 32779, 32773, 32805, 32832, 32830, 32834, 32784, 32847, 32812, 32782, 32794, 32836, 32879,
  32770, 32786, 32793, 32871, 32905, 32769, 32880, 32773, 32804, 32839, 32779, 32775, 32875, 32919,
  32834, 32900, 32831, 32978, 32848, 32789, 32916, 32793, 33001, 32906, 32897, 32924, 32987, 33016,
  32850, 32940, 32991, 33013, 32994, 32881, 32984, 32885, 33098, 32847, 32918, 33079, 33060, 32867,
  32873, 33085, 32942, 32981, 32860, 32982, 33055, 32816, 32854, 33119, 32780, 33061, 33050, 33197,
  33208, 33089, 32805, 33126, 32846, 32964, 32907, 33130, 33101, 32841, 32960, 33234, 33110, 33076,
  33263, 33230, 32882, 33103, 32989, 33224, 33251, 32921, 33190, 33082, 33365, 33047, 32835, 33348,
  33355, 32845, 33386, 33186, 32886, 33245, 33147, 33232, 33040, 33435, 33059, 33290, 32922, 33181,
  32821, 33284]

/-- Table chunk 1 of fpM2r. -/
def fpM2rChunk1 : List Nat := [
  33020, 32844, 33243, 32985, 32813, 33238, 33070, 33269, 32859, 33176, 33096, 33517, 33439, 33283,
  33205, 32815, 33122, 32970, 32894, 33605, 33087, 32939, 32865, 33604, 32884, 33651, 33371, 33021,
  33678, 33542, 33338, 33134, 33625, 33493, 33295, 33097, 32833, 33632, 33248, 33120, 32928, 32864,
  33575, 33513, 33327, 33017, 32955, 33706, 33646, 33466, 32926, 32806, 33839, 33723, 33549, 33375,
  33143, 32969, 32795, 33308, 33252, 32972, 33919, 33649, 33487, 33325, 33109, 32785, 33894, 33738,
  33582, 33530, 33374, 33062, 32802, 33611, 33561, 33461, 33311, 33261, 33111, 33011, 32961, 32861,
  33880, 33832, 33688, 32872, 34095, 33957, 33773, 33359, 33129, 32807, 34142, 34098, 34010, 33878,
  33702, 33614, 33570, 33438, 33174, 32954, 32910, 32822, 32778, 34183, 34057, 33805, 33553, 33385,
  33133, 33007, 32923, 32797, 34196, 34116, 33956, 33876, 33596, 33516, 33396, 33356, 33276, 33156,
  33116, 32996]

/-- Table chunk 2 of fpM2r. -/
def fpM2rChunk2 : List Nat := [
  32796, 34053, 33939, 33863, 33825, 33369, 33293, 33255, 33065, 32837, 32799, 34342, 34198, 34090,
  33982, 33874, 33550, 33442, 33370, 33334, 33118, 32938, 34545, 34409, 34137, 33899, 33797, 33729,
  33695, 33627, 33593, 33423, 33219, 33117, 33015, 34640, 34608, 34352, 34320, 33968, 33872, 33744,
  33648, 33584, 33552, 33488, 33360, 33264, 33104, 33072, 32912, 34741, 34591, 34501, 34321, 34291,
  34231, 34201, 34051, 33871, 33841, 33601, 33571, 33481, 33421, 33391, 33241, 33121, 32851, 34694,
  34638, 34554, 34442, 34218, 34190, 34134, 34022, 33798, 33770, 33714, 33602, 33518, 33434, 33378,
  33210, 33182, 32874, 32790, 35103, 35025, 34973, 34895, 34713, 34635, 34583, 34557, 34479, 34427,
  34349, 34193, 34115, 34037, 33855, 33803, 33725, 33569, 33465, 33387, 33335, 32997, 35284, 35164,
  35068, 35020, 34948, 34924, 34852, 34588, 34444, 34420, 34228, 34132, 34084, 33940, 33772, 33652,
  33628, 33580]

/-- Table chunk 3 of fpM2r. -/
def fpM2rChunk3 : List Nat := [
  33484, 33412, 33340, 33292, 33268, 33220, 33148, 33052, 33004, 32980, 32908, 32788, 35495, 35385,
  35297, 35253, 35099, 34989, 34857, 34835, 34769, 34725, 34703, 34527, 34373, 34329, 34263, 34175,
  34109, 34065, 33867, 33779, 33669, 33603, 33537, 33449, 33339, 33207, 33053, 33009, 32943, 32877,
  32855, 35546, 35526, 35426, 35346, 35306, 35166, 35126, 35046, 34926, 34866, 34746, 34706, 34646,
  34446, 34346, 34326, 34166, 33906, 33866, 33846, 33726, 33666, 33626, 33506, 33446, 33366, 33326,
  33246, 33026, 33006, 32966, 32946, 32826, 35845, 35827, 35773, 35719, 35665, 35629, 35575, 35557,
  35449, 35413, 35305, 35287, 35197, 35179, 35035, 35017, 34873, 34819, 34639, 34495, 34423, 34387,
  34369, 34333, 34315, 34117, 34045, 33937, 33883, 33793, 33775, 33739, 33685, 33667, 33613, 33523,
  33505, 33397, 33307, 33289, 33199, 33073, 33019, 32983, 32929, 32857, 32803, 36392, 36264, 36168,
  36152, 36120]

/-- Table chunk 4 of fpM2r. -/
def fpM2rChunk4 : List Nat := [
  36008, 35960, 35928, 35864, 35784, 35720, 35672, 35624, 35448, 35400, 35384, 35304, 35192, 35160,
  35112, 34968, 34952, 34872, 34760, 34728, 34712, 34632, 34520, 34488, 34424, 34280, 34248, 34200,
  34184, 34152, 34104, 34088, 33992, 33960, 33800, 33624, 33528, 33512, 33480, 33432, 33384, 33368,
  33320, 33144, 33128, 33080, 32952, 32904, 32808, 32792, 36843, 36759, 36647, 36633, 36605, 36563,
  36465, 36437, 36423, 36297, 36129, 36059, 36017, 36003, 35933, 35919, 35849, 35835, 35765, 35723,
  35709, 35639, 35625, 35555, 35513, 35457, 35247, 35177, 35163, 35093, 35037, 34995, 34925, 34799,
  34757, 34673, 34589, 34575, 34449, 34407, 34379, 34337, 34295, 34169, 34155, 34085, 33987, 33945,
  33917, 33903, 33875, 33707, 33693, 33609, 33567, 33455, 33399, 33357, 33315, 33189, 33077, 33063,
  33035, 32993, 32979, 32937, 32895, 32825, 32783, 37390, 37318, 37210, 37198, 37162, 37138, 37030,
  36982, 36838]

/-- Table chunk 5 of fpM2r. -/
def fpM2rChunk5 : List Nat := [
  36814, 36802, 36778, 36742, 36730, 36658, 36634, 36550, 36370, 36310, 36274, 36202, 36118, 36082,
  36022, 35950, 35938, 35914, 35878, 35830, 35794, 35734, 35722, 35698, 35614, 35578, 35542, 35518,
  35482, 35470, 35410, 35398, 35302, 35230, 35182, 35074, 35050, 35014, 34942, 34930, 34894, 34858,
  34822, 34654, 34618, 34534, 34510, 34462, 34402, 34354, 34282, 34174, 34150, 34138, 34114, 33970,
  33898, 33862, 33850, 33754, 33718, 33682, 33598, 33538, 33454, 33430, 33250, 33214, 33178, 33142,
  33094, 33058, 33034, 33022, 32950, 32914, 32890, 32878, 32842, 38181, 38151, 38141, 38121, 38031,
  38021, 38001, 37941, 37931, 37901, 37881, 37751, 37721, 37691, 37671, 37631, 37581, 37421, 37341,
  37331, 37301, 37281, 37271, 37251, 37241, 37191, 37121, 37091, 37071, 37031, 36981, 36951, 36851,
  36831, 36821, 36791, 36641, 36621, 36581, 36531, 36501, 36471, 36431, 36401, 36341, 36321, 36291,
  36281, 36251]

/-- Table chunk 6 of fpM2r. -/
def fpM2rChunk6 : List Nat := [
  36231, 36201, 36191, 36141, 36131, 36051, 36021, 35921, 35901, 35841, 35771, 35631, 35601, 35501,
  35481, 35391, 35351, 35321, 35301, 35271, 35201, 35171, 35141, 35091, 35081, 35031, 34971, 34931,
  34881, 34871, 34821, 34781, 34721, 34671, 34551, 34541, 34521, 34481, 34451, 34431, 34391, 34301,
  34251, 34221, 34191, 34181, 34151, 34101, 34041, 34031, 33981, 33951, 33921, 33891, 33851, 33821,
  33771, 33741, 33731, 33701, 33671, 33641, 33591, 33551, 33431, 33401, 33291, 33281, 33191, 33171,
  33131, 33081, 32931, 32891, 32801, 32781, 32771, 39284, 39260, 39252, 39228, 39212, 39140, 39108,
  39060, 38988, 38924, 38900, 38892, 38844, 38820, 38780, 38772, 38732, 38724, 38700, 38660, 38604,
  38588, 38492, 38484, 38420, 38412, 38372, 38364, 38324, 38244, 38228, 38220, 38204, 38172, 38108,
  38084, 38060, 38052, 38004, 37940, 37908, 37892, 37868, 37748, 37740, 37700, 37692, 37668, 37652,
  37628, 37604]

/-- Table chunk 7 of fpM2r. -/
def fpM2rChunk7 : List Nat := [
  37572, 37548, 37532, 37484, 37460, 37428, 37380, 37364, 37308, 37260, 37220, 37124, 37100, 37052,
  37028, 37020, 36932, 36900, 36828, 36788, 36764, 36708, 36692, 36684, 36660, 36620, 36588, 36564,
  36548, 36524, 36404, 36348, 36308, 36300, 36252, 36212, 36204, 36140, 36132, 36060, 35964, 35892,
  35868, 35804, 35732, 35708, 35700, 35628, 35612, 35588, 35580, 35540, 35508, 35468, 35444, 35420,
  35388, 35372, 35348, 35340, 35300, 35292, 35244, 35228, 35204, 35180, 35172, 35124, 35108, 35052,
  34980, 34964, 34940, 34860, 34844, 34812, 34788, 34772, 34740, 34724, 34668, 34644, 34628, 34572,
  34524, 34508, 34500, 34380, 34364, 34268, 34244, 34220, 34172, 34124, 34068, 34044, 34028, 34020,
  34004, 33932, 33908, 33860, 33828, 33804, 33788, 33740, 33732, 33684, 33564, 33500, 33492, 33468,
  33380, 33324, 33300, 33260, 33212, 33188, 33180, 33164, 33132, 33092, 33068, 33044, 32948, 32892,
  32868, 32852]

/-- Table chunk 8 of fpM2r. -/
def fpM2rChunk8 : List Nat := [
  32820, 32772, 40909, 40879, 40873, 40843, 40837, 40825, 40807, 40747, 40729, 40717, 40675, 40663,
  40657, 40645, 40603, 40585, 40549, 40477, 40447, 40429, 40405, 40375, 40369, 40279, 40267, 40249,
  40243, 40207, 40195, 40153, 40135, 40033, 39997, 39973, 39955, 39925, 39919, 39907, 39847, 39817,
  39793, 39745, 39739, 39709, 39667, 39655, 39649, 39613, 39595, 39547, 39529, 39505, 39493, 39469,
  39457, 39439, 39415, 39397, 39379, 39343, 39325, 39313, 39295, 39277, 39253, 39199, 39187, 39127,
  39115, 39079, 39073, 39043, 39025, 39019, 38989, 38953, 38947, 38935, 38875, 38857, 38767, 38749,
  38737, 38713, 38683, 38647, 38629, 38623, 38539, 38533, 38515, 38503, 38497, 38449, 38413, 38407,
  38389, 38359, 38335, 38263, 38227, 38209, 38155, 38137, 38125, 38083, 38065, 38053, 38017, 37993,
  37975, 37939, 37927, 37909, 37873, 37855, 37819, 37813, 37765, 37705, 37693, 37687, 37657, 37603,
  37579, 37567]

/-- Table chunk 9 of fpM2r. -/
def fpM2rChunk9 : List Nat := [
  37525, 37513, 37507, 37489, 37423, 37405, 37363, 37345, 37327, 37297, 37279, 37273, 37243, 37237,
  37225, 37219, 37153, 37147, 37135, 37117, 37099, 37063, 37045, 37003, 36973, 36937, 36919, 36895,
  36883, 36775, 36733, 36697, 36679, 36667, 36649, 36643, 36607, 36589, 36553, 36505, 36499, 36469,
  36445, 36379, 36373, 36337, 36319, 36307, 36289, 36235, 36229, 36193, 36175, 36163, 36127, 36103,
  36085, 36049, 36037, 36019, 35983, 35965, 35959, 35923, 35887, 35875, 35833, 35815, 35767, 35749,
  35743, 35713, 35689, 35635, 35617, 35515, 35509, 35425, 35419, 35353, 35335, 35329, 35299, 35263,
  35257, 35239, 35227, 35203, 35137, 35119, 35113, 35083, 35059, 35047, 35029, 35005, 34993, 34957,
  34903, 34867, 34807, 34795, 34777, 34759, 34735, 34723, 34717, 34669, 34633, 34627, 34597, 34573,
  34543, 34537, 34525, 34507, 34465, 34429, 34363, 34339, 34255, 34249, 34237, 34177, 34165, 34159,
  34147, 34105]

/-- Table chunk 10 of fpM2r. -/
def fpM2rChunk10 : List Nat := [
  34075, 34039, 34033, 33997, 33949, 33943, 33859, 33835, 33769, 33745, 33733, 33715, 33697, 33655,
  33643, 33619, 33583, 33565, 33547, 33535, 33475, 33463, 33409, 33403, 33367, 33349, 33337, 33319,
  33277, 33223, 33193, 33169, 33139, 33043, 33025, 32995, 32977, 32959, 32953, 32935, 32887, 32869,
  32863, 32827, 32809, 43662, 43658, 43638, 43622, 43590, 43578, 43562, 43550, 43530, 43482, 43442,
  43422, 43418, 43398, 43394, 43370, 43362, 43350, 43310, 43302, 43298, 43274, 43238, 43218, 43214,
  43194, 43190, 43182, 43142, 43110, 43058, 43050, 43034, 43022, 43014, 42990, 42978, 42962, 42938,
  42914, 42902, 42894, 42878, 42834, 42830, 42798, 42770, 42750, 42738, 42714, 42690, 42662, 42650,
  42642, 42602, 42594, 42570, 42558, 42554, 42542, 42530, 42498, 42482, 42438, 42434, 42378, 42362,
  42350, 42342, 42302, 42294, 42270, 42222, 42182, 42174, 42158, 42138, 42134, 42102, 42098, 42074,
  42050, 41982]

/-- Table chunk 11 of fpM2r. -/
def fpM2rChunk11 : List Nat := [
  41978, 41970, 41958, 41934, 41922, 41910, 41894, 41882, 41874, 41870, 41858, 41810, 41802, 41762,
  41742, 41730, 41718, 41690, 41682, 41670, 41658, 41654, 41630, 41618, 41598, 41594, 41574, 41562,
  41522, 41514, 41462, 41454, 41450, 41438, 41394, 41390, 41342, 41334, 41322, 41318, 41310, 41298,
  41250, 41238, 41222, 41214, 41210, 41142, 41130, 41114, 41082, 41058, 41054, 41034, 41030, 41010,
  40998, 40982, 40974, 40958, 40934, 40890, 40878, 40850, 40842, 40790, 40782, 40778, 40754, 40734,
  40718, 40710, 40694, 40670, 40662, 40634, 40622, 40590, 40578, 40562, 40554, 40542, 40530, 40514,
  40502, 40482, 40458, 40454, 40442, 40430, 40398, 40382, 40370, 40358, 40334, 40314, 40310, 40298,
  40262, 40254, 40242, 40230, 40218, 40194, 40158, 40142, 40130, 40110, 40094, 40058, 40050, 40022,
  40010, 39974, 39954, 39938, 39918, 39894, 39890, 39878, 39854, 39830, 39758, 39750, 39738, 39722,
  39714, 39702]

/-- Table chunk 12 of fpM2r. -/
def fpM2rChunk12 : List Nat := [
  39698, 39690, 39654, 39630, 39618, 39602, 39590, 39578, 39570, 39534, 39530, 39522, 39518, 39470,
  39462, 39450, 39438, 39410, 39350, 39338, 39330, 39318, 39294, 39282, 39242, 39234, 39218, 39210,
  39194, 39182, 39170, 39162, 39102, 39098, 39078, 39054, 39038, 39018, 39002, 38954, 38942, 38918,
  38910, 38882, 38874, 38862, 38858, 38802, 38774, 38742, 38738, 38714, 38702, 38694, 38654, 38634,
  38622, 38610, 38598, 38582, 38562, 38538, 38510, 38490, 38462, 38430, 38402, 38382, 38354, 38342,
  38310, 38298, 38282, 38270, 38238, 38198, 38178, 38174, 38162, 38154, 38150, 38142, 38118, 38114,
  38094, 38090, 38078, 38034, 38022, 38018, 38010, 37974, 37958, 37938, 37922, 37878, 37874, 37854,
  37818, 37790, 37782, 37778, 37770, 37734, 37730, 37722, 37710, 37694, 37674, 37670, 37610, 37602,
  37542, 37538, 37518, 37514, 37478, 37470, 37434, 37422, 37394, 37374, 37370, 37362, 37322, 37250,
  37238, 37230]

/-- Table chunk 13 of fpM2r. -/
def fpM2rChunk13 : List Nat := [
  37218, 37190, 37182, 37142, 37122, 37094, 37050, 37038, 37034, 36974, 36950, 36930, 36894, 36890,
  36882, 36854, 36842, 36798, 36762, 36758, 36734, 36722, 36714, 36698, 36690, 36674, 36662, 36642,
  36638, 36614, 36578, 36558, 36530, 36498, 36470, 36462, 36450, 36438, 36434, 36422, 36414, 36410,
  36354, 36350, 36294, 36282, 36278, 36270, 36258, 36230, 36222, 36198, 36170, 36138, 36110, 36102,
  36090, 36074, 36062, 36054, 36042, 36030, 36018, 36002, 35994, 35978, 35970, 35942, 35910, 35894,
  35882, 35874, 35850, 35834, 35802, 35798, 35778, 35762, 35754, 35742, 35690, 35678, 35658, 35642,
  35634, 35622, 35598, 35570, 35510, 35502, 35474, 35430, 35414, 35390, 35382, 35370, 35354, 35334,
  35322, 35294, 35274, 35262, 35258, 35238, 35214, 35190, 35162, 35150, 35138, 35102, 35082, 35070,
  35054, 35018, 35010, 34998, 34994, 34982, 34962, 34958, 34938, 34922, 34910, 34898, 34878, 34874,
  34838, 34818]

/-- Table chunk 14 of fpM2r. -/
def fpM2rChunk14 : List Nat := [
  34814, 34790, 34782, 34770, 34754, 34734, 34710, 34682, 34658, 34650, 34634, 34614, 34602, 34590,
  34550, 34542, 34514, 34482, 34454, 34434, 34418, 34398, 34374, 34370, 34334, 34322, 34298, 34278,
  34254, 34250, 34242, 34238, 34214, 34202, 34194, 34178, 34170, 34082, 34074, 34070, 34062, 34058,
  34038, 34014, 34002, 33990, 33962, 33954, 33942, 33930, 33918, 33902, 33890, 33818, 33782, 33774,
  33762, 33758, 33734, 33722, 33710, 33698, 33690, 33662, 33618, 33594, 33590, 33554, 33534, 33522,
  33470, 33422, 33414, 33410, 33402, 33398, 33390, 33362, 33354, 33342, 33330, 33314, 33282, 33258,
  33254, 33170, 33162, 33158, 33150, 33102, 33090, 33078, 33074, 33038, 33030, 33002, 32990, 32934,
  32898, 32870, 32858, 32838, 32814, 32810, 32798, 32774, 49125, 49119, 49115, 49109, 49103, 49089,
  49085, 49083, 49059, 49055, 49049, 49043, 49017, 49007, 48989, 48983, 48975, 48969, 48963, 48933,
  48929, 48917]

/-- Table chunk 15 of fpM2r. -/
def fpM2rChunk15 : List Nat := [
  48905, 48903, 48887, 48885, 48879, 48875, 48863, 48845, 48843, 48837, 48833, 48807, 48795, 48789,
  48777, 48773, 48749, 48725, 48713, 48707, 48705, 48693, 48665, 48657, 48653, 48647, 48635, 48633,
  48615, 48609, 48605, 48599, 48593, 48573, 48557, 48555, 48549, 48543, 48525, 48515, 48509, 48507,
  48503, 48495, 48489, 48483, 48459, 48443, 48437, 48429, 48419, 48413, 48399, 48377, 48369, 48353,
  48347, 48345, 48333, 48329, 48327, 48305, 48297, 48279, 48245, 48243, 48237, 48219, 48215, 48209,
  48203, 48195, 48185, 48177, 48159, 48153, 48149, 48147, 48143, 48135, 48119, 48117, 48105, 48093,
  48087, 48069, 48065, 48059, 48053, 48047, 48045, 48039, 48027, 48017, 47997, 47985, 47967, 47963,
  47957, 47955, 47939, 47937, 47927, 47913, 47909, 47879, 47877, 47867, 47855, 47853, 47829, 47823,
  47807, 47799, 47789, 47787, 47775, 47753, 47747, 47745, 47729, 47709, 47699, 47697, 47685, 47673,
  47655, 47645]

/-- Table chunk 16 of fpM2r. -/
def fpM2rChunk16 : List Nat := [
  47633, 47627, 47625, 47615, 47613, 47607, 47597, 47579, 47577, 47565, 47559, 47555, 47549, 47547,
  47523, 47495, 47493, 47489, 47487, 47477, 47475, 47459, 47447, 47439, 47417, 47415, 47409, 47405,
  47403, 47393, 47387, 47367, 47355, 47345, 47337, 47325, 47319, 47313, 47307, 47303, 47285, 47283,
  47279, 47267, 47249, 47247, 47235, 47229, 47225, 47223, 47207, 47195, 47183, 47169, 47165, 47157,
  47139, 47135, 47123, 47109, 47103, 47097, 47093, 47085, 47079, 47075, 47055, 47043, 47033, 47019,
  47015, 47013, 46997, 46995, 46983, 46953, 46949, 46943, 46919, 46899, 46875, 46865, 46857, 46845,
  46835, 46823, 46817, 46805, 46793, 46787, 46779, 46763, 46749, 46743, 46739, 46733, 46697, 46677,
  46667, 46637, 46625, 46623, 46619, 46617, 46589, 46577, 46563, 46557, 46535, 46527, 46523, 46505,
  46499, 46485, 46467, 46463, 46457, 46455, 46449, 46415, 46397, 46395, 46379, 46373, 46355, 46353,
  46329, 46325]

/-- Table chunk 17 of fpM2r. -/
def fpM2rChunk17 : List Nat := [
  46323, 46317, 46305, 46299, 46287, 46277, 46269, 46263, 46247, 46235, 46227, 46217, 46203, 46163,
  46157, 46155, 46149, 46145, 46133, 46119, 46115, 46113, 46109, 46107, 46103, 46095, 46089, 46079,
  46073, 46067, 46065, 46059, 46053, 46047, 46035, 46029, 46005, 45995, 45993, 45983, 45977, 45965,
  45959, 45953, 45939, 45933, 45927, 45875, 45855, 45849, 45839, 45837, 45827, 45819, 45809, 45797,
  45785, 45783, 45777, 45773, 45759, 45743, 45735, 45723, 45717, 45695, 45693, 45683, 45675, 45669,
  45647, 45645, 45623, 45617, 45609, 45599, 45587, 45575, 45573, 45563, 45557, 45545, 45543, 45539,
  45525, 45515, 45513, 45507, 45489, 45485, 45473, 45465, 45447, 45435, 45429, 45423, 45419, 45413,
  45407, 45393, 45389, 45387, 45375, 45363, 45359, 45353, 45335, 45317, 45305, 45303, 45287, 45275,
  45267, 45249, 45239, 45213, 45209, 45203, 45195, 45189, 45183, 45179, 45177, 45167, 45147, 45143,
  45137, 45129]

/-- Table chunk 18 of fpM2r. -/
def fpM2rChunk18 : List Nat := [
  45125, 45105, 45095, 45093, 45059, 45057, 45053, 45029, 45027, 45015, 45003, 44993, 44987, 44985,
  44973, 44943, 44937, 44925, 44909, 44897, 44895, 44873, 44855, 44843, 44829, 44819, 44817, 44805,
  44793, 44789, 44787, 44783, 44777, 44765, 44763, 44747, 44729, 44727, 44687, 44679, 44663, 44657,
  44649, 44639, 44637, 44633, 44615, 44607, 44597, 44589, 44577, 44573, 44555, 44553, 44535, 44525,
  44523, 44519, 44517, 44513, 44505, 44477, 44475, 44469, 44447, 44435, 44429, 44415, 44397, 44393,
  44387, 44379, 44373, 44367, 44357, 44349, 44345, 44343, 44325, 44315, 44309, 44289, 44267, 44259,
  44253, 44223, 44219, 44217, 44213, 44195, 44189, 44159, 44157, 44153, 44145, 44139, 44135, 44129,
  44117, 44103, 44069, 44055, 44049, 44045, 44043, 44037, 44033, 44019, 44015, 44013, 44007, 43979,
  43977, 43973, 43967, 43959, 43949, 43947, 43937, 43935, 43925, 43923, 43919, 43889, 43887, 43875,
  43863, 43853]

/-- Table chunk 19 of fpM2r. -/
def fpM2rChunk19 : List Nat := [
  43835, 43823, 43809, 43799, 43797, 43785, 43779, 43769, 43763, 43749, 43737, 43733, 43719, 43715,
  43697, 43695, 43685, 43677, 43673, 43665, 43655, 43643, 43625, 43607, 43599, 43593, 43575, 43559,
  43545, 43539, 43533, 43523, 43509, 43505, 43499, 43497, 43485, 43473, 43469, 43463, 43457, 43445,
  43443, 43427, 43425, 43413, 43407, 43403, 43389, 43383, 43379, 43377, 43365, 43347, 43343, 43307,
  43289, 43277, 43265, 43263, 43259, 43257, 43253, 43245, 43233, 43229, 43193, 43187, 43169, 43167,
  43155, 43145, 43139, 43127, 43103, 43095, 43089, 43083, 43067, 43055, 43053, 43035, 43025, 43005,
  42995, 42993, 42987, 42969, 42965, 42963, 42923, 42917, 42915, 42899, 42897, 42893, 42885, 42867,
  42857, 42845, 42839, 42837, 42827, 42819, 42815, 42809, 42797, 42795, 42785, 42767, 42759, 42753,
  42749, 42729, 42725, 42719, 42683, 42677, 42675, 42665, 42659, 42635, 42629, 42615, 42599, 42593,
  42575, 42573]

/-- Table chunk 20 of fpM2r. -/
def fpM2rChunk20 : List Nat := [
  42563, 42543, 42533, 42525, 42519, 42515, 42509, 42507, 42497, 42495, 42483, 42479, 42477, 42473,
  42465, 42455, 42449, 42437, 42419, 42405, 42393, 42377, 42369, 42363, 42347, 42339, 42335, 42333,
  42327, 42309, 42285, 42267, 42257, 42245, 42243, 42239, 42225, 42215, 42209, 42203, 42197, 42179,
  42167, 42165, 42137, 42119, 42105, 42089, 42077, 42063, 42039, 42027, 42005, 41999, 41997, 41987,
  41979, 41975, 41973, 41969, 41955, 41943, 41937, 41933, 41927, 41913, 41909, 41907, 41903, 41873,
  41867, 41865, 41859, 41849, 41847, 41817, 41795, 41793, 41789, 41783, 41775, 41769, 41763, 41747,
  41735, 41723, 41717, 41709, 41705, 41703, 41679, 41667, 41663, 41657, 41649, 41643, 41637, 41627,
  41625, 41619, 41607, 41579, 41565, 41559, 41555, 41543, 41535, 41529, 41517, 41513, 41507, 41493,
  41487, 41475, 41465, 41459, 41453, 41445, 41439, 41433, 41429, 41427, 41423, 41415, 41403, 41399,
  41385, 41367]

/-- Table chunk 21 of fpM2r. -/
def fpM2rChunk21 : List Nat := [
  41357, 41355, 41339, 41333, 41313, 41307, 41297, 41289, 41285, 41255, 41219, 41207, 41199, 41177,
  41165, 41163, 41157, 41145, 41129, 41123, 41117, 41115, 41097, 41093, 41067, 41063, 41055, 41037,
  41027, 41019, 41009, 41003, 40989, 40985, 40965, 40943, 40925, 40913, 40905, 40877, 40865, 40859,
  40853, 40845, 40839, 40827, 40803, 40787, 40773, 40769, 40755, 40743, 40737, 40727, 40715, 40695,
  40689, 40685, 40677, 40659, 40647, 40629, 40619, 40617, 40613, 40593, 40583, 40569, 40565, 40559,
  40557, 40547, 40523, 40505, 40503, 40499, 40479, 40463, 40449, 40439, 40425, 40419, 40415, 40409,
  40389, 40383, 40373, 40367, 40365, 40353, 40347, 40317, 40307, 40299, 40293, 40289, 40283, 40275,
  40235, 40233, 40229, 40227, 40215, 40197, 40193, 40187, 40179, 40169, 40163, 40145, 40127, 40125,
  40113, 40097, 40089, 40083, 40079, 40073, 40067, 40065, 40013, 39999, 39995, 39975, 39959, 39957,
  39953, 39947]

/-- Table chunk 22 of fpM2r. -/
def fpM2rChunk22 : List Nat := [
  39935, 39933, 39927, 39915, 39903, 39897, 39893, 39879, 39869, 39863, 39857, 39843, 39833, 39819,
  39803, 39795, 39789, 39777, 39773, 39765, 39743, 39737, 39735, 39717, 39695, 39689, 39687, 39669,
  39663, 39647, 39633, 39623, 39617, 39605, 39603, 39597, 39593, 39585, 39567, 39555, 39539, 39537,
  39533, 39519, 39515, 39507, 39495, 39483, 39453, 39437, 39429, 39425, 39423, 39417, 39395, 39383,
  39375, 39365, 39359, 39353, 39347, 39333, 39327, 39309, 39299, 39287, 39285, 39275, 39273, 39269,
  39243, 39239, 39227, 39219, 39215, 39197, 39189, 39179, 39165, 39149, 39143, 39137, 39129, 39119,
  39113, 39105, 39099, 39087, 39077, 39057, 39047, 39039, 39035, 39023, 38997, 38979, 38975, 38963,
  38945, 38939, 38909, 38903, 38895, 38889, 38867, 38855, 38853, 38849, 38843, 38837, 38835, 38825,
  38823, 38819, 38813, 38807, 38805, 38799, 38777, 38759, 38753, 38735, 38723, 38715, 38703, 38697,
  38687, 38675]

/-- Table chunk 23 of fpM2r. -/
def fpM2rChunk23 : List Nat := [
  38673, 38657, 38655, 38645, 38643, 38633, 38615, 38609, 38589, 38585, 38583, 38577, 38555, 38549,
  38543, 38525, 38519, 38505, 38493, 38477, 38475, 38469, 38463, 38459, 38445, 38433, 38429, 38427,
  38409, 38393, 38357, 38345, 38339, 38325, 38297, 38295, 38283, 38277, 38265, 38259, 38255, 38253,
  38237, 38207, 38199, 38175, 38169, 38139, 38129, 38127, 38109, 38105, 38099, 38087, 38079, 38057,
  38055, 38049, 38027, 38009, 38007, 37997, 37995, 37985, 37955, 37953, 37925, 37919, 37905, 37889,
  37883, 37863, 37847, 37845, 37839, 37835, 37803, 37799, 37797, 37793, 37787, 37785, 37773, 37769,
  37763, 37757, 37745, 37743, 37737, 37733, 37727, 37719, 37713, 37709, 37689, 37685, 37653, 37643,
  37635, 37619, 37617, 37595, 37593, 37589, 37583, 37575, 37569, 37553, 37539, 37535, 37517, 37509,
  37505, 37485, 37479, 37467, 37455, 37449, 37439, 37437, 37427, 37425, 37413, 37385, 37373, 37355,
  37353, 37335]

/-- Table chunk 24 of fpM2r. -/
def fpM2rChunk24 : List Nat := [
  37325, 37317, 37307, 37259, 37257, 37253, 37247, 37239, 37229, 37227, 37217, 37187, 37185, 37149,
  37143, 37133, 37127, 37125, 37107, 37103, 37097, 37089, 37073, 37059, 37043, 37037, 37023, 37019,
  36999, 36995, 36989, 36987, 36977, 36965, 36963, 36957, 36945, 36939, 36933, 36929, 36917, 36915,
  36909, 36905, 36893, 36887, 36879, 36875, 36873, 36867, 36849, 36839, 36833, 36825, 36813, 36807,
  36785, 36783, 36777, 36765, 36747, 36743, 36729, 36723, 36719, 36699, 36693, 36677, 36669, 36665,
  36657, 36635, 36627, 36615, 36609, 36603, 36587, 36575, 36557, 36527, 36519, 36515, 36513, 36509,
  36503, 36477, 36473, 36459, 36435, 36413, 36407, 36405, 36399, 36389, 36383, 36369, 36363, 36357,
  36345, 36335, 36329, 36327, 36315, 36305, 36293, 36285, 36267, 36249, 36239, 36233, 36225, 36209,
  36203, 36197, 36189, 36173, 36153, 36149, 36147, 36137, 36135, 36125, 36113, 36107, 36099, 36093,
  36083, 36063]

/-- Table chunk 25 of fpM2r. -/
def fpM2rChunk25 : List Nat := [
  36053, 36035, 36009, 36005, 35999, 35969, 35967, 35963, 35955, 35949, 35937, 35925, 35907, 35903,
  35895, 35873, 35867, 35865, 35853, 35819, 35813, 35795, 35783, 35777, 35775, 35747, 35733, 35717,
  35703, 35699, 35685, 35673, 35669, 35663, 35657, 35655, 35619, 35615, 35609, 35589, 35577, 35553,
  35547, 35525, 35523, 35507, 35489, 35477, 35465, 35447, 35445, 35439, 35433, 35427, 35423, 35417,
  35403, 35399, 35397, 35375, 35367, 35355, 35349, 35339, 35333, 35325, 35313, 35295, 35283, 35277,
  35267, 35265, 35243, 35229, 35223, 35217, 35213, 35195, 35189, 35169, 35147, 35145, 35133, 35109,
  35105, 35087, 35069, 35067, 35045, 35043, 35039, 35027, 35019, 35007, 34997, 34983, 34979, 34977,
  34959, 34943, 34905, 34899, 34893, 34887, 34875, 34865, 34859, 34847, 34839, 34833, 34829, 34823,
  34809, 34779, 34773, 34763, 34755, 34733, 34727, 34719, 34707, 34697, 34695, 34685, 34683, 34677,
  34667, 34665]

/-- Table chunk 26 of fpM2r. -/
def fpM2rChunk26 : List Nat := [
  34655, 34643, 34625, 34605, 34599, 34595, 34587, 34565, 34559, 34553, 34523, 34517, 34503, 34497,
  34485, 34473, 34467, 34457, 34455, 34445, 34415, 34413, 34397, 34389, 34385, 34383, 34377, 34359,
  34355, 34353, 34347, 34343, 34317, 34313, 34305, 34299, 34289, 34287, 34283, 34277, 34269, 34265,
  34259, 34229, 34217, 34215, 34209, 34203, 34199, 34179, 34157, 34149, 34145, 34143, 34139, 34067,
  34059, 34055, 34047, 34025, 34023, 34019, 34005, 33995, 33993, 33989, 33969, 33963, 33953, 33935,
  33929, 33909, 33893, 33887, 33879, 33873, 33869, 33849, 33837, 33815, 33813, 33809, 33807, 33795,
  33785, 33767, 33765, 33743, 33737, 33719, 33689, 33687, 33677, 33663, 33653, 33645, 33629, 33579,
  33573, 33563, 33555, 33545, 33533, 33527, 33509, 33507, 33485, 33479, 33477, 33473, 33467, 33459,
  33453, 33447, 33437, 33419, 33417, 33395, 33393, 33377, 33363, 33353, 33347, 33345, 33333, 33323,
  33303, 33299]

/-- Modelled from the spec: firstprimes_mod2range_simd[i], the stored
fold-back lanes (see mod2range16 for the discussion of the two
conflicting formulas in the spec).  Stored as literals; checked against
mod2range16 by firstprimes_mod2range_eq_map below. -/
def firstprimes_mod2range_simd : List Nat :=
  fpM2rChunk0 ++ (fpM2rChunk1 ++ (fpM2rChunk2 ++ (fpM2rChunk3 ++ (fpM2rChunk4 ++ (fpM2rChunk5 ++ (fpM2rChunk6 ++ (fpM2rChunk7 ++ (fpM2rChunk8 ++ (fpM2rChunk9 ++ (fpM2rChunk10 ++ (fpM2rChunk11 ++ (fpM2rChunk12 ++ (fpM2rChunk13 ++ (fpM2rChunk14 ++ (fpM2rChunk15 ++ (fpM2rChunk16 ++ (fpM2rChunk17 ++ (fpM2rChunk18 ++ (fpM2rChunk19 ++ (fpM2rChunk20 ++ (fpM2rChunk21 ++ (fpM2rChunk22 ++ (fpM2rChunk23 ++ (fpM2rChunk24 ++ (fpM2rChunk25 ++ (fpM2rChunk26))))))))))))))))))))))))))

end Simddivide

namespace Simddivide

/-- Source simd_mul16x16: res[i] = v[i] * coeff[i], 16-bit wrapping
(the C source unrolls lanes; the model maps over the lane list). -/
def simd_mul16 (v coeff : List Nat) : List Nat :=
  List.zipWith (fun a b => (a * b) % 65536) v coeff

/-- Source simd_shladd16x16: r[i] = (v[i] shifted left by 1) + add[i], wrapping. -/
def simd_shladd16 (v add : List Nat) : List Nat :=
  List.zipWith (fun a b => (2 * a + b) % 65536) v add

/-- Source simd_min16x16: r[i] = min(a[i], b[i]). -/
def simd_min16 (a b : List Nat) : List Nat :=
  List.zipWith min a b

/-- Source simd_or16x16: r[i] = a[i] bitwise-or b[i]. -/
def simd_or16 (a b : List Nat) : List Nat :=
  List.zipWith (fun x y => x ||| y) a b

/-- Source simd_lemask16x16_inpl: replace lanes with all-ones where
r[i] is at most limit[i], zero otherwise. -/
def simd_lemask16 (r limit : List Nat) : List Nat :=
  List.zipWith le16mask r limit

/-- Source simd_advance16x16_inpl: v[i] += add, 16-bit wrapping. -/
def simd_advance16 (v : List Nat) (add : Nat) : List Nat :=
  v.map (fun a => (a + add) % 65536)

/-- Source simd_m2range16x16: fold every lane back with its m2r entry. -/
def simd_m2range16 (v m2r : List Nat) : List Nat :=
  List.zipWith m2range_1unit v m2r

/-- Source simd_is_all0 / simd_is_all0x64x16_inpl: is the whole lane block
zero?  The source ORs the four 16-lane groups pairwise and compares with a
known all-zero vector; the or-tree is associative-commutative, so the model
checks all lanes directly. -/
def simd_is_all0 (v : List Nat) : Bool :=
  v.all (fun a => a == 0)

/-- Source simd_advance64x16_m2r_inpl: v[i] += adv, then fold back with
m2r, per lane (single pass; simd_advance64x16_m2r_eq_primitives proves
it equal to the advance-then-fold primitive composition). -/
def simd_advance64x16_m2r (v : List Nat) (adv : Nat) (m2r : List Nat) : List Nat :=
  List.zipWith (fun a m => m2range_1unit ((a + adv) % 65536) m) v m2r

/-- Three-list pointwise zip, used to state the per-lane form of the
block testers in one pass. -/
def zipWith3 (f : Nat → Nat → Nat → Nat) : List Nat → List Nat → List Nat → List Nat
  | a :: as, b :: bs, c :: cs => f a b c :: zipWith3 f as bs cs
  | _, _, _ => []

/-- The per-lane value of the plain tester: le16mask of r * inv mod 2^16
against the limit lane. -/
def nofactor_lane (r inv limit : Nat) : Nat :=
  le16mask ((r * inv) % 65536) limit

/-- The per-lane value of simd_spcmp16x16: with u = r * inv mod 2^16,
le16mask of min(u, 2u + inv mod 2^16) against the limit lane (checks p
divides x or p divides 2x + 1). -/
def sp_lane (r inv limit : Nat) : Nat :=
  le16mask (min ((r * inv) % 65536) ((2 * ((r * inv) % 65536) + inv) % 65536)) limit

/-- The per-lane value of simd_cmp16x16_twin: with u = r * inv mod 2^16,
le16mask of min(2 * inv + u mod 2^16, u) against the limit lane (checks
p divides x or p divides x + 2; the shladd arguments are (inv, u)). -/
def twin_lane (r inv limit : Nat) : Nat :=
  le16mask (min ((2 * inv + (r * inv) % 65536) % 65536) ((r * inv) % 65536)) limit

/-- Source simd_nofactor64x16: masks of n * (1/prime) mod 2^16 being at
most limit; all-zero means no prime of the block divides the candidate.
Defined as a single pass; simd_nofactor64x16_eq_primitives below proves
it equal to the source's composition of lane primitives. -/
def simd_nofactor64x16 (modn inv limit : List Nat) : Bool :=
  simd_is_all0 (zipWith3 nofactor_lane modn inv limit)

/-- Source simd_spcmp16x16 (safe-prime comparison): with v = x * (1/p),
mask lanes where p divides x or p divides 2x + 1, via min(v, 2v + inv). -/
def simd_spcmp16x16 (v inv limit : List Nat) : List Nat :=
  simd_lemask16 (simd_min16 v (simd_shladd16 v inv)) limit

/-- Source simd_no_spfactor64x16: no safe-prime factor in this block
(single pass; simd_no_spfactor64x16_eq_primitives proves it equal to the
source's mul followed by simd_spcmp16x16). -/
def simd_no_spfactor64x16 (modn inv limit : List Nat) : Bool :=
  simd_is_all0 (zipWith3 sp_lane modn inv limit)

/-- Source simd_cmp16x16_twin: with u = n * (1/p), mask lanes where p
divides n or p divides n + 2, via min(2*inv + u, u); note the shladd
arguments are (inv, u), so the second compared value is u + 2 * inv. -/
def simd_cmp16x16_twin (u inv limit : List Nat) : List Nat :=
  simd_lemask16 (simd_min16 (simd_shladd16 inv u) u) limit

/-- Source simd_no_twinfactor64x16: no twin factor in this block (single
pass; simd_no_twinfactor64x16_eq_primitives proves it equal to the
source's mul followed by simd_cmp16x16_twin). -/
def simd_no_twinfactor64x16 (modn inv limit : List Nat) : Bool :=
  simd_is_all0 (zipWith3 twin_lane modn inv limit)

/-- Lanes [lo, lo + n) of a lane vector.  The source splits a lane
range into unrolled calls on 64-lane blocks; the conjunction of those
per-block tests equals one test over the whole range (the mask lanes
simply concatenate), so the model tests ranges directly. -/
def laneRange (v : List Nat) (lo n : Nat) : List Nat :=
  (v.drop lo).take n

/-- Plain no-factor test over table lanes [lo, lo + n); models the
source's unrolled chain of simd_nofactor64x16 calls on that range. -/
def nofactor_range (modn : List Nat) (lo n : Nat) : Bool :=
  simd_nofactor64x16 (laneRange modn lo n)
    (laneRange firstprimes_inverse_simd lo n) (laneRange firstprimes_mullimit_simd lo n)

/-- Safe-prime no-factor test over table lanes [lo, lo + n). -/
def spfactor_range (modn : List Nat) (lo n : Nat) : Bool :=
  simd_no_spfactor64x16 (laneRange modn lo n)
    (laneRange firstprimes_inverse_simd lo n) (laneRange firstprimes_mullimit_simd lo n)

/-- Twin no-factor test over table lanes [lo, lo + n). -/
def twinfactor_range (modn : List Nat) (lo n : Nat) : Bool :=
  simd_no_twinfactor64x16 (laneRange modn lo n)
    (laneRange firstprimes_inverse_simd lo n) (laneRange firstprimes_mullimit_simd lo n)

/-- Source simd_nofactor_first: block 0 (the first 64 primes). -/
def simd_nofactor_first (modn : List Nat) : Bool :=
  nofactor_range modn 0 64

/-- Source simd_nofactor_rest_s: blocks 1 to 8 (lanes 64 to 575). -/
def simd_nofactor_rest_s (modn : List Nat) : Bool :=
  nofactor_range modn 64 512

/-- Source simd_nofactor_rest_l: blocks 29 to 53 (lanes 1856 to 3455)
only.  Unlike the twin and safe-prime rest chains, the plain rest_l of
the source does not chain rest_s or the mid blocks, so lanes 64 to 1855
are not part of the plain large-table check. -/
def simd_nofactor_rest_l (modn : List Nat) : Bool :=
  nofactor_range modn 1856 1600

/-- Source simd_has_no_factor: plain test of the first 576 primes. -/
def simd_has_no_factor (modn : List Nat) : Bool :=
  simd_nofactor_first modn && simd_nofactor_rest_s modn

/-- Source simd_has_no_factor_l: plain large-table test; per the source
this is the first block plus the rest_l chain only (blocks 0, 29-53). -/
def simd_has_no_factor_l (modn : List Nat) : Bool :=
  simd_nofactor_first modn && simd_nofactor_rest_l modn

/-- Source simd_no_spfactor_rest1: safe-prime blocks 1 to 8. -/
def simd_no_spfactor_rest1 (modn : List Nat) : Bool :=
  spfactor_range modn 64 512

/-- Source simd_no_spfactor_rest_m: rest1 plus blocks 9 to 28. -/
def simd_no_spfactor_rest_m (modn : List Nat) : Bool :=
  simd_no_spfactor_rest1 modn && spfactor_range modn 576 1280

/-- Source simd_no_spfactor_rest_l: rest_m plus blocks 29 to 53. -/
def simd_no_spfactor_rest_l (modn : List Nat) : Bool :=
  simd_no_spfactor_rest_m modn && spfactor_range modn 1856 1600

/-- Source simd_no_twinfactor_rest: twin blocks 1 to 8. -/
def simd_no_twinfactor_rest (modn : List Nat) : Bool :=
  twinfactor_range modn 64 512

/-- Source simd_no_twinfactor_rest_m: rest plus blocks 9 to 28. -/
def simd_no_twinfactor_rest_m (modn : List Nat) : Bool :=
  simd_no_twinfactor_rest modn && twinfactor_range modn 576 1280

/-- Source simd_no_twinfactor_rest_l: rest_m plus blocks 29 to 53. -/
def simd_no_twinfactor_rest_l (modn : List Nat) : Bool :=
  simd_no_twinfactor_rest_m modn && twinfactor_range modn 1856 1600

end Simddivide

namespace Simddivide

/-- Source PrimeType_t. -/
def SIMD_PRIMETYPE_TWIN : Nat := 1
/-- Source PrimeType_t. -/
def SIMD_PRIMETYPE_SAFE : Nat := 2
/-- Source PrimeType_t. -/
def SIMD_PRIMETYPE_FIPS186 : Nat := 4
/-- Source PrimeType_t. -/
def SIMD_PRIMETYPE_PLAIN : Nat := 8
/-- Source PrimeType_t. -/
def SIMD_PRIMETYPE_MASK : Nat := 0xff

/-- Source SearchType_t. -/
def SIMD_SEARCHTABLE_S : Nat := 0x100
/-- Source SearchType_t. -/
def SIMD_SEARCHTABLE_M : Nat := 0x200
/-- Source SearchType_t. -/
def SIMD_SEARCHTABLE_L : Nat := 0x300
/-- Source SearchType_t. -/
def SIMD_SEARCHTABLE_MASK : Nat := 0xff00

/-- Source struct PP_Mod16bit, restricted to the fields the plain, twin
and safe searches use (incr, lsbi, mod6incr, iused and the qstr
diagnostics belong to the gated-off FIPS 186 path and printing only).
modn holds the 16-bit remainder lanes, lsb and offset are 64-bit
wrapping counters, mod6 the candidate mod 6, mode the search-mode word. -/
structure PPMod16bit where
  modn : List Nat
  lsb : Nat
  offset : Nat
  mod6 : Nat
  mode : Nat
  deriving Repr, DecidableEq

/-- Source state_advance_nr: administer offset, lsb (both 64-bit
wrapping) and mod6 when the candidate advanced by adv; lanes are assumed
already advanced. -/
def state_advance_nr (ps : PPMod16bit) (adv : Nat) : PPMod16bit :=
  { ps with
    offset := (ps.offset + adv) % (2 ^ 64)
    lsb := (ps.lsb + adv) % (2 ^ 64)
    mod6 := (ps.mod6 + adv % 6) % 6 }

/-- Advance-and-fold lanes [lo, lo + n) of a lane vector against the
matching mod2range table slice; the building block of the unrolled
simd_advance_remainders functions. -/
def advance_lanes (v : List Nat) (lo n adv : Nat) : List Nat :=
  v.take lo
    ++ simd_advance64x16_m2r ((v.drop lo).take n) adv
         ((firstprimes_mod2range_simd.drop lo).take n)
    ++ v.drop (lo + n)

/-- Source simd_advance_remainders_first: lanes 0 to 63. -/
def simd_advance_remainders_first (v : List Nat) (adv : Nat) : List Nat :=
  advance_lanes v 0 64 adv

/-- Source simd_advance_remainders_rest: lanes 64 to 575. -/
def simd_advance_remainders_rest (v : List Nat) (adv : Nat) : List Nat :=
  advance_lanes v 64 512 adv

/-- Source simd_advance_remainders_rest_m: lanes 64 to 1855. -/
def simd_advance_remainders_rest_m (v : List Nat) (adv : Nat) : List Nat :=
  advance_lanes v 64 1792 adv

/-- Source simd_advance_remainders_rest_l: lanes 64 to 3455. -/
def simd_advance_remainders_rest_l (v : List Nat) (adv : Nat) : List Nat :=
  advance_lanes v 64 3392 adv

/-- Source simd_advance_all_s: counters plus lanes 0 to 575. -/
def simd_advance_all_s (ps : PPMod16bit) (adv : Nat) : PPMod16bit :=
  let ps := state_advance_nr ps adv
  { ps with modn := simd_advance_remainders_rest (simd_advance_remainders_first ps.modn adv) adv }

/-- Source simd_advance_all_m: counters plus lanes 0 to 1855. -/
def simd_advance_all_m (ps : PPMod16bit) (adv : Nat) : PPMod16bit :=
  let ps := state_advance_nr ps adv
  { ps with modn := simd_advance_remainders_rest_m (simd_advance_remainders_first ps.modn adv) adv }

/-- Source simd_advance_all_l: counters plus lanes 0 to 3455. -/
def simd_advance_all_l (ps : PPMod16bit) (adv : Nat) : PPMod16bit :=
  let ps := state_advance_nr ps adv
  { ps with modn := simd_advance_remainders_rest_l (simd_advance_remainders_first ps.modn adv) adv }

/-- Source simd_advance_all: autoselect size from ps->mode; an
unrecognized table size leaves the state untouched (default: break). -/
def simd_advance_all (ps : PPMod16bit) (adv : Nat) : PPMod16bit :=
  if ps.mode &&& SIMD_SEARCHTABLE_MASK = SIMD_SEARCHTABLE_S then simd_advance_all_s ps adv
  else if ps.mode &&& SIMD_SEARCHTABLE_MASK = SIMD_SEARCHTABLE_M then simd_advance_all_m ps adv
  else if ps.mode &&& SIMD_SEARCHTABLE_MASK = SIMD_SEARCHTABLE_L then simd_advance_all_l ps adv
  else ps

/-- Source prime_mod6_advance: how much to advance from a 6k+mod6
position to the next possible prime position. -/
def prime_mod6_advance (mod6 : Nat) : Nat :=
  if mod6 = 3 then 2
  else if mod6 = 4 ∨ mod6 = 0 then 1
  else if mod6 = 2 then 3
  else 0

/-- Source scan_pkcs1_init: advance a copy of the state to the first
6k+1 or 6k+5 position (scan_inherit_or0 is the dst := src copy, which
the value-level model performs implicitly). -/
def scan_pkcs1_init (ps : PPMod16bit) : PPMod16bit :=
  simd_advance_all ps (prime_mod6_advance ps.mod6)

/-- Source scan_twin_or_safeprime: advance to a 6k+5 position; the C
computes (11 - mod6) % 6 in unsigned int arithmetic. -/
def scan_twin_or_safeprime (ps : PPMod16bit) : PPMod16bit :=
  simd_advance_all ps (((11 + 2 ^ 32 - ps.mod6 % 2 ^ 32) % 2 ^ 32) % 6)

/-- Source report_current_lsb: register current into the output buffer at
index wr when a buffer is present and wr is below its size, and always
return the incremented index.  The model returns the updated index and
the updated list of values written to memory. -/
def report_current_lsb (hasBuf : Bool) (elems : Nat) (current wr : Nat)
    (outs : List Nat) : Nat × List Nat :=
  (wr + 1, if hasBuf ∧ wr < elems then outs ++ [current] else outs)

/-- Source init_search: reject missing state or zero count (returning
count 0), coerce a missing output buffer to count 1, then advance the
state copy to the start position of the requested prime type.  TWIN and
SAFE use scan_twin_or_safeprime; everything else falls to the plain
scan_pkcs1_init. -/
def init_search (hasBuf : Bool) (count : Nat) (src : Option PPMod16bit)
    (primetype : Nat) : Nat × Option PPMod16bit :=
  match src with
  | none => (0, none)
  | some s =>
    if count = 0 then (0, none)
    else
      let c := if hasBuf then count else 1
      if primetype = SIMD_PRIMETYPE_TWIN ∨ primetype = SIMD_PRIMETYPE_SAFE then
        (c, some (scan_twin_or_safeprime s))
      else
        (c, some (scan_pkcs1_init s))

end Simddivide

namespace Simddivide

/-- Source simd_check_plain1: if no factor among the first 576 primes,
register the current lsb; returns the updated write index and writes. -/
def simd_check_plain1 (hasBuf : Bool) (count : Nat) (st : PPMod16bit)
    (wr : Nat) (outs : List Nat) : Nat × List Nat :=
  if simd_has_no_factor st.modn then report_current_lsb hasBuf count st.lsb wr outs
  else (wr, outs)

/-- Source simd_check_plain1_l: the large-table variant (which per the
source tests blocks 0 and 29 to 53 only). -/
def simd_check_plain1_l (hasBuf : Bool) (count : Nat) (st : PPMod16bit)
    (wr : Nat) (outs : List Nat) : Nat × List Nat :=
  if simd_has_no_factor_l st.modn then report_current_lsb hasBuf count st.lsb wr outs
  else (wr, outs)

/-- Source plain_advance_to_6kp1: when the state sits at 6k+5, check and
possibly register it, advance by 2 to 6(k+1)+1, and remember the write
index in a function-local static; otherwise return the remembered static
value.  The model threads the static rv explicitly: the result is
(state, write index for the caller, writes, new static value). -/
def plain_advance_to_6kp1 (hasBuf : Bool) (count : Nat) (st : PPMod16bit)
    (wr rv : Nat) (outs : List Nat) : PPMod16bit × Nat × List Nat × Nat :=
  if st.mod6 = 5 then
    let (wr1, outs1) := simd_check_plain1 hasBuf count st wr outs
    (simd_advance_all st 2, wr1, outs1, wr1)
  else
    (st, rv, outs, rv)

/-- Source plain_advance_l main loop: while the buffer is not full, test
the 6k+1 candidate, step 4 to 6k+5, test, step 2 to the next 6k+1.  The
loop exits without a trailing advance as in the source; fuel bounds the
number of iterations of the unbounded C while loop. -/
def plain_loop (hasBuf : Bool) (count : Nat) :
    Nat → PPMod16bit → Nat → List Nat → PPMod16bit × Nat × List Nat
  | 0, st, wr, outs => (st, wr, outs)
  | fuel + 1, st, wr, outs =>
    if count ≤ wr then (st, wr, outs)
    else
      let (wr1, outs1) := simd_check_plain1_l hasBuf count st wr outs
      if wr1 < count then
        let st1 := simd_advance_all st 4
        let (wr2, outs2) := simd_check_plain1_l hasBuf count st1 wr1 outs1
        if wr2 < count then
          plain_loop hasBuf count fuel (simd_advance_all st1 2) wr2 outs2
        else (st1, wr2, outs2)
      else (st, wr1, outs1)

/-- Source plain_advance_l: init, initial 6k+1 fix-up (with the static
return value rv threaded explicitly), main loop; returns (dst->lsb, the
values written, the final state, the new static value).  On failed init
the function returns 0 and the state is untouched. -/
def plain_advance_l (hasBuf : Bool) (count : Nat) (src : Option PPMod16bit)
    (rv fuel : Nat) : Nat × List Nat × Option PPMod16bit × Nat :=
  match init_search hasBuf count src 0 with
  | (_, none) => (0, [], src, rv)
  | (c, some st0) =>
    let t := plain_advance_to_6kp1 hasBuf c st0 0 rv []
    let r := plain_loop hasBuf c fuel t.1 t.2.1 t.2.2.1
    (r.1.lsb, r.2.2, some r.1, t.2.2.2)

/-- Source plain_advance: wrapper picking the widest compiled-in table;
with the default build this is plain_advance_l. -/
def plain_advance (hasBuf : Bool) (count : Nat) (src : Option PPMod16bit)
    (rv fuel : Nat) : Nat × List Nat × Option PPMod16bit × Nat :=
  plain_advance_l hasBuf count src rv fuel

/-- The inner fast-skip loop shared by the twin and safe drivers: while
the cumulative skip stays below 2^14 and the first 64 lanes still show a
factor, advance the first 64 lanes by 6 and accumulate the skip.  The
loop runs at most 2731 iterations (the skip grows by 6 from 0 toward
2^14), which callers pass as fuel. -/
def skip_loop (btest : List Nat → Bool) :
    Nat → List Nat → Nat → List Nat × Nat
  | 0, v, skip => (v, skip)
  | fuel + 1, v, skip =>
    if skip >>> 14 = 0 ∧ btest v = false then
      skip_loop btest fuel (advance_lanes v 0 64 6) (skip + 6)
    else (v, skip)

/-- Source twin_advance_l main loop: fast-skip on the first 64 lanes,
fold the skip into the counters and the remaining lanes, retry when the
skip overflowed, otherwise test the remaining blocks, register a
survivor and advance by 6. -/
def twin_loop (hasBuf : Bool) (count : Nat) :
    Nat → PPMod16bit → Nat → List Nat → PPMod16bit × Nat × List Nat
  | 0, st, wr, outs => (st, wr, outs)
  | fuel + 1, st, wr, outs =>
    if count ≤ wr then (st, wr, outs)
    else
      let pr := skip_loop (fun v => twinfactor_range v 0 64) 2731 st.modn 0
      let st1 := state_advance_nr { st with modn := pr.1 } pr.2
      let st2 :=
        if pr.2 ≠ 0 then { st1 with modn := simd_advance_remainders_rest_l st1.modn pr.2 }
        else st1
      if pr.2 >>> 14 ≠ 0 then twin_loop hasBuf count fuel st2 wr outs
      else
        let ro :=
          if simd_no_twinfactor_rest_l st2.modn then
            report_current_lsb hasBuf count st2.lsb wr outs
          else (wr, outs)
        twin_loop hasBuf count fuel (simd_advance_all st2 6) ro.1 ro.2

/-- Source twin_advance_l: init for TWIN, loop, return dst->lsb. -/
def twin_advance_l (hasBuf : Bool) (count : Nat) (src : Option PPMod16bit)
    (fuel : Nat) : Nat × List Nat × Option PPMod16bit :=
  match init_search hasBuf count src SIMD_PRIMETYPE_TWIN with
  | (_, none) => (0, [], src)
  | (c, some st0) =>
    let r := twin_loop hasBuf c fuel st0 0 []
    (r.1.lsb, r.2.2, some r.1)

/-- Source twin_advance_w: wrapper picking the widest table
(twin_advance_l in the default build). -/
def twin_advance_w (hasBuf : Bool) (count : Nat) (src : Option PPMod16bit)
    (fuel : Nat) : Nat × List Nat × Option PPMod16bit :=
  twin_advance_l hasBuf count src fuel

/-- The safe-prime search loop shared by sfsieve_advance_s, _m and _l:
the three unrolled C copies differ only in how the remaining lanes are
advanced (restAdv), which rest blocks are tested (restTest) and which
advance-all flavor performs the final step of 6 (advEnd). -/
def sp_loop (hasBuf : Bool) (count : Nat) (restAdv : List Nat → Nat → List Nat)
    (restTest : List Nat → Bool) (advEnd : PPMod16bit → PPMod16bit) :
    Nat → PPMod16bit → Nat → List Nat → PPMod16bit × Nat × List Nat
  | 0, st, wr, outs => (st, wr, outs)
  | fuel + 1, st, wr, outs =>
    if count ≤ wr then (st, wr, outs)
    else
      let pr := skip_loop (fun v => spfactor_range v 0 64) 2731 st.modn 0
      let st1 := state_advance_nr { st with modn := pr.1 } pr.2
      let st2 :=
        if pr.2 ≠ 0 then { st1 with modn := restAdv st1.modn pr.2 }
        else st1
      if pr.2 >>> 14 ≠ 0 then
        sp_loop hasBuf count restAdv restTest advEnd fuel st2 wr outs
      else
        let ro :=
          if restTest st2.modn then report_current_lsb hasBuf count st2.lsb wr outs
          else (wr, outs)
        sp_loop hasBuf count restAdv restTest advEnd fuel (advEnd st2) ro.1 ro.2

/-- Source sfsieve_advance_s: init for SAFE, a second
scan_twin_or_safeprime, loop over the 576-prime table with the
mode-dispatched advance-all. -/
def sfsieve_advance_s (hasBuf : Bool) (count : Nat) (src : Option PPMod16bit)
    (fuel : Nat) : Nat × List Nat × Option PPMod16bit :=
  match init_search hasBuf count src SIMD_PRIMETYPE_SAFE with
  | (_, none) => (0, [], src)
  | (c, some st0) =>
    let st1 := scan_twin_or_safeprime st0
    let r :=
      sp_loop hasBuf c simd_advance_remainders_rest simd_no_spfactor_rest1
        (fun st => simd_advance_all st 6) fuel st1 0 []
    (r.1.lsb, r.2.2, some r.1)

/-- Source sfsieve_advance_m: the 1856-prime variant, stepping with
simd_advance_all_m. -/
def sfsieve_advance_m (hasBuf : Bool) (count : Nat) (src : Option PPMod16bit)
    (fuel : Nat) : Nat × List Nat × Option PPMod16bit :=
  match init_search hasBuf count src SIMD_PRIMETYPE_SAFE with
  | (_, none) => (0, [], src)
  | (c, some st0) =>
    let st1 := scan_twin_or_safeprime st0
    let r :=
      sp_loop hasBuf c simd_advance_remainders_rest_m simd_no_spfactor_rest_m
        (fun st => simd_advance_all_m st 6) fuel st1 0 []
    (r.1.lsb, r.2.2, some r.1)

/-- Source sfsieve_advance_l: the 3456-prime variant, stepping with
simd_advance_all_l. -/
def sfsieve_advance_l (hasBuf : Bool) (count : Nat) (src : Option PPMod16bit)
    (fuel : Nat) : Nat × List Nat × Option PPMod16bit :=
  match init_search hasBuf count src SIMD_PRIMETYPE_SAFE with
  | (_, none) => (0, [], src)
  | (c, some st0) =>
    let st1 := scan_twin_or_safeprime st0
    let r :=
      sp_loop hasBuf c simd_advance_remainders_rest_l simd_no_spfactor_rest_l
        (fun st => simd_advance_all_l st 6) fuel st1 0 []
    (r.1.lsb, r.2.2, some r.1)

/-- Source sfsieve_advance: dispatch on the table-size bits of the source
state's mode word; 0 without side effects when absent or unknown. -/
def sfsieve_advance (hasBuf : Bool) (count : Nat) (src : Option PPMod16bit)
    (fuel : Nat) : Nat × List Nat × Option PPMod16bit :=
  match src with
  | none => (0, [], none)
  | some s =>
    if s.mode &&& SIMD_SEARCHTABLE_MASK = SIMD_SEARCHTABLE_L then
      sfsieve_advance_l hasBuf count src fuel
    else if s.mode &&& SIMD_SEARCHTABLE_MASK = SIMD_SEARCHTABLE_M then
      sfsieve_advance_m hasBuf count src fuel
    else if s.mode &&& SIMD_SEARCHTABLE_MASK = SIMD_SEARCHTABLE_S then
      sfsieve_advance_s hasBuf count src fuel
    else (0, [], src)

/-- Source report_prime_type: printable name of the prime-type bits. -/
def report_prime_type (ps : Option PPMod16bit) : String :=
  match ps with
  | none => "UNKNOWN"
  | some s =>
    if s.mode &&& SIMD_PRIMETYPE_MASK = SIMD_PRIMETYPE_TWIN then "twin"
    else if s.mode &&& SIMD_PRIMETYPE_MASK = SIMD_PRIMETYPE_SAFE then "safe"
    else if s.mode &&& SIMD_PRIMETYPE_MASK = SIMD_PRIMETYPE_FIPS186 then "FIPS-186"
    else if s.mode &&& SIMD_PRIMETYPE_MASK = SIMD_PRIMETYPE_PLAIN then "plain(PKCS1)"
    else "UNKNOWN"

/-- Source report_table_prime_count: the prime count selected by the
table-size bits of the mode word. -/
def report_table_prime_count (ps : Option PPMod16bit) : Nat :=
  match ps with
  | none => 0
  | some s =>
    if s.mode &&& SIMD_SEARCHTABLE_MASK = SIMD_SEARCHTABLE_L then 3456
    else if s.mode &&& SIMD_SEARCHTABLE_MASK = SIMD_SEARCHTABLE_M then 1856
    else if s.mode &&& SIMD_SEARCHTABLE_MASK = SIMD_SEARCHTABLE_S then 576
    else 0

/-- A residue state as the constructed by state initialization: lane i
holds Q mod primes[i], lsb mirrors the low 64 bits of Q, mod6 is Q mod 6
(spec section on state initialization; the big-number reduction itself
is modelled by mod16bits and modn16 below). -/
def mkState (q mode : Nat) : PPMod16bit :=
  { modn := firstprimes.map (fun p => q % p)
    lsb := q % 2 ^ 64
    offset := 0
    mod6 := q % 6
    mode := mode }

end Simddivide

namespace Simddivide

/-- A whole sequence of scalar advance steps on one lane of prime p,
each an advance_step (engine semantics: raw 16-bit add, then fold-back
with the stored mod2range lane of p). -/
def advance_steps (p v : Nat) (ks : List Nat) : Nat :=
  ks.foldl (advance_step p) v

/-- A whole sequence of scalar advance steps as claim C2 describes them
(fold-back constant 2 ^ 16 - (2 ^ 16 mod p)). -/
def advance_steps_as_claimed (p v : Nat) (ks : List Nat) : Nat :=
  ks.foldl (advance_step_as_claimed p) v

/-- Is a list of outputs strictly increasing? -/
def strictIncr : List Nat → Bool
  | [] => true
  | [_] => true
  | a :: b :: t => decide (a < b) && strictIncr (b :: t)

/-- Source MSBF8_READ as used by bin2u64: the value of up to eight
big-endian bytes. -/
def bytes_to_u64 (bs : List Nat) : Nat :=
  bs.foldl (fun a b => a * 256 + b) 0

/-- The big-endian value of a byte string. -/
def bytesVal (bs : List Nat) : Nat :=
  bs.foldl (fun a b => a * 256 + b) 0

/-- The big-endian value of a u64 digit string. -/
def u64val (ds : List Nat) : Nat :=
  ds.foldl (fun a d => a * 2 ^ 64 + d) 0

/-- One round of the 8-byte grouping loop of bin2u64, with explicit
fuel so the recursion is structural (the caller supplies the length as
fuel, which always suffices). -/
def chunks8F : Nat → List Nat → List Nat
  | _, [] => []
  | 0, _ :: _ => []
  | f + 1, b :: bs => bytes_to_u64 ((b :: bs).take 8) :: chunks8F f ((b :: bs).drop 8)

/-- The 8-byte grouping loop of bin2u64 (assumes the length is a
multiple of eight, as arranged by its caller). -/
def chunks8 (bs : List Nat) : List Nat :=
  chunks8F bs.length bs

/-- Source bin2u64: convert big-endian bytes to big-endian u64 digits;
a leading partial group of nbytes mod 8 bytes becomes the first digit,
then full 8-byte groups follow. -/
def bin2u64 (bs : List Nat) : List Nat :=
  if bs.length % 8 = 0 then chunks8 bs
  else bytes_to_u64 (bs.take (bs.length % 8)) :: chunks8 (bs.drop (bs.length % 8))

/-- Source modn16 (common-prime-tools.h): big-endian (n, count) mod modn
for 16-bit modn, folding digits with mod264 = 2 ^ 64 mod modn (computed
as the unsigned negation of modn, reduced); 0 for modn below 2 or empty
input. -/
def modn16 (n : List Nat) (modn : Nat) : Nat :=
  if 2 ≤ modn ∧ n ≠ [] then
    (n.foldl (fun acc d => (acc * ((2 ^ 64 - modn) % modn) + d % modn) % modn) 0) % modn
  else 0

/-- Does a list have more than n elements?  Tail-recursive bound check,
used for the size guards (it stops at n + 1 cells and never builds the
full length). -/
def lengthGt {α : Type} : List α → Nat → Bool
  | [], _ => false
  | _ :: _, 0 => true
  | _ :: t, n + 1 => lengthGt t n

/-- Source mod16bits: reduce a big-endian byte string modulo each entry
of the mods list.  Rejects empty input, input beyond PP_MAX_NR_BITS / 8
= 1024 bytes, an empty or oversized mods list, and a zero modulus;
nothing else is validated (in particular the parity of the number is
never examined).  On success the result holds modn16 of the u64 digits
for every modulus. -/
def mod16bits (nr : List Nat) (mods : List Nat) : Option (List Nat) :=
  if nr = [] ∨ lengthGt nr 1024 = true ∨ mods = [] ∨ lengthGt mods 3456 = true ∨
      mods.any (fun m => m == 0) then
    none
  else
    some (mods.map (fun m => modn16 (bin2u64 nr) m))

end Simddivide

namespace Simddivide

theorem zipWith3_nil_left (f : Nat → Nat → Nat → Nat) (bs cs : List Nat) :
    zipWith3 f [] bs cs = [] := by
  cases bs <;> cases cs <;> rfl

/-- The single-pass plain tester equals the source's composition of the
mul and lemask lane primitives. -/
theorem simd_nofactor64x16_eq_primitives (m i l : List Nat) :
    simd_nofactor64x16 m i l = simd_is_all0 (simd_lemask16 (simd_mul16 m i) l) := by
  unfold simd_nofactor64x16
  congr 1
  induction m generalizing i l with
  | nil => cases i <;> cases l <;> rfl
  | cons a as ih =>
    cases i with
    | nil => cases l <;> rfl
    | cons b bs =>
      cases l with
      | nil => rfl
      | cons c cs =>
        simpa [zipWith3, simd_mul16, simd_lemask16, nofactor_lane] using ih bs cs

/-- The single-pass safe tester equals the source's mul followed by
simd_spcmp16x16. -/
theorem simd_no_spfactor64x16_eq_primitives (m i l : List Nat) :
    simd_no_spfactor64x16 m i l = simd_is_all0 (simd_spcmp16x16 (simd_mul16 m i) i l) := by
  unfold simd_no_spfactor64x16
  congr 1
  induction m generalizing i l with
  | nil => cases i <;> cases l <;> rfl
  | cons a as ih =>
    cases i with
    | nil => cases l <;> rfl
    | cons b bs =>
      cases l with
      | nil => rfl
      | cons c cs =>
        simpa [zipWith3, simd_mul16, simd_spcmp16x16, simd_lemask16, simd_min16,
               simd_shladd16, sp_lane] using ih bs cs

/-- The single-pass twin tester equals the source's mul followed by
simd_cmp16x16_twin. -/
theorem simd_no_twinfactor64x16_eq_primitives (m i l : List Nat) :
    simd_no_twinfactor64x16 m i l = simd_is_all0 (simd_cmp16x16_twin (simd_mul16 m i) i l) := by
  unfold simd_no_twinfactor64x16
  congr 1
  induction m generalizing i l with
  | nil => cases i <;> cases l <;> rfl
  | cons a as ih =>
    cases i with
    | nil => cases l <;> rfl
    | cons b bs =>
      cases l with
      | nil => rfl
      | cons c cs =>
        simpa [zipWith3, simd_mul16, simd_cmp16x16_twin, simd_lemask16, simd_min16,
               simd_shladd16, twin_lane] using ih bs cs

/-- The single-pass advance-and-fold equals the source's advance
primitive followed by the fold primitive. -/
theorem simd_advance64x16_m2r_eq_primitives (v : List Nat) (adv : Nat) (m2r : List Nat) :
    simd_advance64x16_m2r v adv m2r = simd_m2range16 (simd_advance16 v adv) m2r := by
  unfold simd_advance64x16_m2r simd_m2range16 simd_advance16
  induction v generalizing m2r with
  | nil => cases m2r <;> rfl
  | cons a as ih =>
    cases m2r with
    | nil => rfl
    | cons m ms => simpa using ih ms

/-- Positional reading of an all-true pointwise zip fact. -/
theorem all_zipWith_get {γ : Type} {f : Nat → Nat → γ} {P : γ → Bool} :
    ∀ {as bs : List Nat}, (List.zipWith f as bs).all P = true →
      ∀ {i : Nat} {a b : Nat}, as.get? i = some a → bs.get? i = some b → P (f a b) = true := by
  intro as
  induction as with
  | nil => intro bs _ i a b ha _; cases i <;> simp at ha
  | cons x xs ih =>
    intro bs hall i a b ha hb
    cases bs with
    | nil => cases i <;> simp at hb
    | cons y ys =>
      rw [List.zipWith_cons_cons, List.all_cons, Bool.and_eq_true] at hall
      cases i with
      | zero =>
        simp only [List.get?] at ha hb
        cases ha; cases hb
        exact hall.1
      | succ j =>
        simp only [List.get?] at ha hb
        exact ih hall.2 ha hb

/-- Membership reading of an all-true list fact. -/
theorem all_get {γ : Type} {P : γ → Bool} :
    ∀ {as : List γ}, as.all P = true → ∀ {i : Nat} {a : γ}, as.get? i = some a → P a = true := by
  intro as
  induction as with
  | nil => intro _ i a ha; cases i <;> simp at ha
  | cons x xs ih =>
    intro hall i a ha
    rw [List.all_cons, Bool.and_eq_true] at hall
    cases i with
    | zero => simp only [List.get?] at ha; cases ha; exact hall.1
    | succ j => simp only [List.get?] at ha; exact ih hall.2 ha

/-- Every table prime is positive, below 2 ^ 15 and odd. -/
theorem firstprimes_facts :
    firstprimes.all
      (fun p => decide (1 < p) && decide (p < 32768) && decide (p % 2 = 1)) = true := by
  decide

/-- Every inverse lane satisfies primes[i] * inv[i] = 1 mod 2 ^ 16. -/
theorem firstprimes_inverse_spec :
    (List.zipWith (fun p i => (p * i) % 65536) firstprimes firstprimes_inverse_simd).all
      (fun x => x == 1) = true := by
  decide

/-- Every limit lane equals floor((2 ^ 16 - 1) / primes[i]). -/
theorem firstprimes_mullimit_spec :
    (List.zipWith (fun p l => l == mullimit16 p) firstprimes firstprimes_mullimit_simd).all
      (fun x => x) = true := by
  decide

/-- Every stored mod2range lane equals 2 ^ 16 - primes[i] * (2 ^ 15 / primes[i]). -/
theorem firstprimes_mod2range_spec :
    (List.zipWith (fun p m => m == mod2range16 p) firstprimes firstprimes_mod2range_simd).all
      (fun x => x) = true := by
  decide

/-- The divisibility criterion of Granlund-Montgomery and Lemire-Kaiser-
Kurz as the source uses it: for 0 < p with p * inv = 1 mod 2 ^ 16 and
any value x below 2 ^ 16, p divides x exactly when x * inv mod 2 ^ 16 is
at most floor((2 ^ 16 - 1) / p). -/
theorem lemire_iff (p inv : Nat) (hp : 0 < p) (hinv : (p * inv) % 65536 = 1) :
    ∀ x, x < 65536 → (p ∣ x ↔ (x * inv) % 65536 ≤ 65535 / p) := by
  intro x hx
  constructor
  · rintro ⟨m, rfl⟩
    have hm : m < 65536 := lt_of_le_of_lt (Nat.le_mul_of_pos_left m hp) hx
    have h1 : (p * m * inv) % 65536 = m % 65536 := by
      have : p * m * inv = m * (p * inv) := by ring
      rw [this, Nat.mul_mod, hinv, Nat.mul_one, Nat.mod_mod_of_dvd]
      exact dvd_refl _
    rw [h1, Nat.mod_eq_of_lt hm]
    have hle : p * m ≤ 65535 := Nat.lt_succ_iff.mp hx
    exact Nat.le_div_iff_mul_le hp |>.mpr (by rw [Nat.mul_comm]; exact hle)
  · intro hle
    set u := (x * inv) % 65536 with hu
    have h1 : (u * p) % 65536 = x := by
      rw [hu, Nat.mul_mod, Nat.mod_mod_of_dvd _ (dvd_refl _), ← Nat.mul_mod]
      have : x * inv * p = x * (p * inv) := by ring
      rw [this, Nat.mul_mod, hinv, Nat.mul_one, Nat.mod_mod_of_dvd, Nat.mod_eq_of_lt hx]
      exact dvd_refl _
    have h2 : u * p ≤ 65535 := by
      calc u * p ≤ (65535 / p) * p := Nat.mul_le_mul_right p hle
        _ ≤ 65535 := Nat.div_mul_le_self 65535 p
    have h3 : u * p = x := by
      rw [← h1, Nat.mod_eq_of_lt (by omega)]
    exact ⟨u, by rw [← h3, Nat.mul_comm]⟩

end Simddivide

namespace Simddivide

/-- Positional table facts packaged for reuse: table prime p at index i
is positive, below 2 ^ 15, odd, its inverse lane satisfies the inverse
identity, and its limit lane is floor(65535 / p). -/
theorem table_entry_facts {i p inv lim : Nat}
    (hp : firstprimes.get? i = some p)
    (hinv : firstprimes_inverse_simd.get? i = some inv)
    (hlim : firstprimes_mullimit_simd.get? i = some lim) :
    0 < p ∧ p < 32768 ∧ p % 2 = 1 ∧ (p * inv) % 65536 = 1 ∧ lim = 65535 / p := by
  have h1 := all_get firstprimes_facts hp
  simp only [Bool.and_eq_true, decide_eq_true_eq] at h1
  have h2 := all_zipWith_get firstprimes_inverse_spec hp hinv
  simp only [beq_iff_eq] at h2
  have h3 := all_zipWith_get firstprimes_mullimit_spec hp hlim
  simp only [beq_iff_eq] at h3
  exact ⟨by omega, h1.1.2, h1.2, h2, by simpa [mullimit16] using h3⟩

/-- C1, amended: the fast-rejection identity holds for every table lane
and every 16-bit value x (0 <= x < 2 ^ 16): primes[i] divides x exactly
when (x * inv[i]) mod 2 ^ 16 is at most limit[i]; equivalently the
le16mask lane the block testers compute is nonzero exactly on divisors.
The claimed range 0 <= x < 2 ^ 16 * primes[i] is amended to
0 <= x < 2 ^ 16 (see the counterexample at x = 2 ^ 16). -/
theorem claim_C1_fast_rejection_amended {i p inv lim : Nat}
    (hp : firstprimes.get? i = some p)
    (hinv : firstprimes_inverse_simd.get? i = some inv)
    (hlim : firstprimes_mullimit_simd.get? i = some lim) :
    ∀ x, x < 65536 →
      ((p ∣ x ↔ (x * inv) % 65536 ≤ lim) ∧ (p ∣ x ↔ le16mask ((x * inv) % 65536) lim ≠ 0)) := by
  obtain ⟨hp0, _, _, hinv1, hlim1⟩ := table_entry_facts hp hinv hlim
  intro x hx
  have h := lemire_iff p inv hp0 hinv1 x hx
  subst hlim1
  refine ⟨h, h.trans ?_⟩
  unfold le16mask
  constructor
  · intro hle; simp [hle]
  · intro hne
    by_contra hgt
    simp [hgt] at hne

/-- Witness: lane 0 holds the prime 5 with inverse 52429 and limit
13107, and the amended identity instantiates at x = 10. -/
theorem claim_C1_witness :
    firstprimes.get? 0 = some 5 ∧ (10 : Nat) < 65536 ∧
      ((5 ∣ 10 ↔ (10 * 52429) % 65536 ≤ 13107) ∧
       (5 ∣ 10 ↔ le16mask ((10 * 52429) % 65536) 13107 ≠ 0)) :=
  ⟨by decide, by decide,
    @claim_C1_fast_rejection_amended 0 5 52429 13107 (by decide) (by decide) (by decide)
      10 (by decide)⟩

/-- Counterexample to C1 as stated: for the table lane 0 (prime 5,
inverse 52429, limit 13107) and x = 2 ^ 16, which lies inside the
claimed range 0 <= x < 2 ^ 16 * 5, the criterion reports divisibility
((x * inv) mod 2 ^ 16 = 0 <= limit) although 5 does not divide 2 ^ 16. -/
theorem claim_C1_counterexample :
    firstprimes.get? 0 = some 5 ∧
    firstprimes_inverse_simd.get? 0 = some 52429 ∧
    firstprimes_mullimit_simd.get? 0 = some 13107 ∧
    (65536 : Nat) < 65536 * 5 ∧
    ¬ (5 ∣ 65536 ↔ (65536 * 52429) % 65536 ≤ 13107) := by
  refine ⟨by decide, by decide, by decide, by decide, ?_⟩
  decide

end Simddivide

namespace Simddivide

/-- Core invariant of the engine advance: for 0 < p < 2 ^ 15, with the
stored mod2range lane 2 ^ 16 - p * (2 ^ 15 / p), any sequence of steps
each at most p * (2 ^ 15 / p) keeps a lane congruent to the running sum
and strictly below 2 ^ 16 - p * (2 ^ 15 / p). -/
theorem advance_steps_invariant (p : Nat) (hp0 : 0 < p) (hp : p < 32768) :
    ∀ (ks : List Nat) (v : Nat), v < 65536 - p * (32768 / p) →
      (∀ k ∈ ks, k ≤ p * (32768 / p)) →
      advance_steps p v ks % p = (v + ks.sum) % p ∧
        advance_steps p v ks < 65536 - p * (32768 / p) := by
  have hM1 : p * (32768 / p) ≤ 32768 := by
    rw [Nat.mul_comm]; exact Nat.div_mul_le_self 32768 p
  have hM2 : p ≤ p * (32768 / p) := by
    have : 1 ≤ 32768 / p := (Nat.one_le_div_iff hp0).mpr (by omega)
    calc p = p * 1 := (Nat.mul_one p).symm
      _ ≤ p * (32768 / p) := Nat.mul_le_mul_left p this
  intro ks
  induction ks with
  | nil => intro v hv _; exact ⟨by simp [advance_steps], by simpa [advance_steps] using hv⟩
  | cons k ks ih =>
    intro v hv hks
    have hk : k ≤ p * (32768 / p) := hks k (List.mem_cons_self k ks)
    have hvk : v + k < 65536 := by omega
    have hstep : advance_step p v k =
        if 32768 ≤ v + k then v + k - p * (32768 / p) else v + k := by
      unfold advance_step m2range_1unit add_if_ge mod2range16
      rw [Nat.mod_eq_of_lt hvk]
      by_cases hfold : 32768 ≤ v + k
      · simp only [hfold, if_true]
        have hge : v + k + (65536 - p * (32768 / p)) ≥ 65536 := by omega
        have hlt : v + k + (65536 - p * (32768 / p)) < 2 * 65536 := by omega
        have : v + k + (65536 - p * (32768 / p)) =
            (v + k - p * (32768 / p)) + 65536 := by omega
        rw [this, Nat.add_mod_right, Nat.mod_eq_of_lt (by omega)]
      · simp only [hfold, if_false]
        exact Nat.mod_eq_of_lt (by omega)
    have hbound : advance_step p v k < 65536 - p * (32768 / p) := by
      rw [hstep]
      by_cases hfold : 32768 ≤ v + k
      · simp only [hfold, if_true]; omega
      · simp only [hfold, if_false]; omega
    have hcong : advance_step p v k % p = (v + k) % p := by
      rw [hstep]
      by_cases hfold : 32768 ≤ v + k
      · simp only [hfold, if_true]
        have hMle : p * (32768 / p) ≤ v + k := by omega
        have hsplit : v + k = (v + k - p * (32768 / p)) + p * (32768 / p) := by omega
        conv_rhs => rw [hsplit]
        rw [Nat.add_mul_mod_self_left]
      · simp only [hfold, if_false]
    have := ih (advance_step p v k) hbound (fun x hx => hks x (List.mem_cons_of_mem k hx))
    refine ⟨?_, by simpa [advance_steps] using this.2⟩
    have h1 : advance_steps p v (k :: ks) = advance_steps p (advance_step p v k) ks := rfl
    rw [h1, this.1, List.sum_cons]
    conv_rhs => rw [show v + (k + ks.sum) = (v + k) + ks.sum by omega]
    rw [Nat.add_mod, hcong, ← Nat.add_mod]

/-- C2, amended: for every table lane (prime p with stored fold-back
lane m2r[i] = 2 ^ 16 - p * (2 ^ 15 / p), a multiple of p as the spec's
invariant column requires), any sequence of scalar advance steps each at
most p * (2 ^ 15 / p) - a bound every driver step satisfies, since steps
are at most 2 ^ 14 + 6 while p * (2 ^ 15 / p) > 2 ^ 14 for p < 2 ^ 15 -
keeps the lane congruent to Q plus the accumulated advance, and keeps it
below 2 ^ 16 (not below p, as claimed: lanes may legitimately exceed
their prime; and not with the claimed fold constant
2 ^ 16 - (2 ^ 16 mod p), which breaks the congruence). -/
theorem claim_C2_advance_residue_amended {i p m2r : Nat}
    (hp : firstprimes.get? i = some p)
    (hm2r : firstprimes_mod2range_simd.get? i = some m2r)
    (Q : Nat) (ks : List Nat) (hks : ∀ k ∈ ks, k ≤ p * (32768 / p)) :
    (ks.foldl (fun v k => m2range_1unit ((v + k) % 65536) m2r) (Q % p)) % p
        = (Q + ks.sum) % p ∧
      ks.foldl (fun v k => m2range_1unit ((v + k) % 65536) m2r) (Q % p) < 65536 := by
  have h1 := all_get firstprimes_facts hp
  simp only [Bool.and_eq_true, decide_eq_true_eq] at h1
  have h2 := all_zipWith_get firstprimes_mod2range_spec hp hm2r
  simp only [beq_iff_eq] at h2
  have hfold : (fun v k => m2range_1unit ((v + k) % 65536) m2r) = advance_step p := by
    funext v k
    rw [h2]
    rfl
  rw [hfold]
  have hp0 : 0 < p := by omega
  have hplt : p < 32768 := h1.1.2
  have hv0 : Q % p < 65536 - p * (32768 / p) := by
    have hmod : Q % p < p := Nat.mod_lt Q hp0
    have : p * (32768 / p) ≤ 32768 := by
      rw [Nat.mul_comm]; exact Nat.div_mul_le_self 32768 p
    omega
  have hmain := advance_steps_invariant p hp0 hplt ks (Q % p) hv0 hks
  refine ⟨?_, by have := hmain.2; unfold advance_steps at this; omega⟩
  have := hmain.1
  unfold advance_steps at this
  rw [this, Nat.add_mod, Nat.mod_mod_of_dvd _ (dvd_refl p), ← Nat.add_mod]

/-- Witness: lane 0 (p = 5, stored fold-back 32771), Q = 4, two steps of
6: the lane ends at 16, congruent to 4 + 12 mod 5 and below 2 ^ 16. -/
theorem claim_C2_witness :
    (∀ k ∈ [6, 6], k ≤ 5 * (32768 / 5)) ∧
      (([6, 6].foldl (fun v k => m2range_1unit ((v + k) % 65536) 32771) (4 % 5)) % 5
          = (4 + [6, 6].sum) % 5 ∧
        [6, 6].foldl (fun v k => m2range_1unit ((v + k) % 65536) 32771) (4 % 5) < 65536) :=
  ⟨by decide,
    @claim_C2_advance_residue_amended 0 5 32771 (by decide) (by decide) 4 [6, 6] (by decide)⟩

/-- Counterexample to C2 as stated: with the fold-back constant the
claim prescribes, 2 ^ 16 - (2 ^ 16 mod p), lane p = 5 from Q = 4
violates the claimed bound r < p after a single step of 6 (the lane is
10), and from Q = 2 after two driver-sized skip steps of 16386 and 16380
(reaching 0x8000, where the claimed constant folds) the lane is no
longer congruent to Q plus the accumulated advance. -/
theorem claim_C2_counterexample :
    firstprimes.get? 0 = some 5 ∧
    (advance_steps_as_claimed 5 (4 % 5) [6]) % 5 = (4 + [6].sum) % 5 ∧
    ¬ advance_steps_as_claimed 5 (4 % 5) [6] < 5 ∧
    ¬ ((advance_steps_as_claimed 5 (2 % 5) [16386, 16380]) % 5
        = (2 + [16386, 16380].sum) % 5) := by
  refine ⟨by decide, by decide, by decide, ?_⟩
  decide

end Simddivide

namespace Simddivide

theorem le16mask_ne_zero (a b : Nat) : le16mask a b ≠ 0 ↔ a ≤ b := by
  unfold le16mask
  by_cases h : a ≤ b <;> simp [h]

/-- C3, amended: for every table lane (prime p, inverse inv, limit lim)
and every candidate x, with u = (x mod p) * inv mod 2 ^ 16: the twin
tester simd_cmp16x16_twin tests min(u + 2 * inv mod 2 ^ 16, u) <= lim,
which holds exactly when p divides x or p divides x + 2; the safe tester
simd_spcmp16x16 tests min(u, 2 * u + inv mod 2 ^ 16) <= lim, which holds
exactly when p divides x or p divides 2 * x + 1.  (The claim attributed
the expression min(u, 2u + inv) to the twin tester as well; the twin
tester in fact compares u + 2 * inv, the image of x + 2.) -/
theorem claim_C3_twin_safe_fold_amended {i p inv lim : Nat}
    (hp : firstprimes.get? i = some p)
    (hinv : firstprimes_inverse_simd.get? i = some inv)
    (hlim : firstprimes_mullimit_simd.get? i = some lim) :
    ∀ x : Nat,
      (twin_lane (x % p) inv lim ≠ 0 ↔ (p ∣ x ∨ p ∣ (x + 2))) ∧
      (sp_lane (x % p) inv lim ≠ 0 ↔ (p ∣ x ∨ p ∣ (2 * x + 1))) := by
  obtain ⟨hp0, hplt, _, hinv1, hlim1⟩ := table_entry_facts hp hinv hlim
  intro x
  have hr : x % p < p := Nat.mod_lt x hp0
  have hrx : p ∣ x % p ↔ p ∣ x := Nat.dvd_mod_iff (dvd_refl p)
  have hu : p ∣ x % p ↔ (x % p * inv) % 65536 ≤ lim := by
    rw [hlim1]; exact lemire_iff p inv hp0 hinv1 (x % p) (by omega)
  constructor
  · -- twin tester: second operand is (x % p + 2) * inv
    have htwo : (2 * inv + (x % p * inv) % 65536) % 65536 = ((x % p + 2) * inv) % 65536 := by
      conv_lhs => rw [Nat.add_mod, Nat.mod_mod_of_dvd _ (dvd_refl 65536), ← Nat.add_mod]
      congr 1
      ring
    have h2 : p ∣ (x % p + 2) ↔ ((x % p + 2) * inv) % 65536 ≤ lim := by
      rw [hlim1]; exact lemire_iff p inv hp0 hinv1 (x % p + 2) (by omega)
    have h3 : p ∣ (x % p + 2) ↔ p ∣ (x + 2) := by
      rw [Nat.dvd_iff_mod_eq_zero, Nat.dvd_iff_mod_eq_zero, Nat.mod_add_mod]
    unfold twin_lane
    rw [le16mask_ne_zero, min_le_iff, htwo, ← h2, ← hu, h3, hrx, or_comm]
  · -- safe tester: second operand is (2 * (x % p) + 1) * inv
    have hsafe : (2 * ((x % p * inv) % 65536) + inv) % 65536
        = ((2 * (x % p) + 1) * inv) % 65536 := by
      have hcong : (2 * ((x % p * inv) % 65536) + inv) % 65536
          = (2 * (x % p * inv) + inv) % 65536 :=
        Nat.ModEq.add_right inv (Nat.ModEq.mul_left 2 (Nat.mod_modEq (x % p * inv) 65536))
      rw [hcong]
      congr 1
      ring
    have h2 : p ∣ (2 * (x % p) + 1) ↔ ((2 * (x % p) + 1) * inv) % 65536 ≤ lim := by
      rw [hlim1]; exact lemire_iff p inv hp0 hinv1 (2 * (x % p) + 1) (by omega)
    have h3 : p ∣ (2 * (x % p) + 1) ↔ p ∣ (2 * x + 1) := by
      rw [Nat.dvd_iff_mod_eq_zero, Nat.dvd_iff_mod_eq_zero]
      have : (2 * (x % p) + 1) % p = (2 * x + 1) % p :=
        Nat.ModEq.add_right 1 (Nat.ModEq.mul_left 2 (Nat.mod_modEq x p))
      rw [this]
    unfold sp_lane
    rw [le16mask_ne_zero, min_le_iff, hsafe, ← h2, ← hu, hrx, h3]

/-- Witness: lane 0 (p = 5), x = 3: the twin lane fires (5 divides
3 + 2) and the safe lane does not (5 divides neither 3 nor 7). -/
theorem claim_C3_witness :
    (twin_lane (3 % 5) 52429 13107 ≠ 0 ↔ ((5 : Nat) ∣ 3 ∨ (5 : Nat) ∣ (3 + 2))) ∧
      (sp_lane (3 % 5) 52429 13107 ≠ 0 ↔ ((5 : Nat) ∣ 3 ∨ (5 : Nat) ∣ (2 * 3 + 1))) :=
  @claim_C3_twin_safe_fold_amended 0 5 52429 13107 (by decide) (by decide) (by decide) 3

/-- Counterexample to C3 as stated: for the twin tester the claim names
the condition min(u, 2u + inv) <= limit (the expression sp_lane
computes); at table lane 0 (p = 5) and x = 3 that condition is false
while p does divide x + 2 = 5, so the claimed equivalence with
(p | x) or (p | x + 2) fails. -/
theorem claim_C3_counterexample :
    firstprimes.get? 0 = some 5 ∧
    firstprimes_inverse_simd.get? 0 = some 52429 ∧
    firstprimes_mullimit_simd.get? 0 = some 13107 ∧
    ¬ (sp_lane (3 % 5) 52429 13107 ≠ 0 ↔ ((5 : Nat) ∣ 3 ∨ (5 : Nat) ∣ (3 + 2))) := by
  refine ⟨by decide, by decide, by decide, ?_⟩
  decide

end Simddivide

namespace Simddivide

/-- C9, amended: the prime-type bits of the mode word are Twin = 0x01,
Safe = 0x02, Fips186 = 0x04 and Plain = 0x08 (not Plain = 0x01,
Twin = 0x02, Safe = 0x04, Fips186 = 0x08 as claimed); the table-size
bits are S = 0x100, M = 0x200, L = 0x300 as claimed, and the reporting
helpers consume exactly these encodings. -/
theorem claim_C9_mode_encoding_amended :
    SIMD_PRIMETYPE_TWIN = 0x01 ∧ SIMD_PRIMETYPE_SAFE = 0x02 ∧
    SIMD_PRIMETYPE_FIPS186 = 0x04 ∧ SIMD_PRIMETYPE_PLAIN = 0x08 ∧
    SIMD_SEARCHTABLE_S = 0x100 ∧ SIMD_SEARCHTABLE_M = 0x200 ∧
    SIMD_SEARCHTABLE_L = 0x300 ∧
    report_prime_type (some ⟨[], 0, 0, 0, 0x01 ||| 0x100⟩) = "twin" ∧
    report_prime_type (some ⟨[], 0, 0, 0, 0x02 ||| 0x100⟩) = "safe" ∧
    report_prime_type (some ⟨[], 0, 0, 0, 0x04 ||| 0x100⟩) = "FIPS-186" ∧
    report_prime_type (some ⟨[], 0, 0, 0, 0x08 ||| 0x100⟩) = "plain(PKCS1)" ∧
    report_table_prime_count (some ⟨[], 0, 0, 0, 0x08 ||| 0x100⟩) = 576 ∧
    report_table_prime_count (some ⟨[], 0, 0, 0, 0x08 ||| 0x200⟩) = 1856 ∧
    report_table_prime_count (some ⟨[], 0, 0, 0, 0x08 ||| 0x300⟩) = 3456 := by
  refine ⟨rfl, rfl, rfl, rfl, rfl, rfl, rfl, ?_, ?_, ?_, ?_, ?_, ?_, ?_⟩ <;> decide

/-- Counterexample to C9 as stated: the claimed prime-type assignment
(Plain = 0x01 and so on) does not match the source enum; mode word 0x01
in fact selects the twin search, as report_prime_type shows. -/
theorem claim_C9_counterexample :
    ¬ (SIMD_PRIMETYPE_PLAIN = 0x01 ∧ SIMD_PRIMETYPE_TWIN = 0x02 ∧
       SIMD_PRIMETYPE_SAFE = 0x04 ∧ SIMD_PRIMETYPE_FIPS186 = 0x08) ∧
    report_prime_type (some ⟨[], 0, 0, 0, 0x01 ||| 0x100⟩) = "twin" := by
  exact ⟨by decide, by decide⟩

end Simddivide

namespace Simddivide

/-- Positional-value reading of the base-B digit fold. -/
theorem foldl_base (B : Nat) :
    ∀ (l : List Nat) (a : Nat),
      l.foldl (fun x d => x * B + d) a = a * B ^ l.length + l.foldl (fun x d => x * B + d) 0 := by
  intro l
  induction l with
  | nil => intro a; simp
  | cons d t ih =>
    intro a
    simp only [List.foldl_cons, List.length_cons, Nat.zero_mul, Nat.zero_add]
    rw [ih (a * B + d), ih d]
    ring

theorem u64val_cons (d : Nat) (l : List Nat) :
    u64val (d :: l) = d * (2 ^ 64) ^ l.length + u64val l := by
  unfold u64val
  simp only [List.foldl_cons, Nat.zero_mul, Nat.zero_add]
  exact foldl_base (2 ^ 64) l d

theorem bytesVal_append (l1 l2 : List Nat) :
    bytesVal (l1 ++ l2) = bytesVal l1 * 256 ^ l2.length + bytesVal l2 := by
  unfold bytesVal
  rw [List.foldl_append]
  exact foldl_base 256 l2 _

/-- The fueled 8-byte grouping loop reproduces the byte-string value and
produces length / 8 digits, for inputs whose length is a multiple of 8
and fuel at least the length. -/
theorem chunks8F_spec :
    ∀ (f : Nat) (bs : List Nat), bs.length ≤ f → bs.length % 8 = 0 →
      u64val (chunks8F f bs) = bytesVal bs ∧ (chunks8F f bs).length = bs.length / 8 := by
  intro f
  induction f with
  | zero =>
    intro bs hle hmod
    cases bs with
    | nil => simp [chunks8F, u64val, bytesVal]
    | cons b t =>
      exfalso
      simp only [List.length_cons] at hle
      omega
  | succ f ih =>
    intro bs hle hmod
    match bs with
    | [] => simp [chunks8F, u64val, bytesVal]
    | b :: bs2 =>
      have h8 : 8 ≤ (b :: bs2).length := by
        simp only [List.length_cons] at hmod ⊢
        omega
      have hdlen : ((b :: bs2).drop 8).length = (b :: bs2).length - 8 := by
        simp [List.length_drop]
      have hdmod : ((b :: bs2).drop 8).length % 8 = 0 := by omega
      have hdle : ((b :: bs2).drop 8).length ≤ f := by omega
      have ihd := ih ((b :: bs2).drop 8) hdle hdmod
      have hstep : chunks8F (f + 1) (b :: bs2)
          = bytes_to_u64 ((b :: bs2).take 8) :: chunks8F f ((b :: bs2).drop 8) := by
        rw [chunks8F]
      constructor
      · rw [hstep, u64val_cons, ihd.1, ihd.2]
        conv_rhs => rw [← List.take_append_drop 8 (b :: bs2), bytesVal_append]
        have hb : bytes_to_u64 ((b :: bs2).take 8) = bytesVal ((b :: bs2).take 8) := rfl
        rw [hb]
        congr 1
        have hq : ((b :: bs2).drop 8).length = 8 * (((b :: bs2).drop 8).length / 8) := by
          have := hdmod
          omega
        have hpow : (256 : Nat) ^ ((b :: bs2).drop 8).length
            = (2 ^ 64) ^ (((b :: bs2).drop 8).length / 8) := by
          conv_lhs => rw [hq]
          rw [Nat.pow_mul]
          norm_num
        rw [hpow]
      · rw [hstep, List.length_cons, ihd.2, hdlen]
        have hcons : (b :: bs2).length = bs2.length + 1 := List.length_cons b bs2
        rw [hcons] at hmod h8 ⊢
        omega

/-- The 8-byte grouping loop reproduces the byte-string value and
produces length / 8 digits, for inputs whose length is a multiple of 8. -/
theorem chunks8_spec (bs : List Nat) (hmod : bs.length % 8 = 0) :
    u64val (chunks8 bs) = bytesVal bs ∧ (chunks8 bs).length = bs.length / 8 := by
  unfold chunks8
  exact chunks8F_spec bs.length bs (Nat.le_refl _) hmod

/-- Source bin2u64 reproduces the big-endian value of its byte input. -/
theorem bin2u64_val (bs : List Nat) : u64val (bin2u64 bs) = bytesVal bs := by
  unfold bin2u64
  by_cases h : bs.length % 8 = 0
  · simp only [h, if_true]
    exact (chunks8_spec bs h).1
  · simp only [h, if_false]
    have hdmod : (bs.drop (bs.length % 8)).length % 8 = 0 := by
      simp only [List.length_drop]
      omega
    have hspec := chunks8_spec (bs.drop (bs.length % 8)) hdmod
    rw [u64val_cons, hspec.1, hspec.2]
    conv_rhs => rw [← List.take_append_drop (bs.length % 8) bs, bytesVal_append]
    have hb : bytes_to_u64 (bs.take (bs.length % 8)) = bytesVal (bs.take (bs.length % 8)) := rfl
    rw [hb]
    congr 1
    simp only [List.length_drop]
    have hlen : (bs.length - bs.length % 8) = 8 * ((bs.length - bs.length % 8) / 8) := by
      omega
    have hpow : (256 : Nat) ^ (bs.length - bs.length % 8)
        = (2 ^ 64) ^ ((bs.length - bs.length % 8) / 8) := by
      conv_lhs => rw [hlen]
      rw [Nat.pow_mul]
      norm_num
    rw [hpow]

/-- Source modn16 computes the value mod modn: the digit fold with
mod264 = 2 ^ 64 mod modn reduces the big-endian u64 digit string (modn
is a uint16_t in the source, hence below 2 ^ 16). -/
theorem modn16_eq_mod (n : List Nat) (m : Nat) (hm : 2 ≤ m) (hm16 : m < 65536)
    (hne : n ≠ []) : modn16 n m = u64val n % m := by
  have hm64 : m ≤ 2 ^ 64 := by
    calc m ≤ 65536 := by omega
      _ ≤ 2 ^ 64 := by norm_num
  have hc : (2 ^ 64 - m) % m = 2 ^ 64 % m := by
    conv_rhs => rw [show (2 : Nat) ^ 64 = (2 ^ 64 - m) + m by omega]
    rw [Nat.add_mod_right]
  have key : ∀ (l : List Nat) (acc : Nat),
      Nat.ModEq m (l.foldl (fun acc d => (acc * ((2 ^ 64 - m) % m) + d % m) % m) acc)
        (acc * (2 ^ 64) ^ l.length + u64val l) := by
    intro l
    induction l with
    | nil =>
      intro acc
      simp [u64val, Nat.ModEq.refl]
    | cons d t ih =>
      intro acc
      simp only [List.foldl_cons]
      have h1 := ih ((acc * ((2 ^ 64 - m) % m) + d % m) % m)
      refine h1.trans ?_
      rw [u64val_cons, List.length_cons]
      have h2 : Nat.ModEq m ((acc * ((2 ^ 64 - m) % m) + d % m) % m)
          (acc * 2 ^ 64 + d) := by
        refine (Nat.mod_modEq _ m).trans ?_
        refine Nat.ModEq.add ?_ (Nat.mod_modEq d m)
        rw [hc]
        exact Nat.ModEq.mul_left acc (Nat.mod_modEq (2 ^ 64) m)
      have h3 := (h2.mul_right ((2 ^ 64) ^ t.length)).add_right (u64val t)
      refine h3.trans ?_
      have h4 : (acc * 2 ^ 64 + d) * (2 ^ 64) ^ t.length + u64val t
          = acc * ((2 ^ 64) ^ (t.length + 1)) + (d * (2 ^ 64) ^ t.length + u64val t) := by
        ring
      rw [h4]
  unfold modn16
  rw [if_pos (⟨hm, hne⟩ : 2 ≤ m ∧ n ≠ [])]
  have hk := key n 0
  simp only [Nat.zero_mul, Nat.zero_add] at hk
  exact hk

end Simddivide

namespace Simddivide

theorem bin2u64_ne_nil (bs : List Nat) (h : bs ≠ []) : bin2u64 bs ≠ [] := by
  unfold bin2u64
  by_cases hm : bs.length % 8 = 0
  · simp only [hm, if_true]
    match bs, h with
    | b :: bs2, _ =>
      unfold chunks8
      simp only [List.length_cons]
      rw [chunks8F]
      exact List.cons_ne_nil _ _
  · simp only [hm, if_false]
    exact List.cons_ne_nil _ _

/-- A true lengthGt check means the list really is longer than n. -/
theorem lengthGt_gt {α : Type} : ∀ (l : List α) (n : Nat), lengthGt l n = true → n < l.length := by
  intro l
  induction l with
  | nil => intro n h; simp [lengthGt] at h
  | cons a t ih =>
    intro n h
    cases n with
    | zero => simp
    | succ k =>
      have := ih k (by simpa [lengthGt] using h)
      simp only [List.length_cons]
      omega

/-- C8, amended: state construction performs no parity (or nonzero)
check on Q.  mod16bits accepts any nonempty byte string of at most 1024
bytes - even values and zero included - and returns the residues of Q
modulo every table prime; it fails only on missing or oversized input, a
missing or oversized modulus list, or a zero modulus (and mod16read adds
only mode-prefix and hex-syntax failures on top, no parity check
either). -/
theorem claim_C8_no_parity_check_amended (nr : List Nat) (hne : nr ≠ [])
    (hlen : nr.length ≤ 1024) {i p r : Nat}
    (hp : firstprimes.get? i = some p)
    (hr : (mod16bits nr firstprimes).bind (fun l => l.get? i) = some r) :
    mod16bits nr firstprimes = some (firstprimes.map (fun q => modn16 (bin2u64 nr) q)) ∧
      r = bytesVal nr % p := by
  have h1 := all_get firstprimes_facts hp
  simp only [Bool.and_eq_true, decide_eq_true_eq] at h1
  have hguard : ¬ (nr = [] ∨ lengthGt nr 1024 = true ∨ firstprimes = [] ∨
      lengthGt firstprimes 3456 = true ∨ firstprimes.any (fun m => m == 0) = true) := by
    have hgt : lengthGt nr 1024 = false := by
      rw [← Bool.not_eq_true]
      intro hcontra
      exact absurd (lengthGt_gt nr 1024 hcontra) (by omega)
    simp only [not_or]
    refine ⟨hne, by simp [hgt], by decide, by decide, by decide⟩
  have hmb : mod16bits nr firstprimes
      = some (firstprimes.map (fun q => modn16 (bin2u64 nr) q)) := by
    unfold mod16bits
    rw [if_neg]
    simpa using hguard
  refine ⟨hmb, ?_⟩
  rw [hmb] at hr
  simp only [Option.some_bind, List.get?_map, hp, Option.map_some] at hr
  have hr2 : modn16 (bin2u64 nr) p = r := by
    simpa using hr
  rw [← hr2, modn16_eq_mod _ p (by omega) (by omega) (bin2u64_ne_nil nr hne), bin2u64_val]

/-- Witness: the even number 4 (byte string 04) is accepted and its lane
0 residue is 4 mod 5. -/
theorem claim_C8_witness :
    mod16bits [4] firstprimes = some (firstprimes.map (fun q => modn16 (bin2u64 [4]) q)) ∧
      (4 : Nat) = bytesVal [4] % 5 :=
  @claim_C8_no_parity_check_amended [4] (by decide) (by decide) 0 5 4 (by decide) (by decide)

/-- Counterexample to C8 as stated: the even input 4 and the zero input
(byte string 00) are both accepted by mod16bits - no invalid-input
failure occurs. -/
theorem claim_C8_counterexample :
    (4 : Nat) % 2 = 0 ∧ (mod16bits [4] firstprimes).isSome = true ∧
      bytesVal [0] = 0 ∧ (mod16bits [0] firstprimes).isSome = true := by
  exact ⟨by decide, by decide, by decide, by decide⟩

end Simddivide

namespace Simddivide

/-- C4, amended: the plain driver is not resumable as claimed.  When the
large-table plain loop exits because the output buffer filled, the state
it returns still sits AT the last candidate tested and written - the
final state's lsb equals the last output and no trailing advance is
performed - so invoking the driver again on the returned state re-tests
and re-reports that candidate instead of continuing past it. -/
theorem claim_C4_resumability_amended (count : Nat) :
    ∀ (fuel : Nat) (st : PPMod16bit) (wr : Nat) (outs : List Nat)
      (st2 : PPMod16bit) (wr2 : Nat) (outs2 : List Nat), wr < count →
      plain_loop true count fuel st wr outs = (st2, wr2, outs2) →
      wr2 = count → outs2.getLast? = some st2.lsb := by
  intro fuel
  induction fuel with
  | zero =>
    intro st wr outs st2 wr2 outs2 hwr heq hcnt
    simp only [plain_loop, Prod.mk.injEq] at heq
    omega
  | succ fuel ih =>
    intro st wr outs st2 wr2 outs2 hwr heq hcnt
    rw [plain_loop, if_neg (Nat.not_le.mpr hwr)] at heq
    cases hc1 : simd_has_no_factor_l st.modn with
    | true =>
      simp [simd_check_plain1_l, report_current_lsb, hc1, hwr] at heq
      by_cases h1 : wr + 1 < count
      · rw [if_pos h1] at heq
        cases hc2 : simd_has_no_factor_l (simd_advance_all st 4).modn with
        | true =>
          simp [simd_check_plain1_l, report_current_lsb, hc2, h1] at heq
          by_cases h2 : wr + 1 + 1 < count
          · rw [if_pos h2] at heq
            exact ih _ _ _ _ _ _ h2 heq hcnt
          · rw [if_neg h2] at heq
            simp only [Prod.mk.injEq] at heq
            obtain ⟨h3, _, h5⟩ := heq
            rw [← h5, ← h3, show outs ++ [st.lsb, (simd_advance_all st 4).lsb]
                = (outs ++ [st.lsb]) ++ [(simd_advance_all st 4).lsb] from by simp]
            exact List.getLast?_concat _
        | false =>
          simp [simd_check_plain1_l, hc2] at heq
          rw [if_pos h1] at heq
          exact ih _ _ _ _ _ _ h1 heq hcnt
      · rw [if_neg h1] at heq
        simp only [Prod.mk.injEq] at heq
        obtain ⟨h3, _, h5⟩ := heq
        rw [← h5, ← h3]
        exact List.getLast?_concat _
    | false =>
      simp [simd_check_plain1_l, hc1] at heq
      rw [if_pos hwr] at heq
      cases hc2 : simd_has_no_factor_l (simd_advance_all st 4).modn with
      | true =>
        simp [simd_check_plain1_l, report_current_lsb, hc2, hwr] at heq
        by_cases h2 : wr + 1 < count
        · rw [if_pos h2] at heq
          exact ih _ _ _ _ _ _ h2 heq hcnt
        · rw [if_neg h2] at heq
          simp only [Prod.mk.injEq] at heq
          obtain ⟨h3, _, h5⟩ := heq
          rw [← h5, ← h3]
          exact List.getLast?_concat _
      | false =>
        simp [simd_check_plain1_l, hc2] at heq
        rw [if_pos hwr] at heq
        exact ih _ _ _ _ _ _ hwr heq hcnt

/-- Witness: plain search from Q = 331 (mode plain, tier S) with a
one-element buffer fills it at 331 itself and leaves the state
unmoved at lsb = 331, the value just written. -/
theorem claim_C4_witness :
    (0 : Nat) < 1 ∧
    plain_loop true 1 3 (mkState 331 (SIMD_PRIMETYPE_PLAIN ||| SIMD_SEARCHTABLE_S)) 0 []
      = (mkState 331 (SIMD_PRIMETYPE_PLAIN ||| SIMD_SEARCHTABLE_S), 1, [331]) ∧
    ([331] : List Nat).getLast?
      = some (mkState 331 (SIMD_PRIMETYPE_PLAIN ||| SIMD_SEARCHTABLE_S)).lsb := by
  have h : plain_loop true 1 3 (mkState 331 (SIMD_PRIMETYPE_PLAIN ||| SIMD_SEARCHTABLE_S)) 0 []
      = (mkState 331 (SIMD_PRIMETYPE_PLAIN ||| SIMD_SEARCHTABLE_S), 1, [331]) := rfl
  exact ⟨Nat.zero_lt_one, h,
    claim_C4_resumability_amended 1 3 _ 0 [] _ 1 [331] Nat.zero_lt_one h rfl⟩

/-- Counterexample to C4 as stated: drive(1 survivor) from Q = 331
followed by drive(1 more) on the returned state (threading the static
return value as the source does) reports 331 twice, while a single
drive(2 survivors) reports 331 then 337; the concatenation [331, 331]
differs from [331, 337], so resumption duplicates a candidate. -/
theorem claim_C4_counterexample :
    (plain_advance_l true 1
        (some (mkState 331 (SIMD_PRIMETYPE_PLAIN ||| SIMD_SEARCHTABLE_S))) 0 3).2.1 = [331] ∧
    (plain_advance_l true 1
        (plain_advance_l true 1
          (some (mkState 331 (SIMD_PRIMETYPE_PLAIN ||| SIMD_SEARCHTABLE_S))) 0 3).2.2.1
        (plain_advance_l true 1
          (some (mkState 331 (SIMD_PRIMETYPE_PLAIN ||| SIMD_SEARCHTABLE_S))) 0 3).2.2.2
        3).2.1 = [331] ∧
    (plain_advance_l true 2
        (some (mkState 331 (SIMD_PRIMETYPE_PLAIN ||| SIMD_SEARCHTABLE_S))) 0 3).2.1
      = [331, 337] ∧
    ([331] ++ [331] : List Nat) ≠ [331, 337] := by
  refine ⟨by decide, by decide, by decide, by decide⟩

end Simddivide

namespace Simddivide

/-- The fast-skip loop accumulates at most 6 per iteration: its returned
skip is bounded by the start value plus six times the fuel. -/
theorem skip_loop_le (btest : List Nat → Bool) :
    ∀ (f : Nat) (v : List Nat) (s : Nat), (skip_loop btest f v s).2 ≤ s + 6 * f := by
  intro f
  induction f with
  | zero => intro v s; simp [skip_loop]
  | succ f ih =>
    intro v s
    rw [skip_loop]
    by_cases h : s >>> 14 = 0 ∧ btest v = false
    · rw [if_pos h]
      have := ih (advance_lanes v 0 64 6) (s + 6)
      omega
    · rw [if_neg h]
      omega

/-- Appending a value above the last element keeps a list strictly
increasing. -/
theorem strictIncr_concat :
    ∀ (l : List Nat) (y : Nat), strictIncr l = true →
      (∀ x, l.getLast? = some x → x < y) → strictIncr (l ++ [y]) = true := by
  intro l
  induction l with
  | nil => intro y _ _; simp [strictIncr]
  | cons a t ih =>
    intro y hs hl
    cases t with
    | nil =>
      have hay : a < y := hl a rfl
      simp [strictIncr, hay]
    | cons b t2 =>
      simp only [strictIncr, Bool.and_eq_true, decide_eq_true_eq] at hs
      have hrec := ih y hs.2 (fun x hx => hl x (by simpa [List.getLast?_cons_cons] using hx))
      simp only [List.cons_append, strictIncr, Bool.and_eq_true, decide_eq_true_eq]
      exact ⟨hs.1, by simpa [List.cons_append] using hrec⟩

/-- For any recognized table tier, the mode dispatch of simd_advance_all
advances the 64-bit counter by the step (mod 2 ^ 64) and keeps the mode
word. -/
theorem simd_advance_all_lm (ps : PPMod16bit) (adv : Nat)
    (hm : ps.mode &&& SIMD_SEARCHTABLE_MASK = SIMD_SEARCHTABLE_S ∨
          ps.mode &&& SIMD_SEARCHTABLE_MASK = SIMD_SEARCHTABLE_M ∨
          ps.mode &&& SIMD_SEARCHTABLE_MASK = SIMD_SEARCHTABLE_L) :
    (simd_advance_all ps adv).lsb = (ps.lsb + adv) % 2 ^ 64 ∧
      (simd_advance_all ps adv).mode = ps.mode := by
  rcases hm with h | h | h <;>
    simp [simd_advance_all, simd_advance_all_s, simd_advance_all_m, simd_advance_all_l,
      state_advance_nr, h, SIMD_SEARCHTABLE_S, SIMD_SEARCHTABLE_M, SIMD_SEARCHTABLE_L]

/-- Within one run of the twin search loop the outputs stay strictly
increasing: every iteration writes at the current counter (start plus
the accumulated skip) and then advances past it by 6, and the counter
moves by at most 16386 + 6 = 16392 per iteration, so absent a 2 ^ 64
wrap each write exceeds the one before it. -/
theorem twin_loop_strict (count : Nat) :
    ∀ (fuel : Nat) (st : PPMod16bit) (wr : Nat) (outs : List Nat),
      st.lsb + fuel * 16392 < 2 ^ 64 →
      (st.mode &&& SIMD_SEARCHTABLE_MASK = SIMD_SEARCHTABLE_S ∨
       st.mode &&& SIMD_SEARCHTABLE_MASK = SIMD_SEARCHTABLE_M ∨
       st.mode &&& SIMD_SEARCHTABLE_MASK = SIMD_SEARCHTABLE_L) →
      strictIncr outs = true →
      (∀ x, outs.getLast? = some x → x < st.lsb) →
      strictIncr (twin_loop true count fuel st wr outs).2.2 = true := by
  intro fuel
  induction fuel with
  | zero =>
    intro st wr outs _ _ hs _
    simpa [twin_loop] using hs
  | succ fuel ih =>
    intro st wr outs hb hm hs hl
    rw [twin_loop]
    by_cases hwr : count ≤ wr
    · rw [if_pos hwr]
      exact hs
    · rw [if_neg hwr]
      have hskle := skip_loop_le (fun v => twinfactor_range v 0 64) 2731 st.modn 0
      rcases hsk : skip_loop (fun v => twinfactor_range v 0 64) 2731 st.modn 0 with ⟨v1, skip⟩
      rw [hsk] at hskle
      simp only [Nat.zero_add] at hskle
      have hskle2 : skip ≤ 16386 := by omega
      dsimp only
      set st1 := state_advance_nr { st with modn := v1 } skip with hst1
      set st2 := (if skip ≠ 0 then
          { st1 with modn := simd_advance_remainders_rest_l st1.modn skip }
        else st1) with hst2
      have h1lsb : st1.lsb = st.lsb + skip := by
        rw [hst1]
        dsimp [state_advance_nr]
        omega
      have h2lsb : st2.lsb = st.lsb + skip := by
        rw [hst2]
        by_cases hz : skip ≠ 0
        · rw [if_pos hz]
          exact h1lsb
        · rw [if_neg hz]
          exact h1lsb
      have h2mode : st2.mode = st.mode := by
        rw [hst2, hst1]
        by_cases hz : skip ≠ 0 <;> simp [hz, state_advance_nr]
      clear_value st1 st2
      by_cases hof : skip >>> 14 ≠ 0
      · rw [if_pos hof]
        refine ih st2 wr outs (by rw [h2lsb]; omega) (by rw [h2mode]; exact hm) hs ?_
        intro x hx
        have := hl x hx
        omega
      · rw [if_neg hof]
        have h3 := simd_advance_all_lm st2 6 (by rw [h2mode]; exact hm)
        have h3lsb : (simd_advance_all st2 6).lsb = st.lsb + skip + 6 := by
          rw [h3.1, h2lsb, Nat.mod_eq_of_lt (by omega)]
        by_cases ht : simd_no_twinfactor_rest_l st2.modn
        · simp only [ht, if_true]
          simp [report_current_lsb, Nat.not_le.mp hwr]
          refine ih _ _ _ (by rw [h3lsb]; omega) (by rw [h3.2, h2mode]; exact hm) ?_ ?_
          · refine strictIncr_concat outs st2.lsb hs ?_
            intro x hx
            have := hl x hx
            omega
          · intro x hx
            rw [List.getLast?_concat] at hx
            cases hx
            omega
        · simp only [ht, Bool.false_eq_true, if_false]
          refine ih _ _ _ (by rw [h3lsb]; omega) (by rw [h3.2, h2mode]; exact hm) hs ?_
          intro x hx
          have := hl x hx
          omega

/-- C5, amended: WITHIN one driver invocation the outputs are strictly
increasing (shown here for the twin driver: absent a 2 ^ 64 counter wrap
over the run, twin_advance_w writes a strictly ascending sequence), but
ACROSS interrupted and resumed invocations the claim fails: the plain
driver re-reports the candidate it stopped at, so the concatenation is
not strictly ascending. -/
theorem claim_C5_ordering_amended (count fuel : Nat) (s : PPMod16bit)
    (hb : s.lsb + fuel * 16392 + 5 < 2 ^ 64)
    (hm : s.mode &&& SIMD_SEARCHTABLE_MASK = SIMD_SEARCHTABLE_S ∨
          s.mode &&& SIMD_SEARCHTABLE_MASK = SIMD_SEARCHTABLE_M ∨
          s.mode &&& SIMD_SEARCHTABLE_MASK = SIMD_SEARCHTABLE_L) :
    strictIncr (twin_advance_w true count (some s) fuel).2.1 = true := by
  unfold twin_advance_w twin_advance_l
  by_cases hc : count = 0
  · simp [init_search, hc, strictIncr]
  · have hadv : (((11 + 2 ^ 32 - s.mod6 % 2 ^ 32) % 2 ^ 32) % 6) ≤ 5 := by
      have := Nat.mod_lt ((11 + 2 ^ 32 - s.mod6 % 2 ^ 32) % 2 ^ 32) (show 0 < 6 by omega)
      omega
    have h0 := simd_advance_all_lm s (((11 + 2 ^ 32 - s.mod6 % 2 ^ 32) % 2 ^ 32) % 6) hm
    have h0lsb : (scan_twin_or_safeprime s).lsb ≤ s.lsb + 5 := by
      unfold scan_twin_or_safeprime
      rw [h0.1]
      have := Nat.mod_le (s.lsb + (((11 + 2 ^ 32 - s.mod6 % 2 ^ 32) % 2 ^ 32) % 6)) (2 ^ 64)
      omega
    have h0mode : (scan_twin_or_safeprime s).mode = s.mode := by
      unfold scan_twin_or_safeprime
      exact h0.2
    simp only [init_search, hc, if_false, if_true]
    refine twin_loop_strict count fuel (scan_twin_or_safeprime s) 0 [] (by omega)
      (by rw [h0mode]; exact hm) rfl ?_
    intro x hx
    simp at hx

/-- Witness: the twin state at Q = 32297 (32297 and 32299 are a twin
prime pair above the table), tier L, satisfies the no-wrap and tier
hypotheses, so its one-survivor run is strictly ascending. -/
theorem claim_C5_witness :
    (mkState 32297 (SIMD_PRIMETYPE_TWIN ||| SIMD_SEARCHTABLE_L)).lsb + 1 * 16392 + 5 < 2 ^ 64 ∧
    (mkState 32297 (SIMD_PRIMETYPE_TWIN ||| SIMD_SEARCHTABLE_L)).mode &&& SIMD_SEARCHTABLE_MASK
      = SIMD_SEARCHTABLE_L ∧
    strictIncr (twin_advance_w true 1
        (some (mkState 32297 (SIMD_PRIMETYPE_TWIN ||| SIMD_SEARCHTABLE_L))) 1).2.1 = true := by
  refine ⟨by decide, by decide,
    claim_C5_ordering_amended 1 1 _ (by decide) (Or.inr (Or.inr (by decide)))⟩

/-- Counterexample to C5 as stated: across an interrupted and resumed
pair of plain invocations from Q = 331, the concatenated output list is
[331, 331], which is not strictly ascending (no 2 ^ 64 wrap is
involved). -/
theorem claim_C5_counterexample :
    strictIncr
      ((plain_advance_l true 1
          (some (mkState 331 (SIMD_PRIMETYPE_PLAIN ||| SIMD_SEARCHTABLE_S))) 0 3).2.1
        ++ (plain_advance_l true 1
            (plain_advance_l true 1
              (some (mkState 331 (SIMD_PRIMETYPE_PLAIN ||| SIMD_SEARCHTABLE_S))) 0 3).2.2.1
            (plain_advance_l true 1
              (some (mkState 331 (SIMD_PRIMETYPE_PLAIN ||| SIMD_SEARCHTABLE_S))) 0 3).2.2.2
            3).2.1) = false := by
  decide

end Simddivide

namespace Simddivide

/-- A full output buffer makes the safe-prime loop return immediately,
whatever fuel remains. -/
theorem sp_loop_full (hasBuf : Bool) (count : Nat) (restAdv : List Nat → Nat → List Nat)
    (restTest : List Nat → Bool) (advEnd : PPMod16bit → PPMod16bit)
    (fuel : Nat) (st : PPMod16bit) (wr : Nat) (outs : List Nat) (h : count ≤ wr) :
    sp_loop hasBuf count restAdv restTest advEnd fuel st wr outs = (st, wr, outs) := by
  cases fuel with
  | zero => rfl
  | succ f => rw [sp_loop, if_pos h]

/-- When the safe-prime loop exits with the buffer filled, the final
counter sits 6 past the last value written (the loop always advances by
6 right after a write, before the full-buffer exit). -/
theorem sp_loop_fill (count : Nat) (restAdv : List Nat → Nat → List Nat)
    (restTest : List Nat → Bool) (advEnd : PPMod16bit → PPMod16bit)
    (hadv : ∀ ps, (advEnd ps).lsb = (ps.lsb + 6) % 2 ^ 64) :
    ∀ (fuel : Nat) (st : PPMod16bit) (wr : Nat) (outs : List Nat)
      (st2 : PPMod16bit) (wr2 : Nat) (outs2 : List Nat), wr < count →
      sp_loop true count restAdv restTest advEnd fuel st wr outs = (st2, wr2, outs2) →
      wr2 = count →
      ∃ x, outs2.getLast? = some x ∧ st2.lsb = (x + 6) % 2 ^ 64 := by
  intro fuel
  induction fuel with
  | zero =>
    intro st wr outs st2 wr2 outs2 hwr heq hcnt
    simp only [sp_loop, Prod.mk.injEq] at heq
    omega
  | succ fuel ih =>
    intro st wr outs st2 wr2 outs2 hwr heq hcnt
    rw [sp_loop, if_neg (Nat.not_le.mpr hwr)] at heq
    dsimp only at heq
    set sk := (skip_loop (fun v => spfactor_range v 0 64) 2731 st.modn 0).2 with hsk
    set stA := (if sk ≠ 0 then
        { state_advance_nr
            { st with modn := (skip_loop (fun v => spfactor_range v 0 64) 2731 st.modn 0).1 } sk
            with modn := restAdv (state_advance_nr
              { st with
                modn := (skip_loop (fun v => spfactor_range v 0 64) 2731 st.modn 0).1 } sk).modn sk }
      else state_advance_nr
        { st with modn := (skip_loop (fun v => spfactor_range v 0 64) 2731 st.modn 0).1 } sk)
      with hstA
    by_cases hof : sk >>> 14 ≠ 0
    · rw [if_pos hof] at heq
      exact ih _ _ _ _ _ _ hwr heq hcnt
    · rw [if_neg hof] at heq
      by_cases ht : restTest stA.modn
      · simp only [ht, if_true] at heq
        simp [report_current_lsb, hwr] at heq
        by_cases h1 : wr + 1 < count
        · exact ih _ _ _ _ _ _ h1 heq hcnt
        · rw [sp_loop_full true count restAdv restTest advEnd fuel (advEnd stA) (wr + 1)
            (outs ++ [stA.lsb]) (by omega)] at heq
          simp only [Prod.mk.injEq] at heq
          obtain ⟨h3, _, h5⟩ := heq
          refine ⟨stA.lsb, ?_, ?_⟩
          · rw [← h5]
            exact List.getLast?_concat _
          · rw [← h3]
            exact hadv stA
      · simp only [ht, Bool.false_eq_true, if_false] at heq
        exact ih _ _ _ _ _ _ hwr heq hcnt

/-- C6, amended: every driver entry point returns 0 and reports no
survivors on empty inputs (missing state or zero count), as claimed; but
the claimed return value is wrong for the twin/safe family: when the
buffered large-table safe loop exits with the buffer filled, the final
counter - which sfsieve_advance_l then returns as dst->lsb - is the last
written value PLUS 6, not the last written value (the state is indeed
past the last tested candidate, by that step of 6). -/
theorem claim_C6_drive_return_amended (count fuel : Nat) (st : PPMod16bit) (wr : Nat)
    (outs : List Nat) (st2 : PPMod16bit) (wr2 : Nat) (outs2 : List Nat)
    (hwr : wr < count)
    (heq : sp_loop true count simd_advance_remainders_rest_l simd_no_spfactor_rest_l
        (fun s => simd_advance_all_l s 6) fuel st wr outs = (st2, wr2, outs2))
    (hfill : wr2 = count) :
    (∀ (b : Bool) (c f r : Nat), plain_advance b c none r f = (0, [], none, r)) ∧
    (∀ (b : Bool) (c f : Nat), twin_advance_w b c none f = (0, [], none)) ∧
    (∀ (b : Bool) (c f : Nat), sfsieve_advance b c none f = (0, [], none)) ∧
    (∀ (b : Bool) (f r : Nat) (s : PPMod16bit), plain_advance b 0 (some s) r f
      = (0, [], some s, r)) ∧
    (∀ (b : Bool) (f : Nat) (s : PPMod16bit), twin_advance_w b 0 (some s) f = (0, [], some s)) ∧
    (∀ (b : Bool) (f : Nat) (s : PPMod16bit), sfsieve_advance b 0 (some s) f = (0, [], some s)) ∧
    ∃ x, outs2.getLast? = some x ∧ st2.lsb = (x + 6) % 2 ^ 64 := by
  refine ⟨?_, ?_, ?_, ?_, ?_, ?_, ?_⟩
  · intro b c f r
    rfl
  · intro b c f
    rfl
  · intro b c f
    rfl
  · intro b f r s
    simp [plain_advance, plain_advance_l, init_search]
  · intro b f s
    simp [twin_advance_w, twin_advance_l, init_search]
  · intro b f s
    unfold sfsieve_advance
    dsimp only
    split_ifs <;>
      simp [sfsieve_advance_l, sfsieve_advance_m, sfsieve_advance_s, init_search]
  · exact sp_loop_fill count _ _ _
      (fun ps => by simp [simd_advance_all_l, state_advance_nr]) fuel st wr outs
      st2 wr2 outs2 hwr heq hfill

/-- Witness: the one-survivor safe run from Q = 32381 (32381 and
2*32381 + 1 = 64763 are a safe-prime pair above the table) fills its
buffer, and the final counter is 6 past the written survivor. -/
theorem claim_C6_witness :
    (0 : Nat) < 1 ∧
    (sp_loop true 1 simd_advance_remainders_rest_l simd_no_spfactor_rest_l
        (fun s => simd_advance_all_l s 6) 1
        (mkState 32381 (SIMD_PRIMETYPE_SAFE ||| SIMD_SEARCHTABLE_L)) 0 []).2.1 = 1 ∧
    ∃ x, (sp_loop true 1 simd_advance_remainders_rest_l simd_no_spfactor_rest_l
        (fun s => simd_advance_all_l s 6) 1
        (mkState 32381 (SIMD_PRIMETYPE_SAFE ||| SIMD_SEARCHTABLE_L)) 0 []).2.2.getLast?
          = some x ∧
      (sp_loop true 1 simd_advance_remainders_rest_l simd_no_spfactor_rest_l
        (fun s => simd_advance_all_l s 6) 1
        (mkState 32381 (SIMD_PRIMETYPE_SAFE ||| SIMD_SEARCHTABLE_L)) 0 []).1.lsb
          = (x + 6) % 2 ^ 64 := by
  have hfill : (sp_loop true 1 simd_advance_remainders_rest_l simd_no_spfactor_rest_l
      (fun s => simd_advance_all_l s 6) 1
      (mkState 32381 (SIMD_PRIMETYPE_SAFE ||| SIMD_SEARCHTABLE_L)) 0 []).2.1 = 1 := by decide
  have heq : sp_loop true 1 simd_advance_remainders_rest_l simd_no_spfactor_rest_l
      (fun s => simd_advance_all_l s 6) 1
      (mkState 32381 (SIMD_PRIMETYPE_SAFE ||| SIMD_SEARCHTABLE_L)) 0 []
    = ((sp_loop true 1 simd_advance_remainders_rest_l simd_no_spfactor_rest_l
        (fun s => simd_advance_all_l s 6) 1
        (mkState 32381 (SIMD_PRIMETYPE_SAFE ||| SIMD_SEARCHTABLE_L)) 0 []).1,
      (sp_loop true 1 simd_advance_remainders_rest_l simd_no_spfactor_rest_l
        (fun s => simd_advance_all_l s 6) 1
        (mkState 32381 (SIMD_PRIMETYPE_SAFE ||| SIMD_SEARCHTABLE_L)) 0 []).2.1,
      (sp_loop true 1 simd_advance_remainders_rest_l simd_no_spfactor_rest_l
        (fun s => simd_advance_all_l s 6) 1
        (mkState 32381 (SIMD_PRIMETYPE_SAFE ||| SIMD_SEARCHTABLE_L)) 0 []).2.2) := rfl
  exact ⟨Nat.zero_lt_one, hfill,
    (claim_C6_drive_return_amended 1 1 _ 0 [] _ _ _ Nat.zero_lt_one heq hfill).2.2.2.2.2.2⟩

/-- Counterexample to C6 as stated: the buffered safe search from
Q = 32381 (count 1, tier L) writes 32381 but returns 32387 - the driver
returns the buffer content's last value plus 6, not the last lsb value
written. -/
theorem claim_C6_counterexample :
    (sfsieve_advance true 1
        (some (mkState 32381 (SIMD_PRIMETYPE_SAFE ||| SIMD_SEARCHTABLE_L))) 2).1 = 32387 ∧
    (sfsieve_advance true 1
        (some (mkState 32381 (SIMD_PRIMETYPE_SAFE ||| SIMD_SEARCHTABLE_L))) 2).2.1 = [32381] ∧
    (32387 : Nat) ≠ 32381 := by
  refine ⟨by decide, by decide, by decide⟩

end Simddivide

namespace Simddivide

/-- Every value the plain loop appends to the output list is at least
the counter it starts from: writes happen at the current and the +4
position, and the counter only moves forward (absent a 2 ^ 64 wrap). -/
theorem plain_loop_ge (count : Nat) :
    ∀ (fuel : Nat) (st : PPMod16bit) (wr : Nat) (outs : List Nat),
      st.lsb + 6 * fuel < 2 ^ 64 →
      (st.mode &&& SIMD_SEARCHTABLE_MASK = SIMD_SEARCHTABLE_S ∨
       st.mode &&& SIMD_SEARCHTABLE_MASK = SIMD_SEARCHTABLE_M ∨
       st.mode &&& SIMD_SEARCHTABLE_MASK = SIMD_SEARCHTABLE_L) →
      ∀ x, x ∈ (plain_loop true count fuel st wr outs).2.2 → x ∈ outs ∨ st.lsb ≤ x := by
  intro fuel
  induction fuel with
  | zero =>
    intro st wr outs _ _ x hx
    simp only [plain_loop] at hx
    exact Or.inl hx
  | succ fuel ih =>
    intro st wr outs hb hm x hx
    rw [plain_loop] at hx
    by_cases hwr : count ≤ wr
    · rw [if_pos hwr] at hx
      exact Or.inl hx
    · rw [if_neg hwr] at hx
      have h4 := simd_advance_all_lm st 4 hm
      have h4lsb : (simd_advance_all st 4).lsb = st.lsb + 4 := by
        rw [h4.1, Nat.mod_eq_of_lt (by omega)]
      have h6 := simd_advance_all_lm (simd_advance_all st 4) 2 (by rw [h4.2]; exact hm)
      have h6lsb : (simd_advance_all (simd_advance_all st 4) 2).lsb = st.lsb + 6 := by
        rw [h6.1, h4lsb, Nat.mod_eq_of_lt (by omega)]
      cases hc1 : simd_has_no_factor_l st.modn with
      | true =>
        simp [simd_check_plain1_l, report_current_lsb, hc1, Nat.not_le.mp hwr] at hx
        by_cases h1 : wr + 1 < count
        · rw [if_pos h1] at hx
          cases hc2 : simd_has_no_factor_l (simd_advance_all st 4).modn with
          | true =>
            simp [simd_check_plain1_l, report_current_lsb, hc2, h1] at hx
            by_cases h2 : wr + 1 + 1 < count
            · rw [if_pos h2] at hx
              have := ih _ _ _ (by rw [h6lsb]; omega)
                (by rw [h6.2, h4.2]; exact hm) x hx
              rcases this with hin | hge
              · simp at hin
                rcases hin with hin | hin | hin
                · exact Or.inl hin
                · omega
                · omega
              · rw [h6lsb] at hge
                omega
            · rw [if_neg h2] at hx
              simp at hx
              rcases hx with hin | hin | hin
              · exact Or.inl hin
              · omega
              · omega
          | false =>
            simp [simd_check_plain1_l, hc2] at hx
            rw [if_pos h1] at hx
            have := ih _ _ _ (by rw [h6lsb]; omega)
              (by rw [h6.2, h4.2]; exact hm) x hx
            rcases this with hin | hge
            · simp at hin
              rcases hin with hin | hin
              · exact Or.inl hin
              · omega
            · rw [h6lsb] at hge
              omega
        · rw [if_neg h1] at hx
          simp at hx
          rcases hx with hin | hin
          · exact Or.inl hin
          · omega
      | false =>
        simp [simd_check_plain1_l, hc1] at hx
        rw [if_pos (Nat.not_le.mp hwr)] at hx
        cases hc2 : simd_has_no_factor_l (simd_advance_all st 4).modn with
        | true =>
          simp [simd_check_plain1_l, report_current_lsb, hc2, Nat.not_le.mp hwr] at hx
          by_cases h2 : wr + 1 < count
          · rw [if_pos h2] at hx
            have := ih _ _ _ (by rw [h6lsb]; omega)
              (by rw [h6.2, h4.2]; exact hm) x hx
            rcases this with hin | hge
            · simp at hin
              rcases hin with hin | hin
              · exact Or.inl hin
              · omega
            · rw [h6lsb] at hge
              omega
          · rw [if_neg h2] at hx
            simp at hx
            rcases hx with hin | hin
            · exact Or.inl hin
            · omega
        | false =>
          simp [simd_check_plain1_l, hc2] at hx
          rw [if_pos (Nat.not_le.mp hwr)] at hx
          have := ih _ _ _ (by rw [h6lsb]; omega)
            (by rw [h6.2, h4.2]; exact hm) x hx
          rcases this with hin | hge
          · exact Or.inl hin
          · rw [h6lsb] at hge
            omega

/-- Plain-driver outputs exceed 107 whenever the three checks at the
start (the 6k+5 candidate, the following 6k+1 and 6k+5) fail and the
loop is then positioned at 109 with a recognized tier: the outputs never
fall below the current counter. -/
theorem plain_gt_of_checks (S : PPMod16bit) (fuel : Nat) (hf : fuel ≤ 2 ^ 60)
    (hmod6 : (scan_pkcs1_init S).mod6 = 5)
    (hch1 : simd_has_no_factor (scan_pkcs1_init S).modn = false)
    (hch2 : simd_has_no_factor_l (simd_advance_all (scan_pkcs1_init S) 2).modn = false)
    (hch3 : simd_has_no_factor_l
      (simd_advance_all (simd_advance_all (scan_pkcs1_init S) 2) 4).modn = false)
    (hlsb : (simd_advance_all (simd_advance_all
      (simd_advance_all (scan_pkcs1_init S) 2) 4) 2).lsb = 109)
    (hmode : (simd_advance_all (simd_advance_all
        (simd_advance_all (scan_pkcs1_init S) 2) 4) 2).mode &&& SIMD_SEARCHTABLE_MASK
      = SIMD_SEARCHTABLE_S) :
    ∀ x, x ∈ (plain_advance_l true 3 (some S) 0 fuel).2.1 → 107 < x := by
  intro x hx
  have hentry : (plain_advance_l true 3 (some S) 0 fuel).2.1
      = (plain_loop true 3 fuel (simd_advance_all (scan_pkcs1_init S) 2) 0 []).2.2 := by
    simp [plain_advance_l, init_search, SIMD_PRIMETYPE_TWIN, SIMD_PRIMETYPE_SAFE,
      plain_advance_to_6kp1, hmod6, simd_check_plain1, hch1]
  rw [hentry] at hx
  cases fuel with
  | zero => simp [plain_loop] at hx
  | succ f =>
    rw [plain_loop] at hx
    simp only [Nat.not_le.mpr (show (0 : Nat) < 3 by omega), if_false] at hx
    simp [simd_check_plain1_l, hch2, hch3] at hx
    have := plain_loop_ge 3 f _ 0 []
      (by rw [hlsb]; omega) (by rw [hmode]; exact Or.inl rfl) x hx
    rcases this with hin | hge
    · simp at hin
    · rw [hlsb] at hge
      omega

/-- From Q = 101 (plain, tier S) every reported survivor exceeds 107:
the checks at 101, 103 and 107 all fail (each of those primes sits in
table block 0 and divides itself) and the loop is then positioned at
109. -/
theorem plain101_gt (fuel : Nat) (hf : fuel ≤ 2 ^ 60) :
    ∀ x, x ∈ (plain_advance_l true 3
      (some (mkState 101 (SIMD_PRIMETYPE_PLAIN ||| SIMD_SEARCHTABLE_S))) 0 fuel).2.1 →
      107 < x :=
  plain_gt_of_checks (mkState 101 (SIMD_PRIMETYPE_PLAIN ||| SIMD_SEARCHTABLE_S)) fuel hf
    (by decide) (by decide) (by decide) (by decide) (by decide) (by decide)

/-- C7, amended: the claimed scenario outputs are wrong.  101, 103 and
107 do sit among the first 64 table entries - and precisely because of
that each divides itself, fails the no-factor check and is never
written: with prime type Plain, tier S, Q = 101 and count 3, every
value the driver writes exceeds 107 (whatever the iteration budget, up
to the 2 ^ 60 no-wrap bound; the first survivors are in fact 331, 337,
347). -/
theorem claim_C7_scenario_amended (fuel : Nat) (hf : fuel ≤ 2 ^ 60) :
    (firstprimes.take 64).contains 101 = true ∧
    (firstprimes.take 64).contains 103 = true ∧
    (firstprimes.take 64).contains 107 = true ∧
    ∀ x, x ∈ (plain_advance_l true 3
      (some (mkState 101 (SIMD_PRIMETYPE_PLAIN ||| SIMD_SEARCHTABLE_S))) 0 fuel).2.1 →
      107 < x :=
  ⟨by decide, by decide, by decide, plain101_gt fuel hf⟩

/-- Witness: at iteration budget 3 the hypotheses hold and all outputs
of the Q = 101 run exceed 107. -/
theorem claim_C7_witness :
    (3 : Nat) ≤ 2 ^ 60 ∧
    ((firstprimes.take 64).contains 101 = true ∧
     (firstprimes.take 64).contains 103 = true ∧
     (firstprimes.take 64).contains 107 = true ∧
     ∀ x, x ∈ (plain_advance_l true 3
       (some (mkState 101 (SIMD_PRIMETYPE_PLAIN ||| SIMD_SEARCHTABLE_S))) 0 3).2.1 →
       107 < x) :=
  ⟨by decide, claim_C7_scenario_amended 3 (by decide)⟩

/-- Counterexample to C7 as stated: the Q = 101, count 3 plain run does
not output [101, 103, 107] (101 would have to exceed 107 to be
written). -/
theorem claim_C7_counterexample :
    (plain_advance_l true 3
      (some (mkState 101 (SIMD_PRIMETYPE_PLAIN ||| SIMD_SEARCHTABLE_S))) 0 (2 ^ 60)).2.1
      ≠ [101, 103, 107] := by
  intro hEq
  have h := plain101_gt (2 ^ 60) (Nat.le_refl _) 101 (by rw [hEq]; exact List.mem_cons_self _ _)
  omega

end Simddivide

namespace Simddivide

/-- C10: the source's own description of the NULL-buffer convention does
not match the code for the twin/safe family.  A missing output buffer is
accepted and the count is coerced to 1 (init_search), report_current_lsb
increments its index without storing, and the driver advances past the
one surviving candidate - but sfsieve_advance then returns that
survivor's lsb PLUS 6 (the trailing advance), not the survivor's lsb:
from the safe state Q = 32381 (itself a safe-prime survivor, as both
checks at the start position show) the NULL-buffer call returns 32387.
The plain driver, which skips the trailing advance, does return the
survivor itself (331 from Q = 331). -/
theorem claim_C10_null_buffer :
    (init_search false 5
      (some (mkState 32381 (SIMD_PRIMETYPE_SAFE ||| SIMD_SEARCHTABLE_L)))
      SIMD_PRIMETYPE_SAFE).1 = 1 ∧
    report_current_lsb false 1 32381 0 [] = (1, []) ∧
    spfactor_range (mkState 32381 (SIMD_PRIMETYPE_SAFE ||| SIMD_SEARCHTABLE_L)).modn 0 64
      = true ∧
    simd_no_spfactor_rest_l
      (mkState 32381 (SIMD_PRIMETYPE_SAFE ||| SIMD_SEARCHTABLE_L)).modn = true ∧
    (sfsieve_advance false 5
      (some (mkState 32381 (SIMD_PRIMETYPE_SAFE ||| SIMD_SEARCHTABLE_L))) 2).2.1 = [] ∧
    (sfsieve_advance false 5
      (some (mkState 32381 (SIMD_PRIMETYPE_SAFE ||| SIMD_SEARCHTABLE_L))) 2).1 = 32387 ∧
    (32387 : Nat) ≠ 32381 ∧
    (plain_advance_l false 5
      (some (mkState 331 (SIMD_PRIMETYPE_PLAIN ||| SIMD_SEARCHTABLE_S))) 0 3).2.1 = [] ∧
    (plain_advance_l false 5
      (some (mkState 331 (SIMD_PRIMETYPE_PLAIN ||| SIMD_SEARCHTABLE_S))) 0 3).1 = 331 := by
  refine ⟨by decide, by decide, by decide, by decide, by decide, by decide, by decide,
    by decide, by decide⟩

end Simddivide
